import Mathlib

/-!
# KiCad GUI glue: a verification development

Shallow embedding of three pieces of the KiCad sources and proofs about them:

* `gerbview/select_layers_to_pcb.cpp`   (namespace `Gerbview`): the dialog that maps
  gerber layers to PCB layers;
* `3d-viewer/3d_viewer/eda_3d_viewer.cpp` (namespace `Viewer3D`): the 3D viewer frame;
* `pcbnew/dialogs/dialog_global_edit_tracks_and_vias.cpp` (namespace `GlobalEdit`).

C++ `int` values are integers (`Int`); no modelled computation leaves the 32-bit range
on the inputs the theorems quantify over, which is stated where it matters.  C arrays are
functions from the index to the entry; only the entries below the array size are
meaningful.  Loops are structural recursions on the number of iterations.
-/

/-! ## Common helpers -/

/-- Array write `a[i] = v` on an array modelled as a function of the index. -/
def setAt {α : Type} (a : Nat → α) (i : Nat) (v : α) : Nat → α :=
  fun j => if j = i then v else a j

/-- The loop `for( ii = 0; ii < n; ++ii ) body`: the body runs for 0, 1, .., n-1 in this
order. -/
def forLoop {σ : Type} (body : Nat → σ → σ) : Nat → σ → σ
  | 0, s => s
  | n + 1, s => body n (forLoop body n s)

/-! ## gerbview: `LAYERS_MAP_DIALOG` -/

namespace Gerbview

/-- The layer constants the dialog uses.  They are declared in
`layers_id_colors_and_visibility.h`, which is not among the sources, and are therefore
parameters of the embedding. -/
structure LayerIds where
  /-- Size of the gerber layer arrays. -/
  GERBER_DRAWLAYERS_COUNT : Nat
  /-- The front copper layer id. -/
  F_Cu : Int
  /-- The back copper layer id. -/
  B_Cu : Int
  /-- The marker of a gerber layer that is not exported. -/
  UNSELECTED_LAYER : Int
  /-- The predicate `IsValidLayer`. -/
  IsValidLayer : Int → Bool

/-- The values these constants have in KiCad's layer header: `F_Cu` is the first PCB
layer id (0), the inner copper layers `In1_Cu .. In30_Cu` are 1 .. 30, `B_Cu` is 31,
`UNSELECTED_LAYER` is -2 and there are 32 gerber draw layers.  Used for concrete
evaluations only; the general theorems are stated for arbitrary constants. -/
def kicadLayerIds : LayerIds :=
  { GERBER_DRAWLAYERS_COUNT := 32
    F_Cu := 0
    B_Cu := 31
    UNSELECTED_LAYER := -2
    IsValidLayer := fun l => decide (0 ≤ l ∧ l < 50) }

/-- What a `wxStaticText` of the right hand column shows. -/
inductive LabelText where
  /-- The text "Do not export". -/
  | doNotExport
  /-- The text `GetPCBDefaultLayerName( layer )`. -/
  | layerName (layer : Int)
  deriving DecidableEq

/-- Foreground colour of a `wxStaticText`. -/
inductive Colour where
  /-- The default colour (`wxNullColour`, or never set). -/
  | null
  /-- The colour `*wxBLUE`. -/
  | blue
  /-- The colour `wxColour( r, g, b )`. -/
  | rgb (r g b : Nat)
  deriving DecidableEq

/-- The part of a `wxStaticText` the dialog reads and writes. -/
structure StaticText where
  label : LabelText
  foreground : Colour
  deriving DecidableEq

/-- The state of `LAYERS_MAP_DIALOG`, together with the static member
`m_exportBoardCopperLayersCount` and the selection of `m_comboCopperLayersCount`. -/
structure LAYERS_MAP_DIALOG where
  m_layersLookUpTable : Nat → Int
  m_buttonTable : Nat → Int
  m_gerberActiveLayersCount : Nat
  m_exportBoardCopperLayersCount : Int
  m_layersList : Nat → StaticText
  comboSelection : Int

/-- The settings object `GERBVIEW_SETTINGS`, as far as the dialog uses it. -/
structure GERBVIEW_SETTINGS where
  m_BoardLayersCount : Int
  m_GerberToPcbLayerMapping : List Int
  deriving DecidableEq

/-- The function `LAYERS_MAP_DIALOG::normalizeBrdLayersCount` on the value of
`m_exportBoardCopperLayersCount`.  `count & 1` is the bitwise and of two's complement
integers (`Int.land`); the increment is the mathematical one, which is what the C++
computes for every count below `INT_MAX`. -/
def normalizeBrdLayersCount (c : LayerIds) (count : Int) : Int :=
  let count := if Int.land count 1 ≠ 0 then count + 1 else count
  let count := if count > (c.GERBER_DRAWLAYERS_COUNT : Int) then
    (c.GERBER_DRAWLAYERS_COUNT : Int) else count
  if count < 2 then 2 else count

/-- The adjustment both `initDialog` and `OnResetClick` make to the running layer number:
`if( (layer == count - 1) && (count > 1) ) layer = F_Cu;`. -/
def adjustLayer (c : LayerIds) (count layer : Int) : Int :=
  if layer = count - 1 ∧ count > 1 then c.F_Cu else layer

/-- First loop of `initDialog`: the default value of each member of the two arrays. -/
def initArrays (c : LayerIds) (s : LAYERS_MAP_DIALOG) : LAYERS_MAP_DIALOG :=
  forLoop (fun ii s =>
    { s with m_buttonTable := setAt s.m_buttonTable ii (-1)
             m_layersLookUpTable := setAt s.m_layersLookUpTable ii c.UNSELECTED_LAYER })
    c.GERBER_DRAWLAYERS_COUNT s

/-- Second loop of `initDialog`, `for( ii = 0; ii < GERBER_DRAWLAYERS_COUNT; ++ii )`, with
`remaining` iterations still to run from index `ii`.  `GetGbrImage ii` tells whether
`images->GetGbrImage( ii )` is an image (not `NULL`); the loop is left at the first slot
without one. -/
def initImagesLoop (c : LayerIds) (GetGbrImage : Nat → Bool) :
    Nat → Nat → Int → LAYERS_MAP_DIALOG → LAYERS_MAP_DIALOG
  | 0, _, _, s => s
  | remaining + 1, ii, pcb_layer_num, s =>
    if GetGbrImage ii = false then s
    else
      let pcb_layer_num := adjustLayer c s.m_exportBoardCopperLayersCount pcb_layer_num
      initImagesLoop c GetGbrImage remaining (ii + 1) (pcb_layer_num + 1)
        { s with m_buttonTable := setAt s.m_buttonTable s.m_gerberActiveLayersCount (ii : Int)
                 m_layersLookUpTable := setAt s.m_layersLookUpTable ii pcb_layer_num
                 m_gerberActiveLayersCount := s.m_gerberActiveLayersCount + 1 }

/-- Third loop of `initDialog`: one static text per active row, showing the name of the
PCB layer the row is mapped to, in the default colour. -/
def initTexts (s : LAYERS_MAP_DIALOG) : LAYERS_MAP_DIALOG :=
  forLoop (fun ii s =>
    { s with
      m_layersList := setAt s.m_layersList ii
        (StaticText.mk
          (LabelText.layerName (s.m_layersLookUpTable (s.m_buttonTable ii).toNat))
          Colour.null) })
    s.m_gerberActiveLayersCount s

/-- The function `LAYERS_MAP_DIALOG::initDialog`.  The argument `s` is the object before
the call: its arrays hold arbitrary values and its copper layer count is the current
value of the static member. -/
def initDialog (c : LayerIds) (GetGbrImage : Nat → Bool) (s : LAYERS_MAP_DIALOG) :
    LAYERS_MAP_DIALOG :=
  let s := initArrays c s
  let s := { s with
    m_exportBoardCopperLayersCount :=
      normalizeBrdLayersCount c s.m_exportBoardCopperLayersCount }
  let s := { s with comboSelection := Int.tdiv s.m_exportBoardCopperLayersCount 2 - 1 }
  let s := { s with m_gerberActiveLayersCount := 0 }
  let s := initImagesLoop c GetGbrImage c.GERBER_DRAWLAYERS_COUNT 0 0 s
  initTexts s

/-- The function `LAYERS_MAP_DIALOG::OnBrdLayersCountSelection` for the combo selection
`id`. -/
def OnBrdLayersCountSelection (id : Int) (s : LAYERS_MAP_DIALOG) : LAYERS_MAP_DIALOG :=
  { s with m_exportBoardCopperLayersCount := (id + 1) * 2 }

/-- The function `LAYERS_MAP_DIALOG::OnResetClick`.  The loop state is the running
`layer` and the dialog. -/
def OnResetClick (c : LayerIds) (s : LAYERS_MAP_DIALOG) : LAYERS_MAP_DIALOG :=
  (forLoop (fun ii (p : Int × LAYERS_MAP_DIALOG) =>
      let layer := adjustLayer c p.2.m_exportBoardCopperLayersCount p.1
      (layer + 1,
        { p.2 with
            m_layersLookUpTable := setAt p.2.m_layersLookUpTable ii layer
            m_layersList := setAt p.2.m_layersList ii
              (StaticText.mk (LabelText.layerName layer) Colour.null)
            m_buttonTable := setAt p.2.m_buttonTable ii (ii : Int) }))
    s.m_gerberActiveLayersCount (0, s)).2

/-- The function `LAYERS_MAP_DIALOG::OnStoreSetup`: the new contents of the settings. -/
def OnStoreSetup (c : LayerIds) (s : LAYERS_MAP_DIALOG) (config : GERBVIEW_SETTINGS) :
    GERBVIEW_SETTINGS :=
  let config := { config with m_BoardLayersCount := s.m_exportBoardCopperLayersCount }
  let config := { config with m_GerberToPcbLayerMapping := [] }
  forLoop (fun ii config =>
    { config with
      m_GerberToPcbLayerMapping :=
        config.m_GerberToPcbLayerMapping ++ [s.m_layersLookUpTable ii] })
    c.GERBER_DRAWLAYERS_COUNT config

/-- The text and colour `OnGetSetup` and `OnSelectLayer` give to the row of a layer. -/
def exportText (c : LayerIds) (layer : Int) : StaticText :=
  if layer = c.UNSELECTED_LAYER then
    StaticText.mk LabelText.doNotExport Colour.blue
  else
    StaticText.mk (LabelText.layerName layer) (Colour.rgb 255 0 128)

/-- First loop of `OnGetSetup`: the lookup table is read from the stored vector. -/
def getSetupTable (c : LayerIds) (config : GERBVIEW_SETTINGS) (s : LAYERS_MAP_DIALOG) :
    LAYERS_MAP_DIALOG :=
  forLoop (fun ii s =>
    { s with
      m_layersLookUpTable :=
        setAt s.m_layersLookUpTable ii (config.m_GerberToPcbLayerMapping.getD ii 0) })
    c.GERBER_DRAWLAYERS_COUNT s

/-- Second loop of `OnGetSetup`: the text of each active row is refreshed. -/
def getSetupTexts (c : LayerIds) (s : LAYERS_MAP_DIALOG) : LAYERS_MAP_DIALOG :=
  forLoop (fun ii s =>
    { s with
      m_layersList :=
        setAt s.m_layersList ii (exportText c (s.m_layersLookUpTable ii)) })
    s.m_gerberActiveLayersCount s

/-- The function `LAYERS_MAP_DIALOG::OnGetSetup`.  It reads the first
`GERBER_DRAWLAYERS_COUNT` entries of the stored vector; with a shorter vector the C++
reads out of bounds, and the result is `none`. -/
def OnGetSetup (c : LayerIds) (config : GERBVIEW_SETTINGS) (s : LAYERS_MAP_DIALOG) :
    Option LAYERS_MAP_DIALOG :=
  if config.m_GerberToPcbLayerMapping.length < c.GERBER_DRAWLAYERS_COUNT then none
  else
    let s := { s with
      m_exportBoardCopperLayersCount := normalizeBrdLayersCount c config.m_BoardLayersCount }
    let s := { s with comboSelection := Int.tdiv s.m_exportBoardCopperLayersCount 2 - 1 }
    let s := getSetupTable c config s
    some (getSetupTexts c s)

/-- The function `LAYERS_MAP_DIALOG::OnSelectLayer` for the button of row `ii`
(`event.GetId() - ID_BUTTON_0`).  `SelectPCBLayer` is the layer chooser of the parent
frame, called with the default layer and the copper layer count.  A row whose
`m_buttonTable` entry is not an index of the lookup table makes the C++ index out of
bounds, and the result is `none`. -/
def OnSelectLayer (c : LayerIds) (SelectPCBLayer : Int → Int → Int) (ii : Int)
    (s : LAYERS_MAP_DIALOG) : Option LAYERS_MAP_DIALOG :=
  if ii < 0 ∨ ii ≥ (c.GERBER_DRAWLAYERS_COUNT : Int) then some s
  else
    let b := s.m_buttonTable ii.toNat
    if b < 0 ∨ b ≥ (c.GERBER_DRAWLAYERS_COUNT : Int) then none
    else
      let jj := s.m_layersLookUpTable b.toNat
      let jj := if jj ≠ c.UNSELECTED_LAYER ∧ c.IsValidLayer jj = false then c.B_Cu else jj
      let jj := SelectPCBLayer jj s.m_exportBoardCopperLayersCount
      if jj ≠ c.UNSELECTED_LAYER ∧ c.IsValidLayer jj = false then some s
      else if jj ≠ s.m_layersLookUpTable b.toNat then
        some { s with m_layersLookUpTable := setAt s.m_layersLookUpTable b.toNat jj
                      m_layersList := setAt s.m_layersList ii.toNat (exportText c jj) }
      else some s

/-- What `OnOkClick` does after its test. -/
inductive OkOutcome where
  /-- The message box "The exported board has not enough copper layers to handle selected
  inner layers" is shown and the handler returns without closing the dialog. -/
  | notEnoughCopperLayers
  /-- The call `EndModal( wxID_OK )`. -/
  | endModal
  deriving DecidableEq

/-- The loop of `OnOkClick` that computes `inner_layer_max`. -/
def innerLayerMax (c : LayerIds) (table : Nat → Int) : Int :=
  forLoop (fun ii inner_layer_max =>
    if table ii < c.F_Cu then
      if table ii > inner_layer_max then table ii else inner_layer_max
    else inner_layer_max)
    c.GERBER_DRAWLAYERS_COUNT 0

/-- The function `LAYERS_MAP_DIALOG::OnOkClick`: the dialog after the call and what the
handler did. -/
def OnOkClick (c : LayerIds) (s : LAYERS_MAP_DIALOG) : LAYERS_MAP_DIALOG × OkOutcome :=
  let s := { s with
    m_exportBoardCopperLayersCount :=
      normalizeBrdLayersCount c s.m_exportBoardCopperLayersCount }
  let inner_layer_max := innerLayerMax c s.m_layersLookUpTable
  if inner_layer_max > s.m_exportBoardCopperLayersCount - 2 then
    (s, OkOutcome.notEnoughCopperLayers)
  else (s, OkOutcome.endModal)

/-- The dialog at the start of the second loop of `initDialog`: the arrays hold their
default values, the copper layer count is normalised and no row is active. -/
def initStart (c : LayerIds) (s : LAYERS_MAP_DIALOG) : LAYERS_MAP_DIALOG :=
  { initArrays c s with
    m_exportBoardCopperLayersCount :=
      normalizeBrdLayersCount c (initArrays c s).m_exportBoardCopperLayersCount
    comboSelection :=
      Int.tdiv (normalizeBrdLayersCount c (initArrays c s).m_exportBoardCopperLayersCount) 2 - 1
    m_gerberActiveLayersCount := 0 }

/-- The running layer number of `initDialog` and `OnResetClick` at the start of iteration
`k`: it starts at 0 and each iteration adjusts it, assigns it and increments it. -/
def runningLayer (c : LayerIds) (count : Int) : Nat → Int
  | 0 => 0
  | k + 1 => adjustLayer c count (runningLayer c count k) + 1

/-- The PCB layer iteration `k` assigns. -/
def defaultLayer (c : LayerIds) (count : Int) (k : Nat) : Int :=
  adjustLayer c count (runningLayer c count k)

/-- Number of consecutive slots holding an image, starting at slot `ii` and looking at
`remaining` slots at most. -/
def leadingImages (GetGbrImage : Nat → Bool) : Nat → Nat → Nat
  | 0, _ => 0
  | remaining + 1, ii =>
    if GetGbrImage ii = false then 0 else leadingImages GetGbrImage remaining (ii + 1) + 1

/-- Number of loaded images among the first `n` slots. -/
def loadedImages (GetGbrImage : Nat → Bool) (n : Nat) : Nat :=
  ((List.range n).filter GetGbrImage).length

/-- The dialog states reachable once `initDialog` has run for the image list
`GetGbrImage`, by the handlers of the dialog.  `OnStoreSetup` does not change the dialog.
The combo box offers the even counts from 2 to `GERBER_DRAWLAYERS_COUNT`. -/
inductive Reachable (c : LayerIds) (GetGbrImage : Nat → Bool) : LAYERS_MAP_DIALOG → Prop where
  | init (s0 : LAYERS_MAP_DIALOG) : Reachable c GetGbrImage (initDialog c GetGbrImage s0)
  | getSetup (config : GERBVIEW_SETTINGS) (s s' : LAYERS_MAP_DIALOG) :
      Reachable c GetGbrImage s → OnGetSetup c config s = some s' →
      Reachable c GetGbrImage s'
  | selectLayer (SelectPCBLayer : Int → Int → Int) (ii : Int) (s s' : LAYERS_MAP_DIALOG) :
      Reachable c GetGbrImage s → OnSelectLayer c SelectPCBLayer ii s = some s' →
      Reachable c GetGbrImage s'
  | reset (s : LAYERS_MAP_DIALOG) :
      Reachable c GetGbrImage s → Reachable c GetGbrImage (OnResetClick c s)
  | countSelection (id : Int) (s : LAYERS_MAP_DIALOG) :
      0 ≤ id → (id + 1) * 2 ≤ (c.GERBER_DRAWLAYERS_COUNT : Int) →
      Reachable c GetGbrImage s → Reachable c GetGbrImage (OnBrdLayersCountSelection id s)

/-! ### Concrete dialogs used in evaluations -/

/-- A dialog object before `initDialog`, with a copper layer count of 2. -/
def blankDialog : LAYERS_MAP_DIALOG :=
  { m_layersLookUpTable := fun _ => 0
    m_buttonTable := fun _ => 0
    m_gerberActiveLayersCount := 0
    m_exportBoardCopperLayersCount := 2
    m_layersList := fun _ => StaticText.mk LabelText.doNotExport Colour.null
    comboSelection := 0 }

/-- An image list with images in the first `n` slots. -/
def firstSlots (n : Nat) : Nat → Bool := fun ii => decide (ii < n)

/-- A dialog for one loaded gerber file whose layer was mapped to the inner copper layer
`In5_Cu` (layer id 5), on a board with 2 copper layers: the state after the layer was
chosen for a board with more copper layers and the count was set back to 2. -/
def innerLayerDialog : LAYERS_MAP_DIALOG :=
  { initDialog kicadLayerIds (firstSlots 1) blankDialog with
    m_layersLookUpTable :=
      setAt (initDialog kicadLayerIds (firstSlots 1) blankDialog).m_layersLookUpTable 0 5 }

/-- A settings object before anything is stored in it. -/
def emptySettings : GERBVIEW_SETTINGS :=
  { m_BoardLayersCount := 0, m_GerberToPcbLayerMapping := [] }

/-- The settings stored from the dialog for two loaded gerber files. -/
def twoFilesSettings : GERBVIEW_SETTINGS :=
  OnStoreSetup kicadLayerIds (initDialog kicadLayerIds (firstSlots 2) blankDialog)
    emptySettings

/-- A dialog for one loaded gerber file into which the settings stored for two files were
read back. -/
def oneFileAfterGetSetup : Option LAYERS_MAP_DIALOG :=
  OnGetSetup kicadLayerIds twoFilesSettings (initDialog kicadLayerIds (firstSlots 1) blankDialog)

/-- An image list whose only image is in slot 1: slot 0 is empty. -/
def onlySlotOne : Nat → Bool := fun ii => decide (ii = 1)

/-- The layer `SelectPCBLayer` returns in `OnSelectLayer` for the button of row `ii`: it is
called with the layer the row is mapped to (`B_Cu` when that is neither
`UNSELECTED_LAYER` nor a valid layer) and with the copper layer count. -/
def chosenLayer (c : LayerIds) (SelectPCBLayer : Int → Int → Int) (ii : Nat)
    (s : LAYERS_MAP_DIALOG) : Int :=
  let jj := s.m_layersLookUpTable (s.m_buttonTable ii).toNat
  let jj := if jj ≠ c.UNSELECTED_LAYER ∧ c.IsValidLayer jj = false then c.B_Cu else jj
  SelectPCBLayer jj s.m_exportBoardCopperLayersCount

/-- A layer chooser whose user always picks the layer `jj`. -/
def alwaysPick (jj : Int) : Int → Int → Int := fun _ _ => jj
/-- The colour `wxColour( 255, 0, 128 )` of the text of an exported layer. -/
def fuchsia : Colour := Colour.rgb 255 0 128

/-- The dialog for one loaded gerber file after `OnResetClick`. -/
def oneFileAfterReset : LAYERS_MAP_DIALOG :=
  OnResetClick kicadLayerIds (initDialog kicadLayerIds (firstSlots 1) blankDialog)

end Gerbview

/-! ## 3d-viewer: `EDA_3D_VIEWER` -/

namespace Viewer3D

/-- The display flags `DISPLAY3D_FLG` named in `eda_3d_viewer.cpp`; `other n` stands for
the enumerators the file does not name. -/
inductive DISPLAY3D_FLG where
  | FL_AXIS
  | FL_ZONE
  | FL_ADHESIVE
  | FL_SILKSCREEN
  | FL_SOLDERMASK
  | FL_SOLDERPASTE
  | FL_COMMENTS
  | FL_ECO
  | FL_MODULE_ATTRIBUTES_NORMAL
  | FL_MODULE_ATTRIBUTES_NORMAL_INSERT
  | FL_MODULE_ATTRIBUTES_VIRTUAL
  | FL_SHOW_BOARD_BODY
  | FL_MOUSEWHEEL_PANNING
  | FL_USE_REALISTIC_MODE
  | FL_SUBTRACT_MASK_FROM_SILK
  | FL_RENDER_OPENGL_SHOW_MODEL_BBOX
  | FL_RENDER_OPENGL_COPPER_THICKNESS
  | FL_RENDER_RAYTRACING_SHADOWS
  | FL_RENDER_RAYTRACING_BACKFLOOR
  | FL_RENDER_RAYTRACING_REFRACTIONS
  | FL_RENDER_RAYTRACING_REFLECTIONS
  | FL_RENDER_RAYTRACING_POST_PROCESSING
  | FL_RENDER_RAYTRACING_ANTI_ALIASING
  | FL_RENDER_RAYTRACING_PROCEDURAL_TEXTURES
  | other (n : Nat)
  deriving DecidableEq

/-- A value of the scoped enumeration `GRID3D_TYPE`, given by its underlying `int`. -/
structure GRID3D_TYPE where
  value : Int
  deriving DecidableEq

/-- A value of the scoped enumeration `RENDER_ENGINE`, given by its underlying `int`. -/
structure RENDER_ENGINE where
  value : Int
  deriving DecidableEq

/-- A value of the scoped enumeration `MATERIAL_MODE`, given by its underlying `int`. -/
structure MATERIAL_MODE where
  value : Int
  deriving DecidableEq

/-! The enumerators are numbered in the order in which the file names them; the theorems
use no more than that they differ. -/

def GRID3D_TYPE.NONE : GRID3D_TYPE := ⟨0⟩
def GRID3D_TYPE.GRID_1MM : GRID3D_TYPE := ⟨1⟩
def GRID3D_TYPE.GRID_2P5MM : GRID3D_TYPE := ⟨2⟩
def GRID3D_TYPE.GRID_5MM : GRID3D_TYPE := ⟨3⟩
def GRID3D_TYPE.GRID_10MM : GRID3D_TYPE := ⟨4⟩
def RENDER_ENGINE.OPENGL_LEGACY : RENDER_ENGINE := ⟨0⟩
def RENDER_ENGINE.RAYTRACING : RENDER_ENGINE := ⟨1⟩
def MATERIAL_MODE.NORMAL : MATERIAL_MODE := ⟨0⟩
def MATERIAL_MODE.DIFFUSE_ONLY : MATERIAL_MODE := ⟨1⟩
def MATERIAL_MODE.CAD_MODE : MATERIAL_MODE := ⟨2⟩

/-- A colour of the 3D settings, `SFVEC3D`.  The components are doubles; the modelled
code copies and compares them, and they are represented by rationals. -/
structure SFVEC3D where
  r : ℚ
  g : ℚ
  b : ℚ
  deriving DecidableEq

/-- A colour `KIGFX::COLOR4D`. -/
structure COLOR4D where
  r : ℚ
  g : ℚ
  b : ℚ
  a : ℚ
  deriving DecidableEq

/-- The ids of the 3D colours in the colour settings that the file names; `other n`
stands for the remaining ids. -/
inductive LAYER_3D_ID where
  | LAYER_3D_BACKGROUND_BOTTOM
  | LAYER_3D_BACKGROUND_TOP
  | LAYER_3D_BOARD
  | LAYER_3D_COPPER
  | LAYER_3D_SILKSCREEN_BOTTOM
  | LAYER_3D_SILKSCREEN_TOP
  | LAYER_3D_SOLDERMASK
  | LAYER_3D_SOLDERPASTE
  | other (n : Nat)
  deriving DecidableEq

/-- Modelled from the spec: the class `COLOR_SETTINGS` is not among the sources; it is the
configuration store of the colours, a colour for each id. -/
structure COLOR_SETTINGS where
  m_colors : LAYER_3D_ID → COLOR4D

/-- Modelled from the spec: `COLOR_SETTINGS::GetColor` (not among the sources) returns the
colour the store holds for the id. -/
def COLOR_SETTINGS.GetColor (colors : COLOR_SETTINGS) (aLayer : LAYER_3D_ID) : COLOR4D :=
  colors.m_colors aLayer

/-- Modelled from the spec: `COLOR_SETTINGS::SetColor` (not among the sources) stores the
colour for the id and leaves the other ids alone. -/
def COLOR_SETTINGS.SetColor (colors : COLOR_SETTINGS) (aLayer : LAYER_3D_ID)
    (aColor : COLOR4D) : COLOR_SETTINGS :=
  { m_colors := fun l => if l = aLayer then aColor else colors.m_colors l }

/-- The member `m_Render` of `EDA_3D_VIEWER_SETTINGS`: the fields the file reads or
writes. -/
structure RENDER_SETTINGS where
  engine : Int
  grid_type : Int
  material_mode : Int
  opengl_copper_thickness : Bool
  opengl_show_model_bbox : Bool
  raytrace_anti_aliasing : Bool
  raytrace_backfloor : Bool
  raytrace_post_processing : Bool
  raytrace_procedural_textures : Bool
  raytrace_reflections : Bool
  raytrace_refractions : Bool
  raytrace_shadows : Bool
  realistic : Bool
  show_adhesive : Bool
  show_axis : Bool
  show_board_body : Bool
  show_comments : Bool
  show_eco : Bool
  show_footprints_insert : Bool
  show_footprints_normal : Bool
  show_footprints_virtual : Bool
  show_silkscreen : Bool
  show_soldermask : Bool
  show_solderpaste : Bool
  show_zones : Bool
  subtract_mask_from_silk : Bool
  deriving DecidableEq

/-- The application settings `EDA_3D_VIEWER_SETTINGS`. -/
structure EDA_3D_VIEWER_SETTINGS where
  m_Render : RENDER_SETTINGS
  deriving DecidableEq

/-- The member `m_settings` of the frame: the display flags, the grid, the render engine,
the material mode and the colours. -/
structure EDA_3D_SETTINGS where
  m_drawFlags : DISPLAY3D_FLG → Bool
  m_3D_grid_type : GRID3D_TYPE
  m_render_engine : RENDER_ENGINE
  m_material_mode : MATERIAL_MODE
  m_BgColorBot : SFVEC3D
  m_BgColorTop : SFVEC3D
  m_BoardBodyColor : SFVEC3D
  m_CopperColor : SFVEC3D
  m_SilkScreenColorBot : SFVEC3D
  m_SilkScreenColorTop : SFVEC3D
  m_SolderMaskColorBot : SFVEC3D
  m_SolderMaskColorTop : SFVEC3D
  m_SolderPasteColor : SFVEC3D

/-- The accessor `GetFlag`. -/
def EDA_3D_SETTINGS.GetFlag (s : EDA_3D_SETTINGS) (aFlag : DISPLAY3D_FLG) : Bool :=
  s.m_drawFlags aFlag

/-- The accessor `SetFlag`: the flag gets the state, the other flags keep theirs. -/
def EDA_3D_SETTINGS.SetFlag (s : EDA_3D_SETTINGS) (aFlag : DISPLAY3D_FLG) (aState : Bool) :
    EDA_3D_SETTINGS :=
  { s with m_drawFlags := fun f => if f = aFlag then aState else s.m_drawFlags f }

/-- The accessor `GridGet`. -/
def EDA_3D_SETTINGS.GridGet (s : EDA_3D_SETTINGS) : GRID3D_TYPE := s.m_3D_grid_type

/-- The accessor `GridSet`. -/
def EDA_3D_SETTINGS.GridSet (s : EDA_3D_SETTINGS) (aGridType : GRID3D_TYPE) :
    EDA_3D_SETTINGS :=
  { s with m_3D_grid_type := aGridType }

/-- The accessor `RenderEngineGet`. -/
def EDA_3D_SETTINGS.RenderEngineGet (s : EDA_3D_SETTINGS) : RENDER_ENGINE := s.m_render_engine

/-- The accessor `RenderEngineSet`. -/
def EDA_3D_SETTINGS.RenderEngineSet (s : EDA_3D_SETTINGS) (aRenderEngine : RENDER_ENGINE) :
    EDA_3D_SETTINGS :=
  { s with m_render_engine := aRenderEngine }

/-- The accessor `MaterialModeGet`. -/
def EDA_3D_SETTINGS.MaterialModeGet (s : EDA_3D_SETTINGS) : MATERIAL_MODE := s.m_material_mode

/-- The accessor `MaterialModeSet`. -/
def EDA_3D_SETTINGS.MaterialModeSet (s : EDA_3D_SETTINGS) (aMaterialMode : MATERIAL_MODE) :
    EDA_3D_SETTINGS :=
  { s with m_material_mode := aMaterialMode }

/-- The calls the frame makes on its canvas, its camera and its own redraw functions.  They
request or schedule work of the renderer and are recorded in the order they are made. -/
inductive Call where
  /-- The call `NewDisplay( aForceImmediateRedraw )`. -/
  | NewDisplay (aForceImmediateRedraw : Bool)
  /-- The call `m_canvas->Request_refresh()`. -/
  | Request_refresh
  /-- The call `m_canvas->RenderRaytracingRequest()`. -/
  | RenderRaytracingRequest
  /-- The call `CameraGet().RotateX( glm::radians( degrees ) )`. -/
  | RotateX (degrees : Int)
  /-- The call `CameraGet().RotateY( glm::radians( degrees ) )`. -/
  | RotateY (degrees : Int)
  /-- The call `CameraGet().RotateZ( glm::radians( degrees ) )`. -/
  | RotateZ (degrees : Int)
  /-- The call `m_canvas->SetView3D( key )`, for the keys left, right, up and down. -/
  | SetView3D (key : String)
  /-- The call `CameraGet().ToggleProjection()`. -/
  | ToggleProjection
  /-- The call `takeScreenshot( event )`. -/
  | takeScreenshot
  /-- The call `RenderEngineChanged()`. -/
  | RenderEngineChanged
  /-- The failed assertion `wxFAIL_MSG`. -/
  | wxFAIL_MSG
  deriving DecidableEq

/-- The frame `EDA_3D_VIEWER`: its settings, whether it has a canvas, the colour settings
and the application settings of the settings manager, and the calls made so far. -/
structure EDA_3D_VIEWER where
  m_settings : EDA_3D_SETTINGS
  m_canvas : Bool
  colors : COLOR_SETTINGS
  cfg : EDA_3D_VIEWER_SETTINGS
  calls : List Call

/-- The lambda `set_color` of `LoadSettings`: the colour as an `SFVEC3D`. -/
def set_color (aColor : COLOR4D) : SFVEC3D :=
  { r := aColor.r, g := aColor.g, b := aColor.b }

/-- The lambda `save_color` of `SaveSettings`, applied to the colour settings. -/
def save_color (aSource : SFVEC3D) (aTarget : LAYER_3D_ID) (colors : COLOR_SETTINGS) :
    COLOR_SETTINGS :=
  colors.SetColor aTarget (COLOR4D.mk aSource.r aSource.g aSource.b 1)

/-- The colours `LoadSettings` reads from the colour settings, in the order of the nine
calls of `set_color`. -/
def loadColors (colors : COLOR_SETTINGS) (s : EDA_3D_SETTINGS) : EDA_3D_SETTINGS :=
  { s with
    m_BgColorBot := set_color (colors.GetColor LAYER_3D_ID.LAYER_3D_BACKGROUND_BOTTOM)
    m_BgColorTop := set_color (colors.GetColor LAYER_3D_ID.LAYER_3D_BACKGROUND_TOP)
    m_BoardBodyColor := set_color (colors.GetColor LAYER_3D_ID.LAYER_3D_BOARD)
    m_CopperColor := set_color (colors.GetColor LAYER_3D_ID.LAYER_3D_COPPER)
    m_SilkScreenColorBot := set_color (colors.GetColor LAYER_3D_ID.LAYER_3D_SILKSCREEN_BOTTOM)
    m_SilkScreenColorTop := set_color (colors.GetColor LAYER_3D_ID.LAYER_3D_SILKSCREEN_TOP)
    m_SolderMaskColorBot := set_color (colors.GetColor LAYER_3D_ID.LAYER_3D_SOLDERMASK)
    m_SolderMaskColorTop := set_color (colors.GetColor LAYER_3D_ID.LAYER_3D_SOLDERMASK)
    m_SolderPasteColor := set_color (colors.GetColor LAYER_3D_ID.LAYER_3D_SOLDERPASTE) }

/-- The flags `LoadSettings` sets from `cfg->m_Render`, in the order of the 23 calls of
`SetFlag`. -/
def loadFlags (r : RENDER_SETTINGS) (s : EDA_3D_SETTINGS) : EDA_3D_SETTINGS :=
  s |>.SetFlag DISPLAY3D_FLG.FL_USE_REALISTIC_MODE r.realistic
    |>.SetFlag DISPLAY3D_FLG.FL_SUBTRACT_MASK_FROM_SILK r.subtract_mask_from_silk
    |>.SetFlag DISPLAY3D_FLG.FL_RENDER_OPENGL_COPPER_THICKNESS r.opengl_copper_thickness
    |>.SetFlag DISPLAY3D_FLG.FL_RENDER_OPENGL_SHOW_MODEL_BBOX r.opengl_show_model_bbox
    |>.SetFlag DISPLAY3D_FLG.FL_RENDER_RAYTRACING_SHADOWS r.raytrace_shadows
    |>.SetFlag DISPLAY3D_FLG.FL_RENDER_RAYTRACING_BACKFLOOR r.raytrace_backfloor
    |>.SetFlag DISPLAY3D_FLG.FL_RENDER_RAYTRACING_REFRACTIONS r.raytrace_refractions
    |>.SetFlag DISPLAY3D_FLG.FL_RENDER_RAYTRACING_REFLECTIONS r.raytrace_reflections
    |>.SetFlag DISPLAY3D_FLG.FL_RENDER_RAYTRACING_POST_PROCESSING r.raytrace_post_processing
    |>.SetFlag DISPLAY3D_FLG.FL_RENDER_RAYTRACING_ANTI_ALIASING r.raytrace_anti_aliasing
    |>.SetFlag DISPLAY3D_FLG.FL_RENDER_RAYTRACING_PROCEDURAL_TEXTURES
          r.raytrace_procedural_textures
    |>.SetFlag DISPLAY3D_FLG.FL_AXIS r.show_axis
    |>.SetFlag DISPLAY3D_FLG.FL_MODULE_ATTRIBUTES_NORMAL r.show_footprints_normal
    |>.SetFlag DISPLAY3D_FLG.FL_MODULE_ATTRIBUTES_NORMAL_INSERT r.show_footprints_insert
    |>.SetFlag DISPLAY3D_FLG.FL_MODULE_ATTRIBUTES_VIRTUAL r.show_footprints_virtual
    |>.SetFlag DISPLAY3D_FLG.FL_ZONE r.show_zones
    |>.SetFlag DISPLAY3D_FLG.FL_ADHESIVE r.show_adhesive
    |>.SetFlag DISPLAY3D_FLG.FL_SILKSCREEN r.show_silkscreen
    |>.SetFlag DISPLAY3D_FLG.FL_SOLDERMASK r.show_soldermask
    |>.SetFlag DISPLAY3D_FLG.FL_SOLDERPASTE r.show_solderpaste
    |>.SetFlag DISPLAY3D_FLG.FL_COMMENTS r.show_comments
    |>.SetFlag DISPLAY3D_FLG.FL_ECO r.show_eco
    |>.SetFlag DISPLAY3D_FLG.FL_SHOW_BOARD_BODY r.show_board_body

/-- The function `EDA_3D_VIEWER::LoadSettings` for the settings object `cfg`: the colours,
the flags, then the grid, the render engine and the material mode, each converted from the
stored `int` by a `static_cast`.  The call of the base class (window geometry) is outside
the model. -/
def LoadSettings (cfg : EDA_3D_VIEWER_SETTINGS) (v : EDA_3D_VIEWER) : EDA_3D_VIEWER :=
  { v with
    m_settings :=
      v.m_settings
        |> loadColors v.colors
        |> loadFlags cfg.m_Render
        |>.GridSet (GRID3D_TYPE.mk cfg.m_Render.grid_type)
        |>.RenderEngineSet (RENDER_ENGINE.mk cfg.m_Render.engine)
        |>.MaterialModeSet (MATERIAL_MODE.mk cfg.m_Render.material_mode) }

/-- The colours `SaveSettings` writes to the colour settings, in the order of the eight
calls of `save_color`. -/
def saveColors (s : EDA_3D_SETTINGS) (colors : COLOR_SETTINGS) : COLOR_SETTINGS :=
  colors
    |> save_color s.m_BgColorBot LAYER_3D_ID.LAYER_3D_BACKGROUND_BOTTOM
    |> save_color s.m_BgColorTop LAYER_3D_ID.LAYER_3D_BACKGROUND_TOP
    |> save_color s.m_BoardBodyColor LAYER_3D_ID.LAYER_3D_BOARD
    |> save_color s.m_CopperColor LAYER_3D_ID.LAYER_3D_COPPER
    |> save_color s.m_SilkScreenColorBot LAYER_3D_ID.LAYER_3D_SILKSCREEN_BOTTOM
    |> save_color s.m_SilkScreenColorTop LAYER_3D_ID.LAYER_3D_SILKSCREEN_TOP
    |> save_color s.m_SolderMaskColorTop LAYER_3D_ID.LAYER_3D_SOLDERMASK
    |> save_color s.m_SolderPasteColor LAYER_3D_ID.LAYER_3D_SOLDERPASTE

/-- The assignments of `SaveSettings` to the fields of `cfg->m_Render`; the enumerations
are converted to `int` by a `static_cast`. -/
def saveRender (s : EDA_3D_SETTINGS) (r : RENDER_SETTINGS) : RENDER_SETTINGS :=
  { r with
    engine := s.RenderEngineGet.value
    grid_type := s.GridGet.value
    material_mode := s.MaterialModeGet.value
    opengl_copper_thickness := s.GetFlag DISPLAY3D_FLG.FL_RENDER_OPENGL_COPPER_THICKNESS
    opengl_show_model_bbox := s.GetFlag DISPLAY3D_FLG.FL_RENDER_OPENGL_SHOW_MODEL_BBOX
    raytrace_anti_aliasing := s.GetFlag DISPLAY3D_FLG.FL_RENDER_RAYTRACING_ANTI_ALIASING
    raytrace_backfloor := s.GetFlag DISPLAY3D_FLG.FL_RENDER_RAYTRACING_BACKFLOOR
    raytrace_post_processing := s.GetFlag DISPLAY3D_FLG.FL_RENDER_RAYTRACING_POST_PROCESSING
    raytrace_procedural_textures :=
      s.GetFlag DISPLAY3D_FLG.FL_RENDER_RAYTRACING_PROCEDURAL_TEXTURES
    raytrace_reflections := s.GetFlag DISPLAY3D_FLG.FL_RENDER_RAYTRACING_REFLECTIONS
    raytrace_refractions := s.GetFlag DISPLAY3D_FLG.FL_RENDER_RAYTRACING_REFRACTIONS
    raytrace_shadows := s.GetFlag DISPLAY3D_FLG.FL_RENDER_RAYTRACING_SHADOWS
    realistic := s.GetFlag DISPLAY3D_FLG.FL_USE_REALISTIC_MODE
    show_adhesive := s.GetFlag DISPLAY3D_FLG.FL_ADHESIVE
    show_axis := s.GetFlag DISPLAY3D_FLG.FL_AXIS
    show_board_body := s.GetFlag DISPLAY3D_FLG.FL_SHOW_BOARD_BODY
    show_comments := s.GetFlag DISPLAY3D_FLG.FL_COMMENTS
    show_eco := s.GetFlag DISPLAY3D_FLG.FL_ECO
    show_footprints_insert := s.GetFlag DISPLAY3D_FLG.FL_MODULE_ATTRIBUTES_NORMAL_INSERT
    show_footprints_normal := s.GetFlag DISPLAY3D_FLG.FL_MODULE_ATTRIBUTES_NORMAL
    show_footprints_virtual := s.GetFlag DISPLAY3D_FLG.FL_MODULE_ATTRIBUTES_VIRTUAL
    show_silkscreen := s.GetFlag DISPLAY3D_FLG.FL_SILKSCREEN
    show_soldermask := s.GetFlag DISPLAY3D_FLG.FL_SOLDERMASK
    show_solderpaste := s.GetFlag DISPLAY3D_FLG.FL_SOLDERPASTE
    show_zones := s.GetFlag DISPLAY3D_FLG.FL_ZONE
    subtract_mask_from_silk := s.GetFlag DISPLAY3D_FLG.FL_SUBTRACT_MASK_FROM_SILK }

/-- The function `EDA_3D_VIEWER::SaveSettings`.  It writes to the application settings of
the settings manager and to the colour settings, whatever its argument is.  The call of
the base class (window geometry) is outside the model. -/
def SaveSettings (v : EDA_3D_VIEWER) : EDA_3D_VIEWER :=
  { v with
    colors := saveColors v.m_settings v.colors
    cfg := { v.cfg with m_Render := saveRender v.m_settings v.cfg.m_Render } }

/-- The 23 flags `LoadSettings` sets, in the order it sets them. -/
def loadedFlags : List DISPLAY3D_FLG :=
  [ DISPLAY3D_FLG.FL_USE_REALISTIC_MODE, DISPLAY3D_FLG.FL_SUBTRACT_MASK_FROM_SILK,
    DISPLAY3D_FLG.FL_RENDER_OPENGL_COPPER_THICKNESS,
    DISPLAY3D_FLG.FL_RENDER_OPENGL_SHOW_MODEL_BBOX,
    DISPLAY3D_FLG.FL_RENDER_RAYTRACING_SHADOWS, DISPLAY3D_FLG.FL_RENDER_RAYTRACING_BACKFLOOR,
    DISPLAY3D_FLG.FL_RENDER_RAYTRACING_REFRACTIONS,
    DISPLAY3D_FLG.FL_RENDER_RAYTRACING_REFLECTIONS,
    DISPLAY3D_FLG.FL_RENDER_RAYTRACING_POST_PROCESSING,
    DISPLAY3D_FLG.FL_RENDER_RAYTRACING_ANTI_ALIASING,
    DISPLAY3D_FLG.FL_RENDER_RAYTRACING_PROCEDURAL_TEXTURES,
    DISPLAY3D_FLG.FL_AXIS, DISPLAY3D_FLG.FL_MODULE_ATTRIBUTES_NORMAL,
    DISPLAY3D_FLG.FL_MODULE_ATTRIBUTES_NORMAL_INSERT,
    DISPLAY3D_FLG.FL_MODULE_ATTRIBUTES_VIRTUAL, DISPLAY3D_FLG.FL_ZONE,
    DISPLAY3D_FLG.FL_ADHESIVE, DISPLAY3D_FLG.FL_SILKSCREEN, DISPLAY3D_FLG.FL_SOLDERMASK,
    DISPLAY3D_FLG.FL_SOLDERPASTE, DISPLAY3D_FLG.FL_COMMENTS, DISPLAY3D_FLG.FL_ECO,
    DISPLAY3D_FLG.FL_SHOW_BOARD_BODY ]

/-- The command ids of `3d_viewer_id.h` that the file names; `other n` stands for any
other id. -/
inductive MenuId where
  | ID_RELOAD3D_BOARD
  | ID_ROTATE3D_X_POS
  | ID_ROTATE3D_X_NEG
  | ID_ROTATE3D_Y_POS
  | ID_ROTATE3D_Y_NEG
  | ID_ROTATE3D_Z_POS
  | ID_ROTATE3D_Z_NEG
  | ID_MOVE3D_LEFT
  | ID_MOVE3D_RIGHT
  | ID_MOVE3D_UP
  | ID_MOVE3D_DOWN
  | ID_ORTHO
  | ID_TOOL_SCREENCOPY_TOCLIBBOARD
  | ID_MENU_SCREENCOPY_PNG
  | ID_MENU_SCREENCOPY_JPEG
  | ID_MENU3D_BGCOLOR_BOTTOM
  | ID_MENU3D_BGCOLOR_TOP
  | ID_MENU3D_SILKSCREEN_COLOR
  | ID_MENU3D_SOLDERMASK_COLOR
  | ID_MENU3D_SOLDERPASTE_COLOR
  | ID_MENU3D_COPPER_COLOR
  | ID_MENU3D_PCB_BODY_COLOR
  | ID_MENU3D_STACKUP_COLORS
  | ID_MENU3D_REALISTIC_MODE
  | ID_MENU3D_FL_RENDER_MATERIAL_MODE_NORMAL
  | ID_MENU3D_FL_RENDER_MATERIAL_MODE_DIFFUSE_ONLY
  | ID_MENU3D_FL_RENDER_MATERIAL_MODE_CAD_MODE
  | ID_MENU3D_FL_OPENGL_RENDER_COPPER_THICKNESS
  | ID_MENU3D_FL_OPENGL_RENDER_SHOW_MODEL_BBOX
  | ID_MENU3D_FL_RAYTRACING_RENDER_SHADOWS
  | ID_MENU3D_FL_RAYTRACING_PROCEDURAL_TEXTURES
  | ID_MENU3D_FL_RAYTRACING_BACKFLOOR
  | ID_MENU3D_FL_RAYTRACING_REFRACTIONS
  | ID_MENU3D_FL_RAYTRACING_REFLECTIONS
  | ID_MENU3D_FL_RAYTRACING_POST_PROCESSING
  | ID_MENU3D_FL_RAYTRACING_ANTI_ALIASING
  | ID_MENU3D_SHOW_BOARD_BODY
  | ID_MENU3D_AXIS_ONOFF
  | ID_MENU3D_MODULE_ONOFF_ATTRIBUTES_NORMAL
  | ID_MENU3D_MODULE_ONOFF_ATTRIBUTES_NORMAL_INSERT
  | ID_MENU3D_MODULE_ONOFF_ATTRIBUTES_VIRTUAL
  | ID_MENU3D_ZONE_ONOFF
  | ID_MENU3D_ADHESIVE_ONOFF
  | ID_MENU3D_SILKSCREEN_ONOFF
  | ID_MENU3D_SOLDER_MASK_ONOFF
  | ID_MENU3D_SOLDER_PASTE_ONOFF
  | ID_MENU3D_COMMENTS_ONOFF
  | ID_MENU3D_ECO_ONOFF
  | ID_MENU3D_RESET_DEFAULTS
  | ID_MENU3D_GRID_NOGRID
  | ID_MENU3D_GRID_10_MM
  | ID_MENU3D_GRID_5_MM
  | ID_MENU3D_GRID_2P5_MM
  | ID_MENU3D_GRID_1_MM
  | other (n : Nat)

/-- The position of an id in the list above; the ids `other n` follow. -/
def MenuId.toNat : MenuId → Nat
  | MenuId.ID_RELOAD3D_BOARD => 0
  | MenuId.ID_ROTATE3D_X_POS => 1
  | MenuId.ID_ROTATE3D_X_NEG => 2
  | MenuId.ID_ROTATE3D_Y_POS => 3
  | MenuId.ID_ROTATE3D_Y_NEG => 4
  | MenuId.ID_ROTATE3D_Z_POS => 5
  | MenuId.ID_ROTATE3D_Z_NEG => 6
  | MenuId.ID_MOVE3D_LEFT => 7
  | MenuId.ID_MOVE3D_RIGHT => 8
  | MenuId.ID_MOVE3D_UP => 9
  | MenuId.ID_MOVE3D_DOWN => 10
  | MenuId.ID_ORTHO => 11
  | MenuId.ID_TOOL_SCREENCOPY_TOCLIBBOARD => 12
  | MenuId.ID_MENU_SCREENCOPY_PNG => 13
  | MenuId.ID_MENU_SCREENCOPY_JPEG => 14
  | MenuId.ID_MENU3D_BGCOLOR_BOTTOM => 15
  | MenuId.ID_MENU3D_BGCOLOR_TOP => 16
  | MenuId.ID_MENU3D_SILKSCREEN_COLOR => 17
  | MenuId.ID_MENU3D_SOLDERMASK_COLOR => 18
  | MenuId.ID_MENU3D_SOLDERPASTE_COLOR => 19
  | MenuId.ID_MENU3D_COPPER_COLOR => 20
  | MenuId.ID_MENU3D_PCB_BODY_COLOR => 21
  | MenuId.ID_MENU3D_STACKUP_COLORS => 22
  | MenuId.ID_MENU3D_REALISTIC_MODE => 23
  | MenuId.ID_MENU3D_FL_RENDER_MATERIAL_MODE_NORMAL => 24
  | MenuId.ID_MENU3D_FL_RENDER_MATERIAL_MODE_DIFFUSE_ONLY => 25
  | MenuId.ID_MENU3D_FL_RENDER_MATERIAL_MODE_CAD_MODE => 26
  | MenuId.ID_MENU3D_FL_OPENGL_RENDER_COPPER_THICKNESS => 27
  | MenuId.ID_MENU3D_FL_OPENGL_RENDER_SHOW_MODEL_BBOX => 28
  | MenuId.ID_MENU3D_FL_RAYTRACING_RENDER_SHADOWS => 29
  | MenuId.ID_MENU3D_FL_RAYTRACING_PROCEDURAL_TEXTURES => 30
  | MenuId.ID_MENU3D_FL_RAYTRACING_BACKFLOOR => 31
  | MenuId.ID_MENU3D_FL_RAYTRACING_REFRACTIONS => 32
  | MenuId.ID_MENU3D_FL_RAYTRACING_REFLECTIONS => 33
  | MenuId.ID_MENU3D_FL_RAYTRACING_POST_PROCESSING => 34
  | MenuId.ID_MENU3D_FL_RAYTRACING_ANTI_ALIASING => 35
  | MenuId.ID_MENU3D_SHOW_BOARD_BODY => 36
  | MenuId.ID_MENU3D_AXIS_ONOFF => 37
  | MenuId.ID_MENU3D_MODULE_ONOFF_ATTRIBUTES_NORMAL => 38
  | MenuId.ID_MENU3D_MODULE_ONOFF_ATTRIBUTES_NORMAL_INSERT => 39
  | MenuId.ID_MENU3D_MODULE_ONOFF_ATTRIBUTES_VIRTUAL => 40
  | MenuId.ID_MENU3D_ZONE_ONOFF => 41
  | MenuId.ID_MENU3D_ADHESIVE_ONOFF => 42
  | MenuId.ID_MENU3D_SILKSCREEN_ONOFF => 43
  | MenuId.ID_MENU3D_SOLDER_MASK_ONOFF => 44
  | MenuId.ID_MENU3D_SOLDER_PASTE_ONOFF => 45
  | MenuId.ID_MENU3D_COMMENTS_ONOFF => 46
  | MenuId.ID_MENU3D_ECO_ONOFF => 47
  | MenuId.ID_MENU3D_RESET_DEFAULTS => 48
  | MenuId.ID_MENU3D_GRID_NOGRID => 49
  | MenuId.ID_MENU3D_GRID_10_MM => 50
  | MenuId.ID_MENU3D_GRID_5_MM => 51
  | MenuId.ID_MENU3D_GRID_2P5_MM => 52
  | MenuId.ID_MENU3D_GRID_1_MM => 53
  | MenuId.other n => n + 54

/-- The id at a position. -/
def MenuId.ofNat (k : Nat) : MenuId :=
  match k with
  | 0 => MenuId.ID_RELOAD3D_BOARD
  | 1 => MenuId.ID_ROTATE3D_X_POS
  | 2 => MenuId.ID_ROTATE3D_X_NEG
  | 3 => MenuId.ID_ROTATE3D_Y_POS
  | 4 => MenuId.ID_ROTATE3D_Y_NEG
  | 5 => MenuId.ID_ROTATE3D_Z_POS
  | 6 => MenuId.ID_ROTATE3D_Z_NEG
  | 7 => MenuId.ID_MOVE3D_LEFT
  | 8 => MenuId.ID_MOVE3D_RIGHT
  | 9 => MenuId.ID_MOVE3D_UP
  | 10 => MenuId.ID_MOVE3D_DOWN
  | 11 => MenuId.ID_ORTHO
  | 12 => MenuId.ID_TOOL_SCREENCOPY_TOCLIBBOARD
  | 13 => MenuId.ID_MENU_SCREENCOPY_PNG
  | 14 => MenuId.ID_MENU_SCREENCOPY_JPEG
  | 15 => MenuId.ID_MENU3D_BGCOLOR_BOTTOM
  | 16 => MenuId.ID_MENU3D_BGCOLOR_TOP
  | 17 => MenuId.ID_MENU3D_SILKSCREEN_COLOR
  | 18 => MenuId.ID_MENU3D_SOLDERMASK_COLOR
  | 19 => MenuId.ID_MENU3D_SOLDERPASTE_COLOR
  | 20 => MenuId.ID_MENU3D_COPPER_COLOR
  | 21 => MenuId.ID_MENU3D_PCB_BODY_COLOR
  | 22 => MenuId.ID_MENU3D_STACKUP_COLORS
  | 23 => MenuId.ID_MENU3D_REALISTIC_MODE
  | 24 => MenuId.ID_MENU3D_FL_RENDER_MATERIAL_MODE_NORMAL
  | 25 => MenuId.ID_MENU3D_FL_RENDER_MATERIAL_MODE_DIFFUSE_ONLY
  | 26 => MenuId.ID_MENU3D_FL_RENDER_MATERIAL_MODE_CAD_MODE
  | 27 => MenuId.ID_MENU3D_FL_OPENGL_RENDER_COPPER_THICKNESS
  | 28 => MenuId.ID_MENU3D_FL_OPENGL_RENDER_SHOW_MODEL_BBOX
  | 29 => MenuId.ID_MENU3D_FL_RAYTRACING_RENDER_SHADOWS
  | 30 => MenuId.ID_MENU3D_FL_RAYTRACING_PROCEDURAL_TEXTURES
  | 31 => MenuId.ID_MENU3D_FL_RAYTRACING_BACKFLOOR
  | 32 => MenuId.ID_MENU3D_FL_RAYTRACING_REFRACTIONS
  | 33 => MenuId.ID_MENU3D_FL_RAYTRACING_REFLECTIONS
  | 34 => MenuId.ID_MENU3D_FL_RAYTRACING_POST_PROCESSING
  | 35 => MenuId.ID_MENU3D_FL_RAYTRACING_ANTI_ALIASING
  | 36 => MenuId.ID_MENU3D_SHOW_BOARD_BODY
  | 37 => MenuId.ID_MENU3D_AXIS_ONOFF
  | 38 => MenuId.ID_MENU3D_MODULE_ONOFF_ATTRIBUTES_NORMAL
  | 39 => MenuId.ID_MENU3D_MODULE_ONOFF_ATTRIBUTES_NORMAL_INSERT
  | 40 => MenuId.ID_MENU3D_MODULE_ONOFF_ATTRIBUTES_VIRTUAL
  | 41 => MenuId.ID_MENU3D_ZONE_ONOFF
  | 42 => MenuId.ID_MENU3D_ADHESIVE_ONOFF
  | 43 => MenuId.ID_MENU3D_SILKSCREEN_ONOFF
  | 44 => MenuId.ID_MENU3D_SOLDER_MASK_ONOFF
  | 45 => MenuId.ID_MENU3D_SOLDER_PASTE_ONOFF
  | 46 => MenuId.ID_MENU3D_COMMENTS_ONOFF
  | 47 => MenuId.ID_MENU3D_ECO_ONOFF
  | 48 => MenuId.ID_MENU3D_RESET_DEFAULTS
  | 49 => MenuId.ID_MENU3D_GRID_NOGRID
  | 50 => MenuId.ID_MENU3D_GRID_10_MM
  | 51 => MenuId.ID_MENU3D_GRID_5_MM
  | 52 => MenuId.ID_MENU3D_GRID_2P5_MM
  | 53 => MenuId.ID_MENU3D_GRID_1_MM
  | k + 54 => MenuId.other k

/-- Two ids are equal when their positions are: the comparison `==` of the C++ `int`s. -/
instance : DecidableEq MenuId := fun a b =>
  if h : a.toNat = b.toNat then
    isTrue (by
      have ha : MenuId.ofNat a.toNat = a := by cases a <;> rfl
      have hb : MenuId.ofNat b.toNat = b := by cases b <;> rfl
      rw [← ha, ← hb, h])
  else isFalse (fun hab => h (congrArg MenuId.toNat hab))

/-- A `wxColour`: its red, green and blue values, or `none` when it is not `IsOk()`. -/
abbrev wxColour := Option (Nat × Nat × Nat)

/-- The board layers `SynchroniseColoursWithBoard` distinguishes. -/
inductive BoardLayer where
  | F_SilkS
  | B_SilkS
  | F_Mask
  | B_Mask
  | other
  deriving DecidableEq

/-- An item of the board stackup: its layer, and what its colour name does to the variable
`color` of `SynchroniseColoursWithBoard` (`color.Set( colorName )` for a user defined
colour, the assignment of the standard colour of that name when there is one, nothing
otherwise). -/
structure BOARD_STACKUP_ITEM where
  GetBrdLayerId : BoardLayer
  applyColorName : wxColour → wxColour

/-- What the frame gets from outside during a command: the answer of the colour picker
(shown with the old colour; `none` when it is not closed with `wxID_OK`), the stackup of
the board (`none` without a board) and the settings `ResetToDefaults` produces. -/
structure Environment where
  pickColor : COLOR4D → Option COLOR4D
  stackup : Option (List BOARD_STACKUP_ITEM)
  defaults : EDA_3D_VIEWER_SETTINGS

/-- Records a call. -/
def record (c : Call) (v : EDA_3D_VIEWER) : EDA_3D_VIEWER :=
  { v with calls := v.calls ++ [c] }

/-- The redraw request that follows a camera command:
`if( RenderEngineGet() == OPENGL_LEGACY ) Request_refresh(); else RenderRaytracingRequest();` -/
def requestRedraw (v : EDA_3D_VIEWER) : EDA_3D_VIEWER :=
  if v.m_settings.RenderEngineGet = RENDER_ENGINE.OPENGL_LEGACY then record Call.Request_refresh v
  else record Call.RenderRaytracingRequest v

/-- The function `EDA_3D_VIEWER::Set3DColorFromUser` on the colour `aColor`: the value it
returns and the colour afterwards. -/
def Set3DColorFromUser (env : Environment) (aColor : SFVEC3D) : Bool × SFVEC3D :=
  let oldcolor := COLOR4D.mk aColor.r aColor.g aColor.b 1
  match env.pickColor oldcolor with
  | none => (false, aColor)
  | some newcolor =>
    if newcolor = oldcolor then (false, aColor)
    else (true, SFVEC3D.mk newcolor.r newcolor.g newcolor.b)

/-- The colour `color.Red() / 255.0, color.Green() / 255.0, color.Blue() / 255.0`. -/
def fromWx (r g b : Nat) : SFVEC3D :=
  SFVEC3D.mk ((r : ℚ) / 255) ((g : ℚ) / 255) ((b : ℚ) / 255)

/-- The function `EDA_3D_VIEWER::SynchroniseColoursWithBoard`.  The variable `color` is
declared before the loop and keeps its value from one item to the next. -/
def SynchroniseColoursWithBoard (env : Environment) (s : EDA_3D_SETTINGS) : EDA_3D_SETTINGS :=
  match env.stackup with
  | none => s
  | some items =>
    (items.foldl (fun (p : wxColour × EDA_3D_SETTINGS) item =>
      let color := item.applyColorName p.1
      match color with
      | none => (color, p.2)
      | some (r, g, b) =>
        match item.GetBrdLayerId with
        | BoardLayer.F_SilkS => (color, { p.2 with m_SilkScreenColorTop := fromWx r g b })
        | BoardLayer.B_SilkS => (color, { p.2 with m_SilkScreenColorBot := fromWx r g b })
        | BoardLayer.F_Mask => (color, { p.2 with m_SolderMaskColorTop := fromWx r g b })
        | BoardLayer.B_Mask => (color, { p.2 with m_SolderMaskColorBot := fromWx r g b })
        | BoardLayer.other => (color, p.2)) (none, s)).2

/-- The function `EDA_3D_VIEWER::Set3DSilkScreenColorFromUser`. -/
def Set3DSilkScreenColorFromUser (env : Environment) (v : EDA_3D_VIEWER) : EDA_3D_VIEWER :=
  let p := Set3DColorFromUser env v.m_settings.m_SilkScreenColorTop
  let v := { v with m_settings := { v.m_settings with m_SilkScreenColorTop := p.2 } }
  if p.1 then
    record (Call.NewDisplay true)
      { v with m_settings :=
          { v.m_settings with m_SilkScreenColorBot := v.m_settings.m_SilkScreenColorTop } }
  else v

/-- The function `EDA_3D_VIEWER::Set3DSolderMaskColorFromUser`. -/
def Set3DSolderMaskColorFromUser (env : Environment) (v : EDA_3D_VIEWER) : EDA_3D_VIEWER :=
  let p := Set3DColorFromUser env v.m_settings.m_SolderMaskColorTop
  let v := { v with m_settings := { v.m_settings with m_SolderMaskColorTop := p.2 } }
  if p.1 then
    record (Call.NewDisplay true)
      { v with m_settings :=
          { v.m_settings with m_SolderMaskColorBot := v.m_settings.m_SolderMaskColorTop } }
  else v

/-- The function `EDA_3D_VIEWER::Set3DCopperColorFromUser`. -/
def Set3DCopperColorFromUser (env : Environment) (v : EDA_3D_VIEWER) : EDA_3D_VIEWER :=
  let p := Set3DColorFromUser env v.m_settings.m_CopperColor
  let v := { v with m_settings := { v.m_settings with m_CopperColor := p.2 } }
  if p.1 then record (Call.NewDisplay true) v else v

/-- The function `EDA_3D_VIEWER::Set3DBoardBodyColorFromUser`. -/
def Set3DBoardBodyColorFromUser (env : Environment) (v : EDA_3D_VIEWER) : EDA_3D_VIEWER :=
  let p := Set3DColorFromUser env v.m_settings.m_BoardBodyColor
  let v := { v with m_settings := { v.m_settings with m_BoardBodyColor := p.2 } }
  if p.1 then record (Call.NewDisplay true) v else v

/-- The function `EDA_3D_VIEWER::Set3DSolderPasteColorFromUser`. -/
def Set3DSolderPasteColorFromUser (env : Environment) (v : EDA_3D_VIEWER) : EDA_3D_VIEWER :=
  let p := Set3DColorFromUser env v.m_settings.m_SolderPasteColor
  let v := { v with m_settings := { v.m_settings with m_SolderPasteColor := p.2 } }
  if p.1 then record (Call.NewDisplay true) v else v

/-- The redraw after a changed background colour:
`if( RenderEngineGet() == OPENGL_LEGACY ) Request_refresh(); else NewDisplay( true );` -/
def redrawBackground (v : EDA_3D_VIEWER) : EDA_3D_VIEWER :=
  if v.m_settings.RenderEngineGet = RENDER_ENGINE.OPENGL_LEGACY then record Call.Request_refresh v
  else record (Call.NewDisplay true) v

/-- A case `m_settings.SetFlag( flag, isChecked )` of `Process_Special_Functions`, followed
by the call `redraw`. -/
def setFlagAnd (flag : DISPLAY3D_FLG) (isChecked : Bool) (redraw : Call) (v : EDA_3D_VIEWER) :
    EDA_3D_VIEWER :=
  record redraw { v with m_settings := v.m_settings.SetFlag flag isChecked }

/-- A case `m_settings.MaterialModeSet( mode ); NewDisplay( true );` of
`Process_Special_Functions`. -/
def setMaterialMode (mode : MATERIAL_MODE) (v : EDA_3D_VIEWER) : EDA_3D_VIEWER :=
  record (Call.NewDisplay true) { v with m_settings := v.m_settings.MaterialModeSet mode }

/-- The `switch( id )` of `EDA_3D_VIEWER::Process_Special_Functions`. -/
def switchOnId (env : Environment) (id : MenuId) (isChecked : Bool)
    (v : EDA_3D_VIEWER) : EDA_3D_VIEWER :=
    match id with
    | MenuId.ID_RELOAD3D_BOARD => record (Call.NewDisplay true) v
    | MenuId.ID_ROTATE3D_X_POS => requestRedraw (record (Call.RotateX 10) v)
    | MenuId.ID_ROTATE3D_X_NEG => requestRedraw (record (Call.RotateX (-10)) v)
    | MenuId.ID_ROTATE3D_Y_POS => requestRedraw (record (Call.RotateY 10) v)
    | MenuId.ID_ROTATE3D_Y_NEG => requestRedraw (record (Call.RotateY (-10)) v)
    | MenuId.ID_ROTATE3D_Z_POS => requestRedraw (record (Call.RotateZ 10) v)
    | MenuId.ID_ROTATE3D_Z_NEG => requestRedraw (record (Call.RotateZ (-10)) v)
    | MenuId.ID_MOVE3D_LEFT => record (Call.SetView3D "WXK_LEFT") v
    | MenuId.ID_MOVE3D_RIGHT => record (Call.SetView3D "WXK_RIGHT") v
    | MenuId.ID_MOVE3D_UP => record (Call.SetView3D "WXK_UP") v
    | MenuId.ID_MOVE3D_DOWN => record (Call.SetView3D "WXK_DOWN") v
    | MenuId.ID_ORTHO => requestRedraw (record Call.ToggleProjection v)
    | MenuId.ID_TOOL_SCREENCOPY_TOCLIBBOARD => record Call.takeScreenshot v
    | MenuId.ID_MENU_SCREENCOPY_PNG => record Call.takeScreenshot v
    | MenuId.ID_MENU_SCREENCOPY_JPEG => record Call.takeScreenshot v
    | MenuId.ID_MENU3D_BGCOLOR_BOTTOM =>
      let p := Set3DColorFromUser env v.m_settings.m_BgColorBot
      let v := { v with m_settings := { v.m_settings with m_BgColorBot := p.2 } }
      if p.1 then redrawBackground v else v
    | MenuId.ID_MENU3D_BGCOLOR_TOP =>
      let p := Set3DColorFromUser env v.m_settings.m_BgColorTop
      let v := { v with m_settings := { v.m_settings with m_BgColorTop := p.2 } }
      if p.1 then redrawBackground v else v
    | MenuId.ID_MENU3D_SILKSCREEN_COLOR => Set3DSilkScreenColorFromUser env v
    | MenuId.ID_MENU3D_SOLDERMASK_COLOR => Set3DSolderMaskColorFromUser env v
    | MenuId.ID_MENU3D_SOLDERPASTE_COLOR => Set3DSolderPasteColorFromUser env v
    | MenuId.ID_MENU3D_COPPER_COLOR => Set3DCopperColorFromUser env v
    | MenuId.ID_MENU3D_PCB_BODY_COLOR => Set3DBoardBodyColorFromUser env v
    | MenuId.ID_MENU3D_STACKUP_COLORS =>
      record (Call.NewDisplay true)
        { v with m_settings := SynchroniseColoursWithBoard env v.m_settings }
    | MenuId.ID_MENU3D_REALISTIC_MODE =>
      setFlagAnd DISPLAY3D_FLG.FL_USE_REALISTIC_MODE isChecked (Call.NewDisplay true) v
    | MenuId.ID_MENU3D_FL_RENDER_MATERIAL_MODE_NORMAL => setMaterialMode MATERIAL_MODE.NORMAL v
    | MenuId.ID_MENU3D_FL_RENDER_MATERIAL_MODE_DIFFUSE_ONLY =>
      setMaterialMode MATERIAL_MODE.DIFFUSE_ONLY v
    | MenuId.ID_MENU3D_FL_RENDER_MATERIAL_MODE_CAD_MODE =>
      setMaterialMode MATERIAL_MODE.CAD_MODE v
    | MenuId.ID_MENU3D_FL_OPENGL_RENDER_COPPER_THICKNESS =>
      setFlagAnd DISPLAY3D_FLG.FL_RENDER_OPENGL_COPPER_THICKNESS isChecked
        (Call.NewDisplay true) v
    | MenuId.ID_MENU3D_FL_OPENGL_RENDER_SHOW_MODEL_BBOX =>
      setFlagAnd DISPLAY3D_FLG.FL_RENDER_OPENGL_SHOW_MODEL_BBOX isChecked Call.Request_refresh v
    | MenuId.ID_MENU3D_FL_RAYTRACING_RENDER_SHADOWS =>
      setFlagAnd DISPLAY3D_FLG.FL_RENDER_RAYTRACING_SHADOWS isChecked Call.Request_refresh v
    | MenuId.ID_MENU3D_FL_RAYTRACING_PROCEDURAL_TEXTURES =>
      setFlagAnd DISPLAY3D_FLG.FL_RENDER_RAYTRACING_PROCEDURAL_TEXTURES isChecked
        (Call.NewDisplay true) v
    | MenuId.ID_MENU3D_FL_RAYTRACING_BACKFLOOR =>
      setFlagAnd DISPLAY3D_FLG.FL_RENDER_RAYTRACING_BACKFLOOR isChecked (Call.NewDisplay true) v
    | MenuId.ID_MENU3D_FL_RAYTRACING_REFRACTIONS =>
      setFlagAnd DISPLAY3D_FLG.FL_RENDER_RAYTRACING_REFRACTIONS isChecked Call.Request_refresh v
    | MenuId.ID_MENU3D_FL_RAYTRACING_REFLECTIONS =>
      setFlagAnd DISPLAY3D_FLG.FL_RENDER_RAYTRACING_REFLECTIONS isChecked Call.Request_refresh v
    | MenuId.ID_MENU3D_FL_RAYTRACING_POST_PROCESSING =>
      setFlagAnd DISPLAY3D_FLG.FL_RENDER_RAYTRACING_POST_PROCESSING isChecked
        (Call.NewDisplay true) v
    | MenuId.ID_MENU3D_FL_RAYTRACING_ANTI_ALIASING =>
      setFlagAnd DISPLAY3D_FLG.FL_RENDER_RAYTRACING_ANTI_ALIASING isChecked
        Call.Request_refresh v
    | MenuId.ID_MENU3D_SHOW_BOARD_BODY =>
      setFlagAnd DISPLAY3D_FLG.FL_SHOW_BOARD_BODY isChecked (Call.NewDisplay true) v
    | MenuId.ID_MENU3D_AXIS_ONOFF =>
      setFlagAnd DISPLAY3D_FLG.FL_AXIS isChecked Call.Request_refresh v
    | MenuId.ID_MENU3D_MODULE_ONOFF_ATTRIBUTES_NORMAL =>
      setFlagAnd DISPLAY3D_FLG.FL_MODULE_ATTRIBUTES_NORMAL isChecked (Call.NewDisplay true) v
    | MenuId.ID_MENU3D_MODULE_ONOFF_ATTRIBUTES_NORMAL_INSERT =>
      setFlagAnd DISPLAY3D_FLG.FL_MODULE_ATTRIBUTES_NORMAL_INSERT isChecked
        (Call.NewDisplay true) v
    | MenuId.ID_MENU3D_MODULE_ONOFF_ATTRIBUTES_VIRTUAL =>
      setFlagAnd DISPLAY3D_FLG.FL_MODULE_ATTRIBUTES_VIRTUAL isChecked (Call.NewDisplay true) v
    | MenuId.ID_MENU3D_ZONE_ONOFF =>
      setFlagAnd DISPLAY3D_FLG.FL_ZONE isChecked (Call.NewDisplay true) v
    | MenuId.ID_MENU3D_ADHESIVE_ONOFF =>
      setFlagAnd DISPLAY3D_FLG.FL_ADHESIVE isChecked (Call.NewDisplay true) v
    | MenuId.ID_MENU3D_SILKSCREEN_ONOFF =>
      setFlagAnd DISPLAY3D_FLG.FL_SILKSCREEN isChecked (Call.NewDisplay true) v
    | MenuId.ID_MENU3D_SOLDER_MASK_ONOFF =>
      setFlagAnd DISPLAY3D_FLG.FL_SOLDERMASK isChecked (Call.NewDisplay true) v
    | MenuId.ID_MENU3D_SOLDER_PASTE_ONOFF =>
      setFlagAnd DISPLAY3D_FLG.FL_SOLDERPASTE isChecked (Call.NewDisplay true) v
    | MenuId.ID_MENU3D_COMMENTS_ONOFF =>
      setFlagAnd DISPLAY3D_FLG.FL_COMMENTS isChecked (Call.NewDisplay true) v
    | MenuId.ID_MENU3D_ECO_ONOFF =>
      setFlagAnd DISPLAY3D_FLG.FL_ECO isChecked (Call.NewDisplay true) v
    | MenuId.ID_MENU3D_RESET_DEFAULTS =>
      record (Call.NewDisplay true)
        (record Call.RenderEngineChanged
          (LoadSettings env.defaults { v with cfg := env.defaults }))
    | _ => record Call.wxFAIL_MSG v

/-- The function `EDA_3D_VIEWER::Process_Special_Functions` for an event with the id `id`
and the state `isChecked`: nothing without a canvas, the `switch` otherwise. -/
def Process_Special_Functions (env : Environment) (id : MenuId) (isChecked : Bool)
    (v : EDA_3D_VIEWER) : EDA_3D_VIEWER :=
  if v.m_canvas = false then v else switchOnId env id isChecked v

/-- The flag-toggle commands of `Process_Special_Functions`, each with the flag named
after it. -/
def flagToggles : List (MenuId × DISPLAY3D_FLG) :=
  [ (MenuId.ID_MENU3D_REALISTIC_MODE, DISPLAY3D_FLG.FL_USE_REALISTIC_MODE),
    (MenuId.ID_MENU3D_FL_OPENGL_RENDER_COPPER_THICKNESS,
      DISPLAY3D_FLG.FL_RENDER_OPENGL_COPPER_THICKNESS),
    (MenuId.ID_MENU3D_FL_OPENGL_RENDER_SHOW_MODEL_BBOX,
      DISPLAY3D_FLG.FL_RENDER_OPENGL_SHOW_MODEL_BBOX),
    (MenuId.ID_MENU3D_FL_RAYTRACING_RENDER_SHADOWS, DISPLAY3D_FLG.FL_RENDER_RAYTRACING_SHADOWS),
    (MenuId.ID_MENU3D_FL_RAYTRACING_PROCEDURAL_TEXTURES,
      DISPLAY3D_FLG.FL_RENDER_RAYTRACING_PROCEDURAL_TEXTURES),
    (MenuId.ID_MENU3D_FL_RAYTRACING_BACKFLOOR, DISPLAY3D_FLG.FL_RENDER_RAYTRACING_BACKFLOOR),
    (MenuId.ID_MENU3D_FL_RAYTRACING_REFRACTIONS,
      DISPLAY3D_FLG.FL_RENDER_RAYTRACING_REFRACTIONS),
    (MenuId.ID_MENU3D_FL_RAYTRACING_REFLECTIONS,
      DISPLAY3D_FLG.FL_RENDER_RAYTRACING_REFLECTIONS),
    (MenuId.ID_MENU3D_FL_RAYTRACING_POST_PROCESSING,
      DISPLAY3D_FLG.FL_RENDER_RAYTRACING_POST_PROCESSING),
    (MenuId.ID_MENU3D_FL_RAYTRACING_ANTI_ALIASING,
      DISPLAY3D_FLG.FL_RENDER_RAYTRACING_ANTI_ALIASING),
    (MenuId.ID_MENU3D_SHOW_BOARD_BODY, DISPLAY3D_FLG.FL_SHOW_BOARD_BODY),
    (MenuId.ID_MENU3D_AXIS_ONOFF, DISPLAY3D_FLG.FL_AXIS),
    (MenuId.ID_MENU3D_MODULE_ONOFF_ATTRIBUTES_NORMAL,
      DISPLAY3D_FLG.FL_MODULE_ATTRIBUTES_NORMAL),
    (MenuId.ID_MENU3D_MODULE_ONOFF_ATTRIBUTES_NORMAL_INSERT,
      DISPLAY3D_FLG.FL_MODULE_ATTRIBUTES_NORMAL_INSERT),
    (MenuId.ID_MENU3D_MODULE_ONOFF_ATTRIBUTES_VIRTUAL,
      DISPLAY3D_FLG.FL_MODULE_ATTRIBUTES_VIRTUAL),
    (MenuId.ID_MENU3D_ZONE_ONOFF, DISPLAY3D_FLG.FL_ZONE),
    (MenuId.ID_MENU3D_ADHESIVE_ONOFF, DISPLAY3D_FLG.FL_ADHESIVE),
    (MenuId.ID_MENU3D_SILKSCREEN_ONOFF, DISPLAY3D_FLG.FL_SILKSCREEN),
    (MenuId.ID_MENU3D_SOLDER_MASK_ONOFF, DISPLAY3D_FLG.FL_SOLDERMASK),
    (MenuId.ID_MENU3D_SOLDER_PASTE_ONOFF, DISPLAY3D_FLG.FL_SOLDERPASTE),
    (MenuId.ID_MENU3D_COMMENTS_ONOFF, DISPLAY3D_FLG.FL_COMMENTS),
    (MenuId.ID_MENU3D_ECO_ONOFF, DISPLAY3D_FLG.FL_ECO) ]

/-! ### Concrete frames used in evaluations -/

/-- Black. -/
def black : SFVEC3D := SFVEC3D.mk 0 0 0

/-- White. -/
def white : SFVEC3D := SFVEC3D.mk 1 1 1

/-- A frame with a canvas, all flags off, black colours except a white top solder mask,
as `SynchroniseColoursWithBoard` leaves it for a board with a white front and a black back
solder mask. -/
def twoMaskViewer : EDA_3D_VIEWER :=
  { m_settings :=
      { m_drawFlags := fun _ => false
        m_3D_grid_type := GRID3D_TYPE.NONE
        m_render_engine := RENDER_ENGINE.OPENGL_LEGACY
        m_material_mode := MATERIAL_MODE.NORMAL
        m_BgColorBot := black
        m_BgColorTop := black
        m_BoardBodyColor := black
        m_CopperColor := black
        m_SilkScreenColorBot := black
        m_SilkScreenColorTop := black
        m_SolderMaskColorBot := black
        m_SolderMaskColorTop := white
        m_SolderPasteColor := black }
    m_canvas := true
    colors := { m_colors := fun _ => COLOR4D.mk 0 0 0 1 }
    cfg := EDA_3D_VIEWER_SETTINGS.mk
      (RENDER_SETTINGS.mk 0 0 0 false false false false false false false false false false
        false false false false false false false false false false false false false)
    calls := [] }

/-- The `switch( id )` of `EDA_3D_VIEWER::On3DGridSelection`. -/
def switchOnGridId (id : MenuId) (v : EDA_3D_VIEWER) : EDA_3D_VIEWER :=
  match id with
  | MenuId.ID_MENU3D_GRID_NOGRID =>
    { v with m_settings := v.m_settings.GridSet GRID3D_TYPE.NONE }
  | MenuId.ID_MENU3D_GRID_10_MM =>
    { v with m_settings := v.m_settings.GridSet GRID3D_TYPE.GRID_10MM }
  | MenuId.ID_MENU3D_GRID_5_MM =>
    { v with m_settings := v.m_settings.GridSet GRID3D_TYPE.GRID_5MM }
  | MenuId.ID_MENU3D_GRID_2P5_MM =>
    { v with m_settings := v.m_settings.GridSet GRID3D_TYPE.GRID_2P5MM }
  | MenuId.ID_MENU3D_GRID_1_MM =>
    { v with m_settings := v.m_settings.GridSet GRID3D_TYPE.GRID_1MM }
  | _ => record Call.wxFAIL_MSG v

/-- The array `menu_ids` of `On3DGridSelection`. -/
def menu_ids : List MenuId :=
  [ MenuId.ID_MENU3D_GRID_NOGRID, MenuId.ID_MENU3D_GRID_10_MM, MenuId.ID_MENU3D_GRID_5_MM,
    MenuId.ID_MENU3D_GRID_2P5_MM, MenuId.ID_MENU3D_GRID_1_MM ]

/-- The call `item->Check( check )` on the menu item with the id `item`, the check marks
of the menu bar being a function of the id of the item. -/
def checkItem (item : MenuId) (check : Bool) (checked : MenuId → Bool) : MenuId → Bool :=
  fun m => if m = item then check else checked m

/-- The loop `for( int ii = 0; ii < 5; ii++ )` of `On3DGridSelection` that refreshes the
check marks. -/
def refreshCheckmarks (id : MenuId) (checked : MenuId → Bool) : MenuId → Bool :=
  forLoop (fun ii checked =>
    match menu_ids[ii]? with
    | some item => checkItem item (decide (item = id)) checked
    | none => checked) 5 checked

/-- The function `EDA_3D_VIEWER::On3DGridSelection` for an event with the id `id`: the
frame and the check marks of the menu bar afterwards.  The two `wxASSERT` on the id have
no effect on either. -/
def On3DGridSelection (id : MenuId) (checked : MenuId → Bool) (v : EDA_3D_VIEWER) :
    EDA_3D_VIEWER × (MenuId → Bool) :=
  let v := switchOnGridId id v
  let checked := refreshCheckmarks id checked
  let v := if v.m_canvas = true then record Call.Request_refresh v else v
  (v, checked)

/-- The six rotate commands, each with the camera call named after it: the axis, and
`+ROT_ANGLE` degrees for `POS`, `-ROT_ANGLE` for `NEG` (`ROT_ANGLE` is 10.0). -/
def rotateCommands : List (MenuId × Call) :=
  [ (MenuId.ID_ROTATE3D_X_POS, Call.RotateX 10), (MenuId.ID_ROTATE3D_X_NEG, Call.RotateX (-10)),
    (MenuId.ID_ROTATE3D_Y_POS, Call.RotateY 10), (MenuId.ID_ROTATE3D_Y_NEG, Call.RotateY (-10)),
    (MenuId.ID_ROTATE3D_Z_POS, Call.RotateZ 10), (MenuId.ID_ROTATE3D_Z_NEG, Call.RotateZ (-10)) ]

/-- The five grid commands, each with the grid type named after it. -/
def gridSelections : List (MenuId × GRID3D_TYPE) :=
  [ (MenuId.ID_MENU3D_GRID_NOGRID, GRID3D_TYPE.NONE),
    (MenuId.ID_MENU3D_GRID_10_MM, GRID3D_TYPE.GRID_10MM),
    (MenuId.ID_MENU3D_GRID_5_MM, GRID3D_TYPE.GRID_5MM),
    (MenuId.ID_MENU3D_GRID_2P5_MM, GRID3D_TYPE.GRID_2P5MM),
    (MenuId.ID_MENU3D_GRID_1_MM, GRID3D_TYPE.GRID_1MM) ]

/-- The background colour a background colour command is about. -/
def backgroundColour (top : Bool) (s : EDA_3D_SETTINGS) : SFVEC3D :=
  if top then s.m_BgColorTop else s.m_BgColorBot

/-- The id of a background colour command. -/
def backgroundId (top : Bool) : MenuId :=
  if top then MenuId.ID_MENU3D_BGCOLOR_TOP else MenuId.ID_MENU3D_BGCOLOR_BOTTOM

/-- An environment without a board whose colour picker is cancelled. -/
def cancelEnvironment : Environment :=
  Environment.mk (fun _ => none) none twoMaskViewer.cfg

/-- An environment without a board whose colour picker is confirmed with white. -/
def whiteEnvironment : Environment :=
  Environment.mk (fun _ => some (COLOR4D.mk 1 1 1 1)) none twoMaskViewer.cfg

end Viewer3D


/-! ## pcbnew: `DIALOG_GLOBAL_EDIT_TRACKS_AND_VIAS` -/

namespace GlobalEdit

/-- The item types `TransferDataFromWindow` distinguishes. -/
inductive KICAD_T where
  | PCB_TRACE_T
  | PCB_VIA_T
  | other
  deriving DecidableEq

/-- The result of `SetTrackSegmentWidth`: the file names `TRACK_ACTION_DRC_ERROR` only. -/
inductive TRACK_ACTION_RESULT where
  | TRACK_ACTION_DRC_ERROR
  | other (n : Nat)
  deriving DecidableEq

/-- A track or via of the board, as far as the dialog reads or writes it. -/
structure TRACK where
  /-- The value of `Type()`. -/
  ItemType : KICAD_T
  NetCode : Int
  NetClassName : String
  Layer : Int
  deriving DecidableEq

/-- The board: its tracks, and the two indices of its design settings that `processItem`
sets and restores. -/
structure BOARD where
  Tracks : List TRACK
  TrackWidthIndex : Nat
  ViaSizeIndex : Nat
  deriving DecidableEq

/-- Constants of headers outside the sources. -/
structure Constants where
  UNDEFINED_LAYER : Int
  wxNOT_FOUND : Int

/-- The values of the constants in KiCad and wxWidgets, for concrete evaluations. -/
def kicadConstants : Constants := { UNDEFINED_LAYER := -1, wxNOT_FOUND := -1 }

/-- The function `PCB_EDIT_FRAME::SetTrackSegmentWidth( aItem, aUndoList, aUseNetclassValue )`,
which is outside the sources: given the board, the undo list (indices of the picked
items), the index of the item and the flag, it yields its result, the item afterwards and
the undo list afterwards. -/
abbrev SetTrackSegmentWidthFn :=
  BOARD → List Nat → Nat → Bool → TRACK_ACTION_RESULT × TRACK × List Nat

/-- The globals that remember the control settings during a session. -/
structure Globals where
  g_modifyTracks : Bool
  g_modifyVias : Bool
  g_filterByNetclass : Bool
  g_netclassFilter : String
  g_filterByNet : Bool
  g_netFilter : String
  g_filterByLayer : Bool
  g_layerFilter : Int
  deriving DecidableEq

/-- The values of the globals at program start: the two `true` initialisers, and zero
initialisation for the others. -/
def initialGlobals : Globals :=
  { g_modifyTracks := true, g_modifyVias := true, g_filterByNetclass := false,
    g_netclassFilter := "", g_filterByNet := false, g_netFilter := "",
    g_filterByLayer := false, g_layerFilter := 0 }

/-- The controls of the dialog and its member `m_failedDRC`.  A check box is its value;
`m_netclassFilter` is its string selection, `m_netFilter` its selected net code and net
name, `m_layerFilter` and `m_layerBox` their layer selection, and the two select boxes
their selection index. -/
structure DIALOG_GLOBAL_EDIT_TRACKS_AND_VIAS where
  m_failedDRC : Bool
  m_tracks : Bool
  m_vias : Bool
  m_netclassFilterOpt : Bool
  m_netclassFilter : String
  m_netFilterOpt : Bool
  m_netFilterNetcode : Int
  m_netFilterNetname : String
  m_layerFilterOpt : Bool
  m_layerFilter : Int
  m_setToSpecifiedValues : Bool
  m_trackWidthSelectBox : Int
  m_viaSizesSelectBox : Int
  m_layerBox : Int
  deriving DecidableEq

/-- The destructor `~DIALOG_GLOBAL_EDIT_TRACKS_AND_VIAS`: the values it leaves in the
globals. -/
def destructor (d : DIALOG_GLOBAL_EDIT_TRACKS_AND_VIAS) : Globals :=
  { g_modifyTracks := d.m_tracks
    g_modifyVias := d.m_vias
    g_filterByNetclass := d.m_netclassFilterOpt
    g_netclassFilter := d.m_netclassFilter
    g_filterByNet := d.m_netFilterOpt
    g_netFilter := d.m_netFilterNetname
    g_filterByLayer := d.m_layerFilterOpt
    g_layerFilter := d.m_layerFilter }

/-- What `TransferDataToWindow` asks of the board and of the filter controls, whose classes
are outside the sources: whether the netclass choice has an entry of this name
(`SetStringSelection` returns true and selects it), whether the board has a net of this
name (`FindNet` is not `NULL`) with its net code, the index of a layer in the layer filter
(`SetLayerSelection` returns it and selects the layer, or returns `wxNOT_FOUND`), and the
net name of a net code. -/
structure Collaborators where
  netclassFilterHas : String → Bool
  FindNet : String → Option Int
  layerFilterIndex : Int → Int
  netnameOf : Int → String

/-- A `BOARD_CONNECTED_ITEM` at the front of the selection. -/
structure BOARD_CONNECTED_ITEM where
  NetClassName : String
  NetCode : Int
  Layer : Int
  deriving DecidableEq

/-- The call `m_netclassFilter->SetStringSelection( name )`: the dialog afterwards. -/
def selectNetclass (env : Collaborators) (name : String)
    (d : DIALOG_GLOBAL_EDIT_TRACKS_AND_VIAS) : DIALOG_GLOBAL_EDIT_TRACKS_AND_VIAS :=
  if env.netclassFilterHas name then { d with m_netclassFilter := name } else d

/-- The call `m_layerFilter->SetLayerSelection( layer )`: the dialog afterwards. -/
def selectLayer (k : Constants) (env : Collaborators) (layer : Int)
    (d : DIALOG_GLOBAL_EDIT_TRACKS_AND_VIAS) : DIALOG_GLOBAL_EDIT_TRACKS_AND_VIAS :=
  if env.layerFilterIndex layer ≠ k.wxNOT_FOUND then { d with m_layerFilter := layer } else d

/-- The netclass part of `TransferDataToWindow`:
`if( g_filterByNetclass && m_netclassFilter->SetStringSelection( g_netclassFilter ) ) ..
else if( item ) ..`. -/
def restoreNetclassFilter (env : Collaborators) (g : Globals)
    (item : Option BOARD_CONNECTED_ITEM) (d : DIALOG_GLOBAL_EDIT_TRACKS_AND_VIAS) :
    DIALOG_GLOBAL_EDIT_TRACKS_AND_VIAS :=
  if g.g_filterByNetclass = true ∧ env.netclassFilterHas g.g_netclassFilter = true then
    { selectNetclass env g.g_netclassFilter d with m_netclassFilterOpt := true }
  else
    match item with
    | some it => selectNetclass env it.NetClassName d
    | none => d

/-- The net part of `TransferDataToWindow`:
`if( g_filterByNet && m_brd->FindNet( g_netFilter ) != NULL ) .. else if( item ) ..`. -/
def restoreNetFilter (env : Collaborators) (g : Globals)
    (item : Option BOARD_CONNECTED_ITEM) (d : DIALOG_GLOBAL_EDIT_TRACKS_AND_VIAS) :
    DIALOG_GLOBAL_EDIT_TRACKS_AND_VIAS :=
  if g.g_filterByNet = true ∧ (env.FindNet g.g_netFilter).isSome = true then
    { d with m_netFilterNetname := g.g_netFilter
             m_netFilterNetcode := (env.FindNet g.g_netFilter).getD 0
             m_netFilterOpt := true }
  else
    match item with
    | some it => { d with m_netFilterNetcode := it.NetCode
                          m_netFilterNetname := env.netnameOf it.NetCode }
    | none => d

/-- The layer part of `TransferDataToWindow`:
`if( g_filterByLayer && m_layerFilter->SetLayerSelection( g_layerFilter ) != wxNOT_FOUND ) ..
else if( item ) ..`. -/
def restoreLayerFilter (k : Constants) (env : Collaborators) (g : Globals)
    (item : Option BOARD_CONNECTED_ITEM) (d : DIALOG_GLOBAL_EDIT_TRACKS_AND_VIAS) :
    DIALOG_GLOBAL_EDIT_TRACKS_AND_VIAS :=
  if g.g_filterByLayer = true ∧ env.layerFilterIndex g.g_layerFilter ≠ k.wxNOT_FOUND then
    { selectLayer k env g.g_layerFilter d with m_layerFilterOpt := true }
  else
    match item with
    | some it => selectLayer k env it.Layer d
    | none => d

/-- The function `DIALOG_GLOBAL_EDIT_TRACKS_AND_VIAS::TransferDataToWindow`, for the
globals `g` and the item at the front of the selection, if it is a connected item: the
two check boxes, then the netclass, net and layer filters. -/
def TransferDataToWindow (k : Constants) (env : Collaborators) (g : Globals)
    (item : Option BOARD_CONNECTED_ITEM) (d : DIALOG_GLOBAL_EDIT_TRACKS_AND_VIAS) :
    DIALOG_GLOBAL_EDIT_TRACKS_AND_VIAS :=
  restoreLayerFilter k env g item
    (restoreNetFilter env g item
      (restoreNetclassFilter env g item
        { d with m_tracks := g.g_modifyTracks, m_vias := g.g_modifyVias }))

/-- The state of `TransferDataFromWindow` while it runs: the board, the picked items
`itemsListPicker` (their indices), the member `m_failedDRC`, and the reports of
`SetTrackSegmentWidth` so far, each with the index of its item. -/
structure Run where
  brd : BOARD
  itemsListPicker : List Nat
  m_failedDRC : Bool
  reports : List (Nat × TRACK_ACTION_RESULT)
  deriving DecidableEq

/-- The conversion `(unsigned)` of an `int`. -/
def toUnsigned (x : Int) : Nat := (x % 4294967296).toNat

/-- One call of `SetTrackSegmentWidth` on item `i` and the test of its result:
`if( SetTrackSegmentWidth( .. ) == TRACK_ACTION_DRC_ERROR ) m_failedDRC = true;`. -/
def callSetTrackSegmentWidth (f : SetTrackSegmentWidthFn) (i : Nat) (aUseNetclassValue : Bool)
    (st : Run) : Run :=
  let out := f st.brd st.itemsListPicker i aUseNetclassValue
  { brd := { st.brd with Tracks := st.brd.Tracks.set i out.2.1 }
    itemsListPicker := out.2.2
    m_failedDRC :=
      if out.1 = TRACK_ACTION_RESULT.TRACK_ACTION_DRC_ERROR then true else st.m_failedDRC
    reports := st.reports ++ [(i, out.1)] }

/-- The block of `processItem` that moves the item to the layer of `m_layerBox`: the item
is pushed on the undo list unless `FindItem` finds it there, then `SetLayer` is called. -/
def setLayerOfItem (d : DIALOG_GLOBAL_EDIT_TRACKS_AND_VIAS) (i : Nat) (st : Run) : Run :=
  let st := if i ∈ st.itemsListPicker then st
            else { st with itemsListPicker := st.itemsListPicker ++ [i] }
  match st.brd.Tracks[i]? with
  | some t =>
    { st with
      brd := { st.brd with Tracks := st.brd.Tracks.set i { t with Layer := d.m_layerBox } } }
  | none => st

/-- The two assignments `brdSettings.SetTrackWidthIndex( .. ); brdSettings.SetViaSizeIndex( .. );`. -/
def setIndices (trackWidthIndex viaSizeIndex : Nat) (st : Run) : Run :=
  { st with brd := { st.brd with TrackWidthIndex := trackWidthIndex
                                 ViaSizeIndex := viaSizeIndex } }

/-- The function `DIALOG_GLOBAL_EDIT_TRACKS_AND_VIAS::processItem` for the item at index
`i` of the tracks, `aItem` being its value when the function is entered (`Type()` is the
class of the object, which no call changes). -/
def processItem (k : Constants) (f : SetTrackSegmentWidthFn)
    (d : DIALOG_GLOBAL_EDIT_TRACKS_AND_VIAS) (i : Nat) (aItem : TRACK) (st : Run) : Run :=
  if d.m_setToSpecifiedValues = true then
    let prevTrackWidthIndex := st.brd.TrackWidthIndex
    let prevViaSizeIndex := st.brd.ViaSizeIndex
    let st := setIndices (toUnsigned d.m_trackWidthSelectBox) (toUnsigned d.m_viaSizesSelectBox) st
    let st := callSetTrackSegmentWidth f i false st
    let st := setIndices prevTrackWidthIndex prevViaSizeIndex st
    if d.m_layerBox ≠ k.UNDEFINED_LAYER ∧ aItem.ItemType = KICAD_T.PCB_TRACE_T then
      setLayerOfItem d i st
    else st
  else callSetTrackSegmentWidth f i true st

/-- The function `DIALOG_GLOBAL_EDIT_TRACKS_AND_VIAS::visitItem`. -/
def visitItem (k : Constants) (f : SetTrackSegmentWidthFn)
    (d : DIALOG_GLOBAL_EDIT_TRACKS_AND_VIAS) (i : Nat) (aItem : TRACK) (st : Run) : Run :=
  if (d.m_netFilterOpt = true ∧ d.m_netFilterNetcode ≥ 0) ∧
      aItem.NetCode ≠ d.m_netFilterNetcode then st
  else if (d.m_netclassFilterOpt = true ∧ d.m_netclassFilter ≠ "") ∧
      aItem.NetClassName ≠ d.m_netclassFilter then st
  else if (d.m_layerFilterOpt = true ∧ d.m_layerFilter ≠ k.UNDEFINED_LAYER) ∧
      aItem.Layer ≠ d.m_layerFilter then st
  else processItem k f d i aItem st

/-- The body of the loop `for( auto segment : m_brd->Tracks() )` of
`TransferDataFromWindow`, for the segment at index `i`. -/
def examineSegment (k : Constants) (f : SetTrackSegmentWidthFn)
    (d : DIALOG_GLOBAL_EDIT_TRACKS_AND_VIAS) (i : Nat) (st : Run) : Run :=
  match st.brd.Tracks[i]? with
  | none => st
  | some segment =>
    if d.m_tracks = true ∧ segment.ItemType = KICAD_T.PCB_TRACE_T then visitItem k f d i segment st
    else if d.m_vias = true ∧ segment.ItemType = KICAD_T.PCB_VIA_T then visitItem k f d i segment st
    else st

/-- What `TransferDataFromWindow` leaves: its return value, the board, whether
`SaveCopyInUndoList` was called, the member `m_failedDRC` and the reports of
`SetTrackSegmentWidth` in the order of the calls. -/
structure TransferResult where
  returned : Bool
  brd : BOARD
  savedUndo : Bool
  m_failedDRC : Bool
  reports : List (Nat × TRACK_ACTION_RESULT)
  deriving DecidableEq

/-- The function `DIALOG_GLOBAL_EDIT_TRACKS_AND_VIAS::TransferDataFromWindow`. -/
def TransferDataFromWindow (k : Constants) (f : SetTrackSegmentWidthFn)
    (d : DIALOG_GLOBAL_EDIT_TRACKS_AND_VIAS) (brd : BOARD) : TransferResult :=
  let st := forLoop (examineSegment k f d) brd.Tracks.length
    { brd := brd, itemsListPicker := [], m_failedDRC := d.m_failedDRC, reports := [] }
  { returned := !st.m_failedDRC
    brd := st.brd
    savedUndo := decide (st.itemsListPicker.length > 0)
    m_failedDRC := st.m_failedDRC
    reports := st.reports }

/-- An item passes the filters of the dialog when its type is one the dialog modifies
(tracks, vias) and it is not rejected by the net, netclass and layer filters that are in
force. -/
def passesFilters (k : Constants) (d : DIALOG_GLOBAL_EDIT_TRACKS_AND_VIAS) (t : TRACK) :
    Bool :=
  decide (((d.m_tracks = true ∧ t.ItemType = KICAD_T.PCB_TRACE_T) ∨
      (d.m_vias = true ∧ t.ItemType = KICAD_T.PCB_VIA_T)) ∧
    (d.m_netFilterOpt = true → d.m_netFilterNetcode ≥ 0 → t.NetCode = d.m_netFilterNetcode) ∧
    (d.m_netclassFilterOpt = true → d.m_netclassFilter ≠ "" →
      t.NetClassName = d.m_netclassFilter) ∧
    (d.m_layerFilterOpt = true → d.m_layerFilter ≠ k.UNDEFINED_LAYER →
      t.Layer = d.m_layerFilter))

/-- The indices of the tracks of the board that pass the filters, in board order. -/
def filteredItems (k : Constants) (d : DIALOG_GLOBAL_EDIT_TRACKS_AND_VIAS) (brd : BOARD) :
    List Nat :=
  (List.range brd.Tracks.length).filter (fun i =>
    match brd.Tracks[i]? with
    | some t => passesFilters k d t
    | none => false)

/-- What a step of `TransferDataFromWindow` may do besides calling
`SetTrackSegmentWidth`: nothing to the reports and to `m_failedDRC`, and nothing to the
tracks other than track `i`. -/
def Frames (i : Nat) (st st' : Run) : Prop :=
  st'.reports = st.reports ∧ st'.m_failedDRC = st.m_failedDRC ∧
  st'.brd.Tracks.length = st.brd.Tracks.length ∧
  ∀ j, j ≠ i → st'.brd.Tracks[j]? = st.brd.Tracks[j]?

/-- One call of `SetTrackSegmentWidth` on track `i`, with its report `res`, possibly among
steps that frame. -/
def Reports (i : Nat) (res : TRACK_ACTION_RESULT) (st st' : Run) : Prop :=
  st'.reports = st.reports ++ [(i, res)] ∧
  st'.m_failedDRC =
    (if res = TRACK_ACTION_RESULT.TRACK_ACTION_DRC_ERROR then true else st.m_failedDRC) ∧
  st'.brd.Tracks.length = st.brd.Tracks.length ∧
  ∀ j, j ≠ i → st'.brd.Tracks[j]? = st.brd.Tracks[j]?

/-! ### Concrete dialogs and boards used in evaluations -/

/-- A dialog as constructed: nothing checked but the tracks, no filter selection. -/
def tracksOnlyDialog : DIALOG_GLOBAL_EDIT_TRACKS_AND_VIAS :=
  { m_failedDRC := false, m_tracks := true, m_vias := false,
    m_netclassFilterOpt := false, m_netclassFilter := "",
    m_netFilterOpt := false, m_netFilterNetcode := -1, m_netFilterNetname := "",
    m_layerFilterOpt := false, m_layerFilter := -1,
    m_setToSpecifiedValues := false, m_trackWidthSelectBox := 0, m_viaSizesSelectBox := 0,
    m_layerBox := -1 }

/-- A board with a track, a via and a second track. -/
def threeItemBoard : BOARD :=
  { Tracks := [ TRACK.mk KICAD_T.PCB_TRACE_T 1 "Default" 0,
                TRACK.mk KICAD_T.PCB_VIA_T 1 "Default" 0,
                TRACK.mk KICAD_T.PCB_TRACE_T 2 "Power" 31 ]
    TrackWidthIndex := 0
    ViaSizeIndex := 0 }

/-- A `SetTrackSegmentWidth` that reports a DRC error for the item at index 2 and changes
nothing. -/
def drcErrorOnItemTwo : SetTrackSegmentWidthFn :=
  fun brd undo i _ =>
    (if i = 2 then TRACK_ACTION_RESULT.TRACK_ACTION_DRC_ERROR else TRACK_ACTION_RESULT.other 0,
      brd.Tracks.getD i (TRACK.mk KICAD_T.other 0 "" 0), undo)

/-- A dialog at its destruction: vias only, filtering by the netclass "Power" and by the
net "GND". -/
def viasPowerDialog : DIALOG_GLOBAL_EDIT_TRACKS_AND_VIAS :=
  { m_failedDRC := false, m_tracks := false, m_vias := true,
    m_netclassFilterOpt := true, m_netclassFilter := "Power",
    m_netFilterOpt := true, m_netFilterNetcode := 7, m_netFilterNetname := "GND",
    m_layerFilterOpt := false, m_layerFilter := 0,
    m_setToSpecifiedValues := false, m_trackWidthSelectBox := 0, m_viaSizesSelectBox := 0,
    m_layerBox := -1 }

/-- A board that still has the netclass "Power" but no net "GND"; its layer filter lists
the layers 0 and 31. -/
def powerBoard : Collaborators :=
  { netclassFilterHas := fun name => decide (name = "Default" ∨ name = "Power")
    FindNet := fun name => if name = "VCC" then some 1 else none
    layerFilterIndex := fun layer => if layer = 0 then 0 else if layer = 31 then 1 else -1
    netnameOf := fun code => if code = 1 then "VCC" else "" }

/-- What one call of `OnUpdateUI` does: the dialog afterwards, the argument of
`m_trackWidthSelectBox->Enable` and of `m_viaSizesSelectBox->Enable`, and the messages
shown by `DisplayError`. -/
structure UpdateUIOutcome where
  dialog : DIALOG_GLOBAL_EDIT_TRACKS_AND_VIAS
  trackWidthSelectBoxEnabled : Bool
  viaSizesSelectBoxEnabled : Bool
  displayed : List String

/-- The function `DIALOG_GLOBAL_EDIT_TRACKS_AND_VIAS::OnUpdateUI`. -/
def OnUpdateUI (d : DIALOG_GLOBAL_EDIT_TRACKS_AND_VIAS) : UpdateUIOutcome :=
  if d.m_failedDRC = true then
    { dialog := { d with m_failedDRC := false }
      trackWidthSelectBoxEnabled := d.m_setToSpecifiedValues
      viaSizesSelectBoxEnabled := d.m_setToSpecifiedValues
      displayed := ["Some items failed DRC and were not modified."] }
  else
    { dialog := d
      trackWidthSelectBoxEnabled := d.m_setToSpecifiedValues
      viaSizesSelectBoxEnabled := d.m_setToSpecifiedValues
      displayed := [] }

/-- The column `GRID_NAME` of the netclass grid. -/
def GRID_NAME : Nat := 0

/-- The column `GRID_TRACKSIZE` of the netclass grid. -/
def GRID_TRACKSIZE : Nat := 1

/-- The column `GRID_VIASIZE` of the netclass grid. -/
def GRID_VIASIZE : Nat := 2

/-- The column `GRID_VIADRILL` of the netclass grid. -/
def GRID_VIADRILL : Nat := 3

/-- The column `GRID_uVIASIZE` of the netclass grid. -/
def GRID_uVIASIZE : Nat := 4

/-- The column `GRID_uVIADRILL` of the netclass grid. -/
def GRID_uVIADRILL : Nat := 5

/-- The values of a `NETCLASS` that `buildNetclassesGrid` reads. -/
structure NETCLASS where
  Name : String
  TrackWidth : Int
  ViaDiameter : Int
  ViaDrill : Int
  uViaDiameter : Int
  uViaDrill : Int
  deriving DecidableEq

/-- Modelled from the spec: the class `NETCLASSES` is outside the sources.  It holds the
default netclass (`GetDefault`) and the other netclasses as pairs of a name and a
netclass, in iteration order; `GetCount` is the number of these pairs as an `unsigned`. -/
structure NETCLASSES where
  m_Default : NETCLASS
  m_NetClasses : List (String × NETCLASS)

/-- The count `netclasses.GetCount()`, an `unsigned`. -/
def NETCLASSES.GetCount (n : NETCLASSES) : Nat := n.m_NetClasses.length % 4294967296

/-- The conversion of an `unsigned` to the `int` parameter of `AppendRows`. -/
def toInt (u : Nat) : Int :=
  if u % 4294967296 < 2147483648 then (u % 4294967296 : Nat)
  else ((u % 4294967296 : Nat) : Int) - 4294967296

/-- The grid `m_netclassGrid`: its number of rows, the value of each cell by row and
column, and the cells written so far, oldest first.  The columns of the grid are created
outside the sources; only the rows are counted. -/
structure WX_GRID where
  rows : Nat
  cells : Nat → Nat → String
  written : List (Nat × Nat)

/-- The call `SetCellValue( row, col, val )`, which has no result when the grid has no row
`row`. -/
def WX_GRID.SetCellValue (row col : Nat) (val : String) (g : WX_GRID) : Option WX_GRID :=
  if row < g.rows then
    some { g with
      cells := fun r c => if r = row ∧ c = col then val else g.cells r c
      written := g.written ++ [(row, col)] }
  else none

/-- The call `AppendRows( numRows )`. -/
def WX_GRID.AppendRows (numRows : Int) (g : WX_GRID) : WX_GRID :=
  { g with rows := g.rows + numRows.toNat }

/-- The six statements that write a netclass to the row `row`: `SetCellValue` of the name,
then `SET_NETCLASS_VALUE` of the track width, via diameter, via drill, microvia diameter
and microvia drill.  `StringFromValue` stands for
`StringFromValue( GetUserUnits(), val, true, true )`. -/
def setNetclassRow (StringFromValue : Int → String) (row : Nat) (name : String)
    (netclass : NETCLASS) (g : WX_GRID) : Option WX_GRID :=
  (g.SetCellValue row GRID_NAME name).bind fun g =>
  (g.SetCellValue row GRID_TRACKSIZE (StringFromValue netclass.TrackWidth)).bind fun g =>
  (g.SetCellValue row GRID_VIASIZE (StringFromValue netclass.ViaDiameter)).bind fun g =>
  (g.SetCellValue row GRID_VIADRILL (StringFromValue netclass.ViaDrill)).bind fun g =>
  (g.SetCellValue row GRID_uVIASIZE (StringFromValue netclass.uViaDiameter)).bind fun g =>
  g.SetCellValue row GRID_uVIADRILL (StringFromValue netclass.uViaDrill)

/-- The loop `for( const auto& netclass : netclasses )` of `buildNetclassesGrid`, with the
value of `row` on entry. -/
def fillRows (StringFromValue : Int → String) :
    List (String × NETCLASS) → Nat → WX_GRID → Option WX_GRID
  | [], _, g => some g
  | netclass :: rest, row, g =>
    (setNetclassRow StringFromValue row netclass.1 netclass.2 g).bind
      (fillRows StringFromValue rest (row + 1))

/-- The function `DIALOG_GLOBAL_EDIT_TRACKS_AND_VIAS::buildNetclassesGrid` on the
netclasses of the board and the grid `m_netclassGrid`.  The headers are the untranslated
strings. -/
def buildNetclassesGrid (StringFromValue : Int → String) (netclasses : NETCLASSES)
    (g : WX_GRID) : Option WX_GRID :=
  (g.SetCellValue 0 GRID_TRACKSIZE "Track Width").bind fun g =>
  (g.SetCellValue 0 GRID_VIASIZE "Via Size").bind fun g =>
  (g.SetCellValue 0 GRID_VIADRILL "Via Drill").bind fun g =>
  (g.SetCellValue 0 GRID_uVIASIZE "uVia Size").bind fun g =>
  (g.SetCellValue 0 GRID_uVIADRILL "uVia Drill").bind fun g =>
  (setNetclassRow StringFromValue 1 netclasses.m_Default.Name netclasses.m_Default
    (g.AppendRows (toInt (netclasses.GetCount + 1)))).bind
  (fillRows StringFromValue netclasses.m_NetClasses 2)

/-- The netclass `netclass` under the name `name` stands in the row `row` of the grid. -/
def netclassInRow (StringFromValue : Int → String) (g : WX_GRID) (row : Nat) (name : String)
    (netclass : NETCLASS) : Prop :=
  g.cells row GRID_NAME = name ∧
  g.cells row GRID_TRACKSIZE = StringFromValue netclass.TrackWidth ∧
  g.cells row GRID_VIASIZE = StringFromValue netclass.ViaDiameter ∧
  g.cells row GRID_VIADRILL = StringFromValue netclass.ViaDrill ∧
  g.cells row GRID_uVIASIZE = StringFromValue netclass.uViaDiameter ∧
  g.cells row GRID_uVIADRILL = StringFromValue netclass.uViaDrill

/-- The cells a netclass row writes, in the order of the statements. -/
def rowWrites (row : Nat) : List (Nat × Nat) :=
  [(row, GRID_NAME), (row, GRID_TRACKSIZE), (row, GRID_VIASIZE), (row, GRID_VIADRILL),
   (row, GRID_uVIASIZE), (row, GRID_uVIADRILL)]

/-- A grid of one row with empty cells. -/
def oneRowGrid : WX_GRID := { rows := 1, cells := fun _ _ => "", written := [] }

/-- A value shown as its decimal digits. -/
def showValue (v : Int) : String := toString v

/-- A board with the default netclass and the netclasses `Power` and `Signal`. -/
def twoNetclasses : NETCLASSES :=
  { m_Default := NETCLASS.mk "Default" 250000 800000 400000 300000 100000
    m_NetClasses := [ ("Power", NETCLASS.mk "Power" 500000 1000000 500000 300000 100000),
                      ("Signal", NETCLASS.mk "Signal" 200000 600000 300000 300000 100000) ] }

end GlobalEdit

/-! ## Theorems -/

/-! ### Loops -/

/-- Loop invariant rule for `forLoop`. -/
theorem forLoop_invariant {σ : Type} (P : Nat → σ → Prop) (body : Nat → σ → σ) (s : σ)
    (h0 : P 0 s) (hstep : ∀ i t, P i t → P (i + 1) (body i t)) :
    ∀ n, P n (forLoop body n s) := by
  intro n
  induction n with
  | zero => exact h0
  | succ n ih => exact hstep n _ ih

theorem setAt_apply {α : Type} (a : Nat → α) (i : Nat) (v : α) (j : Nat) :
    setAt a i v j = if j = i then v else a j := rfl


namespace Gerbview

theorem ldiff_one_eq (n : Nat) : Nat.ldiff 1 n = 1 - n % 2 := by
  apply Nat.eq_of_testBit_eq
  intro k
  rw [Nat.testBit_ldiff]
  rcases Nat.mod_two_eq_zero_or_one n with h | h
  · cases k with
    | zero => simp [Nat.testBit_zero, h]
    | succ k => simp [h, Nat.testBit_succ]
  · cases k with
    | zero => simp [Nat.testBit_zero, h]
    | succ k => simp [h, Nat.testBit_succ]

/-- The low bit of a two's complement integer is its remainder modulo 2. -/
theorem land_one_eq_emod (x : Int) : Int.land x 1 = x % 2 := by
  cases x with
  | ofNat n =>
    show ((n &&& 1 : Nat) : Int) = _
    rw [Nat.and_one_is_mod]; rfl
  | negSucc n =>
    show ((Nat.ldiff 1 n : Nat) : Int) = _
    rw [ldiff_one_eq, Int.negSucc_eq]
    omega

/-- Arithmetic form of `normalizeBrdLayersCount`. -/
theorem normalizeBrdLayersCount_eq (c : LayerIds) (count : Int) :
    normalizeBrdLayersCount c count =
      (let k := if count % 2 ≠ 0 then count + 1 else count
       let k := if k > (c.GERBER_DRAWLAYERS_COUNT : Int) then
         (c.GERBER_DRAWLAYERS_COUNT : Int) else k
       if k < 2 then 2 else k) := by
  simp only [normalizeBrdLayersCount, land_one_eq_emod]

/-- C1: for every `int` value of the export copper layer count below `INT_MAX`, the
count after `normalizeBrdLayersCount` is even, at least 2 and at most
`GERBER_DRAWLAYERS_COUNT`, the bound the code compares against.  The bound is a constant
of a header outside the sources; the statement holds for every even value of it that is
at least 2. -/
theorem normalizeBrdLayersCount_even_in_range (c : LayerIds) (count : Int)
    (hG : 2 ≤ c.GERBER_DRAWLAYERS_COUNT) (hGeven : c.GERBER_DRAWLAYERS_COUNT % 2 = 0)
    (hmin : -2147483648 ≤ count) (hmax : count < 2147483647) :
    normalizeBrdLayersCount c count % 2 = 0 ∧
    2 ≤ normalizeBrdLayersCount c count ∧
    normalizeBrdLayersCount c count ≤ (c.GERBER_DRAWLAYERS_COUNT : Int) := by
  rw [normalizeBrdLayersCount_eq]
  simp only []
  split_ifs <;> omega

theorem normalizeBrdLayersCount_even_in_range_witness :
    (2 ≤ kicadLayerIds.GERBER_DRAWLAYERS_COUNT ∧
      kicadLayerIds.GERBER_DRAWLAYERS_COUNT % 2 = 0 ∧
      (-2147483648 : Int) ≤ 37 ∧ (37 : Int) < 2147483647) ∧
    normalizeBrdLayersCount kicadLayerIds 37 % 2 = 0 ∧
    2 ≤ normalizeBrdLayersCount kicadLayerIds 37 ∧
    normalizeBrdLayersCount kicadLayerIds 37 ≤
      (kicadLayerIds.GERBER_DRAWLAYERS_COUNT : Int) :=
  ⟨by decide,
   normalizeBrdLayersCount_even_in_range kicadLayerIds 37 (by decide) (by decide)
     (by decide) (by decide)⟩

/-! ### `OnOkClick` -/

/-- When `F_Cu` is the first layer id, no entry of the lookup table raises
`inner_layer_max` above 0. -/
theorem innerLayerMax_eq_zero (c : LayerIds) (table : Nat → Int) (hF : c.F_Cu ≤ 0) :
    innerLayerMax c table = 0 := by
  unfold innerLayerMax
  refine forLoop_invariant (fun _ m => m = 0) _ _ rfl ?_ _
  intro i t ht
  subst ht
  show (if table i < c.F_Cu then if table i > 0 then table i else 0 else 0) = 0
  split_ifs <;> first | rfl | omega

/-- With `F_Cu` the first layer id, `OnOkClick` closes the dialog whatever the lookup
table holds. -/
theorem OnOkClick_always_endModal (c : LayerIds) (s : LAYERS_MAP_DIALOG) (hF : c.F_Cu ≤ 0) :
    (OnOkClick c s).2 = OkOutcome.endModal := by
  have h2 : 2 ≤ normalizeBrdLayersCount c s.m_exportBoardCopperLayersCount := by
    rw [normalizeBrdLayersCount_eq]
    simp only []
    split_ifs <;> omega
  simp only [OnOkClick, innerLayerMax_eq_zero c _ hF]
  split_ifs with h
  · omega
  · rfl

/-- C2 (evaluation at the failing input): one gerber file is mapped to the inner copper
layer 5 and the board has 2 copper layers, hence no inner copper layer; `OnOkClick`
nevertheless calls `EndModal( wxID_OK )`. -/
theorem OnOkClick_accepts_inner_layer_without_copper :
    innerLayerDialog.m_layersLookUpTable 0 = 5 ∧
    kicadLayerIds.F_Cu < 5 ∧ 5 < kicadLayerIds.B_Cu ∧
    5 > normalizeBrdLayersCount kicadLayerIds
          innerLayerDialog.m_exportBoardCopperLayersCount - 2 ∧
    (OnOkClick kicadLayerIds innerLayerDialog).2 = OkOutcome.endModal := by
  refine ⟨by decide, by decide, by decide, by decide, ?_⟩
  exact OnOkClick_always_endModal _ _ (by decide)

/-! ### `OnStoreSetup` and `OnGetSetup` -/

theorem OnStoreSetup_spec (c : LayerIds) (s : LAYERS_MAP_DIALOG) (config : GERBVIEW_SETTINGS) :
    (OnStoreSetup c s config).m_BoardLayersCount = s.m_exportBoardCopperLayersCount ∧
    (OnStoreSetup c s config).m_GerberToPcbLayerMapping =
      (List.range c.GERBER_DRAWLAYERS_COUNT).map s.m_layersLookUpTable := by
  unfold OnStoreSetup
  refine forLoop_invariant
    (fun n (cfg : GERBVIEW_SETTINGS) => cfg.m_BoardLayersCount = s.m_exportBoardCopperLayersCount ∧
      cfg.m_GerberToPcbLayerMapping = (List.range n).map s.m_layersLookUpTable) _ _
    ⟨rfl, rfl⟩ ?_ _
  intro i t ht
  refine ⟨ht.1, ?_⟩
  show t.m_GerberToPcbLayerMapping ++ [s.m_layersLookUpTable i] = _
  rw [ht.2, List.range_succ, List.map_append]
  rfl

theorem getSetupTable_spec (c : LayerIds) (config : GERBVIEW_SETTINGS)
    (s : LAYERS_MAP_DIALOG) :
    (getSetupTable c config s).m_exportBoardCopperLayersCount =
        s.m_exportBoardCopperLayersCount ∧
    (getSetupTable c config s).m_buttonTable = s.m_buttonTable ∧
    (getSetupTable c config s).m_gerberActiveLayersCount = s.m_gerberActiveLayersCount ∧
    ∀ j, (getSetupTable c config s).m_layersLookUpTable j =
      if j < c.GERBER_DRAWLAYERS_COUNT then config.m_GerberToPcbLayerMapping.getD j 0
      else s.m_layersLookUpTable j := by
  unfold getSetupTable
  refine forLoop_invariant
    (fun n (t : LAYERS_MAP_DIALOG) =>
      t.m_exportBoardCopperLayersCount = s.m_exportBoardCopperLayersCount ∧
      t.m_buttonTable = s.m_buttonTable ∧
      t.m_gerberActiveLayersCount = s.m_gerberActiveLayersCount ∧
      ∀ j, t.m_layersLookUpTable j =
        if j < n then config.m_GerberToPcbLayerMapping.getD j 0
        else s.m_layersLookUpTable j) _ _ ⟨rfl, rfl, rfl, fun j => by simp⟩ ?_ _
  intro i t ht
  refine ⟨ht.1, ht.2.1, ht.2.2.1, ?_⟩
  intro j
  show setAt t.m_layersLookUpTable i _ j = _
  rw [setAt_apply, ht.2.2.2 j]
  by_cases hji : j = i
  · subst hji; simp
  · have : (j < i + 1) ↔ (j < i) := by omega
    simp [hji, this]

theorem getSetupTexts_spec (c : LayerIds) (s : LAYERS_MAP_DIALOG) :
    (getSetupTexts c s).m_exportBoardCopperLayersCount = s.m_exportBoardCopperLayersCount ∧
    (getSetupTexts c s).m_buttonTable = s.m_buttonTable ∧
    (getSetupTexts c s).m_gerberActiveLayersCount = s.m_gerberActiveLayersCount ∧
    (getSetupTexts c s).m_layersLookUpTable = s.m_layersLookUpTable := by
  unfold getSetupTexts
  refine forLoop_invariant
    (fun _ (t : LAYERS_MAP_DIALOG) =>
      t.m_exportBoardCopperLayersCount = s.m_exportBoardCopperLayersCount ∧
      t.m_buttonTable = s.m_buttonTable ∧
      t.m_gerberActiveLayersCount = s.m_gerberActiveLayersCount ∧
      t.m_layersLookUpTable = s.m_layersLookUpTable) _ _ ⟨rfl, rfl, rfl, rfl⟩ ?_ _
  intro i t ht
  exact ht

/-- What a successful `OnGetSetup` leaves in the dialog. -/
theorem OnGetSetup_spec (c : LayerIds) (config : GERBVIEW_SETTINGS)
    (s s' : LAYERS_MAP_DIALOG) (h : OnGetSetup c config s = some s') :
    s'.m_exportBoardCopperLayersCount = normalizeBrdLayersCount c config.m_BoardLayersCount ∧
    s'.m_buttonTable = s.m_buttonTable ∧
    s'.m_gerberActiveLayersCount = s.m_gerberActiveLayersCount ∧
    ∀ j, s'.m_layersLookUpTable j =
      if j < c.GERBER_DRAWLAYERS_COUNT then config.m_GerberToPcbLayerMapping.getD j 0
      else s.m_layersLookUpTable j := by
  unfold OnGetSetup at h
  split_ifs at h with hlen
  simp only [Option.some.injEq] at h
  subst h
  obtain ⟨t1, t2, t3, t4⟩ := getSetupTexts_spec c (getSetupTable c config
    { s with
      m_exportBoardCopperLayersCount := normalizeBrdLayersCount c config.m_BoardLayersCount
      comboSelection := Int.tdiv (normalizeBrdLayersCount c config.m_BoardLayersCount) 2 - 1 })
  obtain ⟨u1, u2, u3, u4⟩ := getSetupTable_spec c config
    { s with
      m_exportBoardCopperLayersCount := normalizeBrdLayersCount c config.m_BoardLayersCount
      comboSelection := Int.tdiv (normalizeBrdLayersCount c config.m_BoardLayersCount) 2 - 1 }
  refine ⟨t1.trans u1, t2.trans u2, t3.trans u3, fun j => ?_⟩
  rw [congrFun t4 j]
  exact u4 j

/-- The function `OnGetSetup` succeeds on a vector of at least `GERBER_DRAWLAYERS_COUNT`
entries. -/
theorem OnGetSetup_isSome (c : LayerIds) (config : GERBVIEW_SETTINGS) (s : LAYERS_MAP_DIALOG)
    (hlen : c.GERBER_DRAWLAYERS_COUNT ≤ config.m_GerberToPcbLayerMapping.length) :
    ∃ s', OnGetSetup c config s = some s' := by
  unfold OnGetSetup
  rw [if_neg (by omega)]
  exact ⟨_, rfl⟩

/-- C3: `OnStoreSetup` followed by `OnGetSetup` succeeds, leaves every entry of
`m_layersLookUpTable` unchanged (in particular the `GERBER_DRAWLAYERS_COUNT` entries of
the array) and leaves `m_exportBoardCopperLayersCount` equal to `normalizeBrdLayersCount`
of its value before the store; the count is therefore unchanged when it was even and
between 2 and `GERBER_DRAWLAYERS_COUNT`. -/
theorem OnStoreSetup_OnGetSetup_roundtrip (c : LayerIds) (s : LAYERS_MAP_DIALOG)
    (config : GERBVIEW_SETTINGS) :
    ∃ s', OnGetSetup c (OnStoreSetup c s config) s = some s' ∧
      (∀ j, s'.m_layersLookUpTable j = s.m_layersLookUpTable j) ∧
      s'.m_exportBoardCopperLayersCount =
        normalizeBrdLayersCount c s.m_exportBoardCopperLayersCount ∧
      (s.m_exportBoardCopperLayersCount % 2 = 0 → 2 ≤ s.m_exportBoardCopperLayersCount →
        s.m_exportBoardCopperLayersCount ≤ (c.GERBER_DRAWLAYERS_COUNT : Int) →
        s'.m_exportBoardCopperLayersCount = s.m_exportBoardCopperLayersCount) := by
  obtain ⟨hcount, hmap⟩ := OnStoreSetup_spec c s config
  obtain ⟨s', hs'⟩ := OnGetSetup_isSome c (OnStoreSetup c s config) s (by simp [hmap])
  obtain ⟨g1, _, _, g4⟩ := OnGetSetup_spec c _ s s' hs'
  rw [hcount] at g1
  refine ⟨s', hs', ?_, g1, ?_⟩
  · intro j
    rw [g4 j, hmap]
    split_ifs with hj
    · simp [List.getD_eq_getElem?_getD, hj]
    · rfl
  · intro heven h2 hG
    rw [g1, normalizeBrdLayersCount_eq]
    simp only []
    split_ifs <;> omega

theorem OnStoreSetup_OnGetSetup_roundtrip_witness :
    (innerLayerDialog.m_exportBoardCopperLayersCount % 2 = 0 ∧
      2 ≤ innerLayerDialog.m_exportBoardCopperLayersCount ∧
      innerLayerDialog.m_exportBoardCopperLayersCount ≤
        (kicadLayerIds.GERBER_DRAWLAYERS_COUNT : Int)) ∧
    ∃ s', OnGetSetup kicadLayerIds (OnStoreSetup kicadLayerIds innerLayerDialog emptySettings)
        innerLayerDialog = some s' ∧
      (∀ j, s'.m_layersLookUpTable j = innerLayerDialog.m_layersLookUpTable j) ∧
      s'.m_exportBoardCopperLayersCount = innerLayerDialog.m_exportBoardCopperLayersCount := by
  have hpre : innerLayerDialog.m_exportBoardCopperLayersCount % 2 = 0 ∧
      2 ≤ innerLayerDialog.m_exportBoardCopperLayersCount ∧
      innerLayerDialog.m_exportBoardCopperLayersCount ≤
        (kicadLayerIds.GERBER_DRAWLAYERS_COUNT : Int) := by decide
  obtain ⟨s', h1, h2, _, h4⟩ :=
    OnStoreSetup_OnGetSetup_roundtrip kicadLayerIds innerLayerDialog emptySettings
  exact ⟨hpre, s', h1, h2, h4 hpre.1 hpre.2.1 hpre.2.2⟩

/-! ### `initDialog` and `OnResetClick` -/

theorem initArrays_spec (c : LayerIds) (s : LAYERS_MAP_DIALOG) :
    (initArrays c s).m_exportBoardCopperLayersCount = s.m_exportBoardCopperLayersCount ∧
    (∀ j, (initArrays c s).m_layersLookUpTable j =
      if j < c.GERBER_DRAWLAYERS_COUNT then c.UNSELECTED_LAYER else s.m_layersLookUpTable j) ∧
    (∀ j, (initArrays c s).m_buttonTable j =
      if j < c.GERBER_DRAWLAYERS_COUNT then -1 else s.m_buttonTable j) := by
  unfold initArrays
  refine forLoop_invariant
    (fun n (t : LAYERS_MAP_DIALOG) =>
      t.m_exportBoardCopperLayersCount = s.m_exportBoardCopperLayersCount ∧
      (∀ j, t.m_layersLookUpTable j =
        if j < n then c.UNSELECTED_LAYER else s.m_layersLookUpTable j) ∧
      (∀ j, t.m_buttonTable j = if j < n then -1 else s.m_buttonTable j)) _ _
    ⟨rfl, fun j => by simp, fun j => by simp⟩ ?_ _
  intro i t ht
  refine ⟨ht.1, fun j => ?_, fun j => ?_⟩
  · show setAt t.m_layersLookUpTable i _ j = _
    rw [setAt_apply, ht.2.1 j]
    by_cases hji : j = i
    · subst hji; simp
    · have : (j < i + 1) ↔ (j < i) := by omega
      simp [hji, this]
  · show setAt t.m_buttonTable i _ j = _
    rw [setAt_apply, ht.2.2 j]
    by_cases hji : j = i
    · subst hji; simp
    · have : (j < i + 1) ↔ (j < i) := by omega
      simp [hji, this]

theorem leadingImages_le (GetGbrImage : Nat → Bool) (remaining ii : Nat) :
    leadingImages GetGbrImage remaining ii ≤ remaining := by
  induction remaining generalizing ii with
  | zero => simp [leadingImages]
  | succ n ih =>
    unfold leadingImages
    split_ifs
    · omega
    · have := ih (ii + 1); omega

/-- Every slot of the leading run holds an image. -/
theorem leadingImages_loaded (GetGbrImage : Nat → Bool) (remaining ii j : Nat)
    (h1 : ii ≤ j) (h2 : j < ii + leadingImages GetGbrImage remaining ii) :
    GetGbrImage j = true := by
  induction remaining generalizing ii with
  | zero => simp [leadingImages] at h2; omega
  | succ n ih =>
    unfold leadingImages at h2
    split_ifs at h2 with h
    · omega
    · by_cases hj : j = ii
      · subst hj; simpa using h
      · exact ih (ii + 1) (by omega) (by omega)

/-- The slot after a leading run that stops early holds no image. -/
theorem leadingImages_stop (GetGbrImage : Nat → Bool) (remaining ii : Nat)
    (h : leadingImages GetGbrImage remaining ii < remaining) :
    GetGbrImage (ii + leadingImages GetGbrImage remaining ii) = false := by
  induction remaining generalizing ii with
  | zero => omega
  | succ n ih =>
    unfold leadingImages at h ⊢
    split_ifs at h ⊢ with h0
    · simpa using h0
    · have := ih (ii + 1) (by omega)
      rw [← this]
      congr 1
      omega

theorem leadingImages_zero (GetGbrImage : Nat → Bool) (ii : Nat) :
    leadingImages GetGbrImage 0 ii = 0 := rfl

theorem leadingImages_stop_eq (GetGbrImage : Nat → Bool) (n ii : Nat)
    (h : GetGbrImage ii = false) : leadingImages GetGbrImage (n + 1) ii = 0 := by
  simp [leadingImages, h]

theorem leadingImages_step_eq (GetGbrImage : Nat → Bool) (n ii : Nat)
    (h : GetGbrImage ii = true) :
    leadingImages GetGbrImage (n + 1) ii = leadingImages GetGbrImage n (ii + 1) + 1 := by
  simp [leadingImages, h]

theorem initImagesLoop_stop_eq (c : LayerIds) (GetGbrImage : Nat → Bool) (n ii : Nat)
    (pcb : Int) (s : LAYERS_MAP_DIALOG) (h : GetGbrImage ii = false) :
    initImagesLoop c GetGbrImage (n + 1) ii pcb s = s := by
  simp [initImagesLoop, h]

theorem initImagesLoop_step_eq (c : LayerIds) (GetGbrImage : Nat → Bool) (n ii : Nat)
    (pcb : Int) (s : LAYERS_MAP_DIALOG) (h : GetGbrImage ii = true) :
    initImagesLoop c GetGbrImage (n + 1) ii pcb s =
      initImagesLoop c GetGbrImage n (ii + 1)
        (adjustLayer c s.m_exportBoardCopperLayersCount pcb + 1)
        { s with
          m_buttonTable := setAt s.m_buttonTable s.m_gerberActiveLayersCount (ii : Int)
          m_layersLookUpTable := setAt s.m_layersLookUpTable ii
            (adjustLayer c s.m_exportBoardCopperLayersCount pcb)
          m_gerberActiveLayersCount := s.m_gerberActiveLayersCount + 1 } := by
  simp [initImagesLoop, h]

theorem initImagesLoop_spec (c : LayerIds) (GetGbrImage : Nat → Bool) (remaining : Nat) :
    ∀ (ii : Nat) (pcb_layer_num : Int) (s : LAYERS_MAP_DIALOG),
      s.m_gerberActiveLayersCount = ii →
      pcb_layer_num = runningLayer c s.m_exportBoardCopperLayersCount ii →
      (initImagesLoop c GetGbrImage remaining ii pcb_layer_num s).m_exportBoardCopperLayersCount
          = s.m_exportBoardCopperLayersCount ∧
      (initImagesLoop c GetGbrImage remaining ii pcb_layer_num s).m_gerberActiveLayersCount
          = ii + leadingImages GetGbrImage remaining ii ∧
      (∀ j, (initImagesLoop c GetGbrImage remaining ii pcb_layer_num s).m_layersLookUpTable j =
        if ii ≤ j ∧ j < ii + leadingImages GetGbrImage remaining ii then
          defaultLayer c s.m_exportBoardCopperLayersCount j
        else s.m_layersLookUpTable j) ∧
      (∀ j, (initImagesLoop c GetGbrImage remaining ii pcb_layer_num s).m_buttonTable j =
        if ii ≤ j ∧ j < ii + leadingImages GetGbrImage remaining ii then (j : Int)
        else s.m_buttonTable j) := by
  induction remaining with
  | zero =>
    intro ii pcb s hact _
    rw [leadingImages_zero]
    refine ⟨rfl, by simpa [initImagesLoop] using hact, fun j => ?_, fun j => ?_⟩
    · rw [if_neg (by omega)]; rfl
    · rw [if_neg (by omega)]; rfl
  | succ n ih =>
    intro ii pcb s hact hpcb
    by_cases himg : GetGbrImage ii = false
    · rw [initImagesLoop_stop_eq c GetGbrImage n ii pcb s himg,
        leadingImages_stop_eq GetGbrImage n ii himg]
      refine ⟨rfl, by omega, fun j => ?_, fun j => ?_⟩
      · rw [if_neg (by omega)]
      · rw [if_neg (by omega)]
    · have himg' : GetGbrImage ii = true := by simpa using himg
      rw [initImagesLoop_step_eq c GetGbrImage n ii pcb s himg',
        leadingImages_step_eq GetGbrImage n ii himg']
      obtain ⟨r1, r2, r3, r4⟩ := ih (ii + 1)
        (adjustLayer c s.m_exportBoardCopperLayersCount pcb + 1)
        { s with
          m_buttonTable := setAt s.m_buttonTable s.m_gerberActiveLayersCount (ii : Int)
          m_layersLookUpTable := setAt s.m_layersLookUpTable ii
            (adjustLayer c s.m_exportBoardCopperLayersCount pcb)
          m_gerberActiveLayersCount := s.m_gerberActiveLayersCount + 1 }
        (by simp [hact]) (by simp [runningLayer, hpcb])
      refine ⟨r1, by rw [r2]; omega, fun j => ?_, fun j => ?_⟩
      · rw [r3 j]
        simp only [setAt_apply]
        by_cases hj : j = ii
        · subst hj
          rw [if_neg (by omega), if_pos rfl, if_pos (by omega), hpcb]
          rfl
        · by_cases hlt : ii + 1 ≤ j ∧ j < ii + 1 + leadingImages GetGbrImage n (ii + 1)
          · rw [if_pos hlt, if_pos (by omega)]
          · rw [if_neg hlt, if_neg hj, if_neg (by omega)]
      · rw [r4 j]
        simp only [setAt_apply, hact]
        by_cases hj : j = ii
        · subst hj
          rw [if_neg (by omega), if_pos rfl, if_pos (by omega)]
        · by_cases hlt : ii + 1 ≤ j ∧ j < ii + 1 + leadingImages GetGbrImage n (ii + 1)
          · rw [if_pos hlt, if_pos (by omega)]
          · rw [if_neg hlt, if_neg hj, if_neg (by omega)]

theorem initTexts_spec (s : LAYERS_MAP_DIALOG) :
    (initTexts s).m_exportBoardCopperLayersCount = s.m_exportBoardCopperLayersCount ∧
    (initTexts s).m_buttonTable = s.m_buttonTable ∧
    (initTexts s).m_gerberActiveLayersCount = s.m_gerberActiveLayersCount ∧
    (initTexts s).m_layersLookUpTable = s.m_layersLookUpTable := by
  unfold initTexts
  refine forLoop_invariant
    (fun _ (t : LAYERS_MAP_DIALOG) =>
      t.m_exportBoardCopperLayersCount = s.m_exportBoardCopperLayersCount ∧
      t.m_buttonTable = s.m_buttonTable ∧
      t.m_gerberActiveLayersCount = s.m_gerberActiveLayersCount ∧
      t.m_layersLookUpTable = s.m_layersLookUpTable) _ _ ⟨rfl, rfl, rfl, rfl⟩ ?_ _
  intro i t ht
  exact ht

/-- What `initDialog` computes: the copper layer count is normalised, the active rows are
the leading run of loaded images, each of them is its own button and is mapped to its
default layer, and the other entries of the two arrays keep their default value. -/
theorem initDialog_spec (c : LayerIds) (GetGbrImage : Nat → Bool) (s : LAYERS_MAP_DIALOG) :
    (initDialog c GetGbrImage s).m_exportBoardCopperLayersCount =
        normalizeBrdLayersCount c s.m_exportBoardCopperLayersCount ∧
    (initDialog c GetGbrImage s).m_gerberActiveLayersCount =
        leadingImages GetGbrImage c.GERBER_DRAWLAYERS_COUNT 0 ∧
    (∀ j, j < c.GERBER_DRAWLAYERS_COUNT → (initDialog c GetGbrImage s).m_layersLookUpTable j =
      if j < leadingImages GetGbrImage c.GERBER_DRAWLAYERS_COUNT 0 then
        defaultLayer c (normalizeBrdLayersCount c s.m_exportBoardCopperLayersCount) j
      else c.UNSELECTED_LAYER) ∧
    (∀ j, j < c.GERBER_DRAWLAYERS_COUNT → (initDialog c GetGbrImage s).m_buttonTable j =
      if j < leadingImages GetGbrImage c.GERBER_DRAWLAYERS_COUNT 0 then (j : Int) else -1) := by
  have hd : initDialog c GetGbrImage s =
      initTexts (initImagesLoop c GetGbrImage c.GERBER_DRAWLAYERS_COUNT 0 0 (initStart c s)) :=
    rfl
  obtain ⟨a1, a2, a3⟩ := initArrays_spec c s
  have b1 : (initStart c s).m_exportBoardCopperLayersCount =
      normalizeBrdLayersCount c s.m_exportBoardCopperLayersCount := by
    show normalizeBrdLayersCount c (initArrays c s).m_exportBoardCopperLayersCount = _
    rw [a1]
  have b2 : ∀ j, (initStart c s).m_layersLookUpTable j =
      (initArrays c s).m_layersLookUpTable j := fun _ => rfl
  have b3 : ∀ j, (initStart c s).m_buttonTable j = (initArrays c s).m_buttonTable j :=
    fun _ => rfl
  obtain ⟨r1, r2, r3, r4⟩ := initImagesLoop_spec c GetGbrImage c.GERBER_DRAWLAYERS_COUNT 0 0
    (initStart c s) rfl rfl
  obtain ⟨t1, t2, t3, t4⟩ := initTexts_spec
    (initImagesLoop c GetGbrImage c.GERBER_DRAWLAYERS_COUNT 0 0 (initStart c s))
  rw [hd]
  refine ⟨?_, ?_, fun j hj => ?_, fun j hj => ?_⟩
  · rw [t1, r1, b1]
  · rw [t3, r2]; omega
  · rw [congrFun t4 j, r3 j, b1, b2 j, a2 j, if_pos hj]
    simp only [Nat.zero_le, true_and, Nat.zero_add]
  · rw [congrFun t2 j, r4 j, b3 j, a3 j, if_pos hj]
    simp only [Nat.zero_le, true_and, Nat.zero_add]

/-- What `OnResetClick` computes: the active rows get their default layer and become
their own button; nothing else changes in the two arrays. -/
theorem OnResetClick_spec (c : LayerIds) (s : LAYERS_MAP_DIALOG) :
    (OnResetClick c s).m_exportBoardCopperLayersCount = s.m_exportBoardCopperLayersCount ∧
    (OnResetClick c s).m_gerberActiveLayersCount = s.m_gerberActiveLayersCount ∧
    (∀ j, (OnResetClick c s).m_layersLookUpTable j =
      if j < s.m_gerberActiveLayersCount then
        defaultLayer c s.m_exportBoardCopperLayersCount j
      else s.m_layersLookUpTable j) ∧
    (∀ j, (OnResetClick c s).m_buttonTable j =
      if j < s.m_gerberActiveLayersCount then (j : Int) else s.m_buttonTable j) := by
  unfold OnResetClick
  have h := forLoop_invariant
    (fun n (p : Int × LAYERS_MAP_DIALOG) =>
      p.1 = runningLayer c s.m_exportBoardCopperLayersCount n ∧
      p.2.m_exportBoardCopperLayersCount = s.m_exportBoardCopperLayersCount ∧
      p.2.m_gerberActiveLayersCount = s.m_gerberActiveLayersCount ∧
      (∀ j, p.2.m_layersLookUpTable j =
        if j < n then defaultLayer c s.m_exportBoardCopperLayersCount j
        else s.m_layersLookUpTable j) ∧
      (∀ j, p.2.m_buttonTable j = if j < n then (j : Int) else s.m_buttonTable j))
    (fun ii (p : Int × LAYERS_MAP_DIALOG) =>
      let layer := adjustLayer c p.2.m_exportBoardCopperLayersCount p.1
      (layer + 1,
        { p.2 with
            m_layersLookUpTable := setAt p.2.m_layersLookUpTable ii layer
            m_layersList := setAt p.2.m_layersList ii
              (StaticText.mk (LabelText.layerName layer) Colour.null)
            m_buttonTable := setAt p.2.m_buttonTable ii (ii : Int) }))
    (0, s) ⟨rfl, rfl, rfl, fun j => by simp, fun j => by simp⟩ ?_ s.m_gerberActiveLayersCount
  · exact ⟨h.2.1, h.2.2.1, h.2.2.2.1, h.2.2.2.2⟩
  · intro i t ⟨h1, h2, h3, h4, h5⟩
    refine ⟨?_, h2, h3, fun j => ?_, fun j => ?_⟩
    · show adjustLayer c t.2.m_exportBoardCopperLayersCount t.1 + 1 = _
      rw [h1, h2]; rfl
    · show setAt t.2.m_layersLookUpTable i
        (adjustLayer c t.2.m_exportBoardCopperLayersCount t.1) j = _
      rw [setAt_apply, h4 j, h1, h2]
      by_cases hji : j = i
      · subst hji; simp [defaultLayer]
      · have : (j < i + 1) ↔ (j < i) := by omega
        simp [hji, this]
    · show setAt t.2.m_buttonTable i (i : Int) j = _
      rw [setAt_apply, h5 j]
      by_cases hji : j = i
      · subst hji; simp
      · have : (j < i + 1) ↔ (j < i) := by omega
        simp [hji, this]

theorem normalizeBrdLayersCount_idem (c : LayerIds) (count : Int) :
    normalizeBrdLayersCount c (normalizeBrdLayersCount c count) =
      normalizeBrdLayersCount c count := by
  rw [normalizeBrdLayersCount_eq c (normalizeBrdLayersCount c count),
    normalizeBrdLayersCount_eq c count]
  simp only []
  split_ifs <;> omega

/-- The handler `OnSelectLayer` changes neither the button table, nor the number of active
rows, nor the copper layer count. -/
theorem OnSelectLayer_frame (c : LayerIds) (SelectPCBLayer : Int → Int → Int) (ii : Int)
    (s s' : LAYERS_MAP_DIALOG) (h : OnSelectLayer c SelectPCBLayer ii s = some s') :
    s'.m_exportBoardCopperLayersCount = s.m_exportBoardCopperLayersCount ∧
    s'.m_buttonTable = s.m_buttonTable ∧
    s'.m_gerberActiveLayersCount = s.m_gerberActiveLayersCount := by
  unfold OnSelectLayer at h
  simp only [] at h
  split_ifs at h <;> simp only [Option.some.injEq] at h <;> subst h <;> exact ⟨rfl, rfl, rfl⟩

/-- In every reachable dialog the active rows are the leading run of loaded images, each
active row is its own button, the other buttons are -1 and the copper layer count is
normalised. -/
theorem Reachable_invariant (c : LayerIds) (GetGbrImage : Nat → Bool) (s : LAYERS_MAP_DIALOG)
    (h : Reachable c GetGbrImage s) :
    s.m_gerberActiveLayersCount = leadingImages GetGbrImage c.GERBER_DRAWLAYERS_COUNT 0 ∧
    (∀ j, j < c.GERBER_DRAWLAYERS_COUNT →
      s.m_buttonTable j = if j < s.m_gerberActiveLayersCount then (j : Int) else -1) ∧
    normalizeBrdLayersCount c s.m_exportBoardCopperLayersCount =
      s.m_exportBoardCopperLayersCount := by
  induction h with
  | init s0 =>
    obtain ⟨d1, d2, _, d4⟩ := initDialog_spec c GetGbrImage s0
    refine ⟨d2, fun j hj => ?_, ?_⟩
    · rw [d4 j hj, d2]
    · rw [d1, normalizeBrdLayersCount_idem]
  | getSetup config s s' _ hget ih =>
    obtain ⟨g1, g2, g3, _⟩ := OnGetSetup_spec c config s s' hget
    refine ⟨g3.trans ih.1, fun j hj => ?_, ?_⟩
    · rw [g2, g3]; exact ih.2.1 j hj
    · rw [g1, normalizeBrdLayersCount_idem]
  | selectLayer sel ii s s' _ hsel ih =>
    obtain ⟨f1, f2, f3⟩ := OnSelectLayer_frame c sel ii s s' hsel
    refine ⟨f3.trans ih.1, fun j hj => ?_, ?_⟩
    · rw [f2, f3]; exact ih.2.1 j hj
    · rw [f1]; exact ih.2.2
  | reset s _ ih =>
    obtain ⟨r1, r2, _, r4⟩ := OnResetClick_spec c s
    refine ⟨r2.trans ih.1, fun j hj => ?_, ?_⟩
    · rw [r4 j, r2, ih.2.1 j hj]
      split_ifs <;> rfl
    · rw [r1]; exact ih.2.2
  | countSelection id s h0 hG _ ih =>
    refine ⟨ih.1, ih.2.1, ?_⟩
    show normalizeBrdLayersCount c ((id + 1) * 2) = (id + 1) * 2
    rw [normalizeBrdLayersCount_eq]
    simp only []
    split_ifs <;> omega

/-- C6 (as amended): in every dialog state reachable after `initDialog`, `OnResetClick`
gives every entry of `m_buttonTable`, and every entry of `m_layersLookUpTable` whose index
is below `m_gerberActiveLayersCount`, the value `initDialog` computes for the same gerber
images and the same copper layer count; the lookup table entries from index
`m_gerberActiveLayersCount` on are left as they were. -/
theorem OnResetClick_restores_active_rows (c : LayerIds) (GetGbrImage : Nat → Bool)
    (s s0 : LAYERS_MAP_DIALOG) (hreach : Reachable c GetGbrImage s)
    (hcount : s0.m_exportBoardCopperLayersCount = s.m_exportBoardCopperLayersCount) :
    (∀ j, j < s.m_gerberActiveLayersCount →
      (OnResetClick c s).m_layersLookUpTable j =
        (initDialog c GetGbrImage s0).m_layersLookUpTable j) ∧
    (∀ j, j < c.GERBER_DRAWLAYERS_COUNT →
      (OnResetClick c s).m_buttonTable j = (initDialog c GetGbrImage s0).m_buttonTable j) ∧
    (∀ j, s.m_gerberActiveLayersCount ≤ j →
      (OnResetClick c s).m_layersLookUpTable j = s.m_layersLookUpTable j) := by
  obtain ⟨i1, i2, i3⟩ := Reachable_invariant c GetGbrImage s hreach
  obtain ⟨_, _, r3, r4⟩ := OnResetClick_spec c s
  obtain ⟨_, _, d3, d4⟩ := initDialog_spec c GetGbrImage s0
  have hle := leadingImages_le GetGbrImage c.GERBER_DRAWLAYERS_COUNT 0
  refine ⟨fun j hj => ?_, fun j hj => ?_, fun j hj => ?_⟩
  · rw [r3 j, if_pos hj, d3 j (by omega), if_pos (by omega), hcount, i3]
  · rw [r4 j, d4 j hj, i2 j hj, ← i1]
    split_ifs <;> rfl
  · rw [r3 j, if_neg (by omega)]

/-- C6 (counterexample): with one gerber file loaded, `OnGetSetup` reads settings stored
when two files were loaded; the state is reachable, and after `OnResetClick` entry 1 of
the lookup table is still the stored layer 0, whereas `initDialog` computes
`UNSELECTED_LAYER` for it. -/
theorem OnResetClick_keeps_inactive_entry :
    ∃ s, oneFileAfterGetSetup = some s ∧
      Reachable kicadLayerIds (firstSlots 1) s ∧
      1 < kicadLayerIds.GERBER_DRAWLAYERS_COUNT ∧
      (OnResetClick kicadLayerIds s).m_layersLookUpTable 1 = 0 ∧
      (initDialog kicadLayerIds (firstSlots 1) s).m_layersLookUpTable 1 = -2 ∧
      (OnResetClick kicadLayerIds s).m_layersLookUpTable 1 ≠
        (initDialog kicadLayerIds (firstSlots 1) s).m_layersLookUpTable 1 := by
  have hlen : kicadLayerIds.GERBER_DRAWLAYERS_COUNT ≤
      twoFilesSettings.m_GerberToPcbLayerMapping.length := by
    rw [twoFilesSettings, (OnStoreSetup_spec _ _ _).2]; simp
  obtain ⟨s, hs⟩ := OnGetSetup_isSome kicadLayerIds twoFilesSettings
    (initDialog kicadLayerIds (firstSlots 1) blankDialog) hlen
  have hreach : Reachable kicadLayerIds (firstSlots 1) s :=
    Reachable.getSetup twoFilesSettings _ s (Reachable.init blankDialog) hs
  obtain ⟨g1, g2, g3, g4⟩ := OnGetSetup_spec _ _ _ _ hs
  obtain ⟨d1, d2, d3, d4⟩ := initDialog_spec kicadLayerIds (firstSlots 1) blankDialog
  have hact : s.m_gerberActiveLayersCount = 1 := by rw [g3, d2]; decide
  have hreset : (OnResetClick kicadLayerIds s).m_layersLookUpTable 1 = 0 := by
    rw [(OnResetClick_spec kicadLayerIds s).2.2.1 1, hact, if_neg (by omega), g4 1,
      if_pos (by decide)]
    decide
  have hinit : (initDialog kicadLayerIds (firstSlots 1) s).m_layersLookUpTable 1 = -2 := by
    rw [(initDialog_spec kicadLayerIds (firstSlots 1) s).2.2.1 1 (by decide),
      if_neg (by decide)]
    rfl
  refine ⟨s, hs, hreach, by decide, hreset, hinit, ?_⟩
  rw [hreset, hinit]
  decide

theorem OnResetClick_restores_active_rows_witness :
    Reachable kicadLayerIds (firstSlots 2) (initDialog kicadLayerIds (firstSlots 2) blankDialog) ∧
    (∀ j, j < (initDialog kicadLayerIds (firstSlots 2) blankDialog).m_gerberActiveLayersCount →
      (OnResetClick kicadLayerIds
          (initDialog kicadLayerIds (firstSlots 2) blankDialog)).m_layersLookUpTable j =
        (initDialog kicadLayerIds (firstSlots 2) blankDialog).m_layersLookUpTable j) :=
  ⟨Reachable.init blankDialog,
   (OnResetClick_restores_active_rows kicadLayerIds (firstSlots 2)
      (initDialog kicadLayerIds (firstSlots 2) blankDialog) blankDialog
      (Reachable.init blankDialog) (by decide)).1⟩

/-! ### `initDialog` and the loaded images -/

theorem runningLayer_nonneg (c : LayerIds) (count : Int) (hF : 0 ≤ c.F_Cu) (k : Nat) :
    0 ≤ runningLayer c count k ∧ 0 ≤ defaultLayer c count k := by
  induction k with
  | zero =>
    refine ⟨le_refl _, ?_⟩
    unfold defaultLayer adjustLayer runningLayer
    split_ifs <;> omega
  | succ k ih =>
    have h1 : 0 ≤ runningLayer c count (k + 1) := by
      show 0 ≤ defaultLayer c count k + 1
      omega
    refine ⟨h1, ?_⟩
    unfold defaultLayer adjustLayer
    split_ifs <;> omega

theorem filter_lt_length (n p : Nat) :
    ((List.range n).filter (fun j => decide (j < p))).length = min n p := by
  induction n with
  | zero => simp
  | succ n ih =>
    rw [List.range_succ, List.filter_append, List.length_append, ih]
    by_cases h : n < p
    · simp [List.filter, h]; omega
    · simp [List.filter, h]; omega

/-- When no image follows an empty slot, the loaded images are the leading run. -/
theorem loadedImages_eq_leadingImages (GetGbrImage : Nat → Bool) (n : Nat)
    (hcontig : ∀ j, j < n → GetGbrImage j = true → ∀ i, i < j → GetGbrImage i = true) :
    loadedImages GetGbrImage n = leadingImages GetGbrImage n 0 := by
  have hle := leadingImages_le GetGbrImage n 0
  have hiff : ∀ j, j ∈ List.range n →
      GetGbrImage j = decide (j < leadingImages GetGbrImage n 0) := by
    intro j hj
    rw [List.mem_range] at hj
    by_cases hlt : j < leadingImages GetGbrImage n 0
    · rw [leadingImages_loaded GetGbrImage n 0 j (Nat.zero_le _) (by omega)]
      simp [hlt]
    · have hstop := leadingImages_stop GetGbrImage n 0 (by omega)
      rw [Nat.zero_add] at hstop
      have hfalse : GetGbrImage j = false := by
        by_contra hne
        have htrue : GetGbrImage j = true := by simpa using hne
        rcases Nat.lt_or_ge (leadingImages GetGbrImage n 0) j with h | h
        · rw [hcontig j hj htrue _ h] at hstop
          exact Bool.noConfusion hstop
        · have : j = leadingImages GetGbrImage n 0 := by omega
          rw [← this, htrue] at hstop
          exact Bool.noConfusion hstop
      rw [hfalse]
      simp [hlt]
  unfold loadedImages
  rw [List.filter_congr hiff, filter_lt_length]
  omega

/-- C10 (as amended): after `initDialog`, `m_gerberActiveLayersCount` is the number of
gerber images in the slots before the first empty slot; it equals the number of loaded
images when no image follows an empty slot.  The index of every image before the first
empty slot occurs in `m_buttonTable[0 .. m_gerberActiveLayersCount-1]` with a lookup table
entry different from `UNSELECTED_LAYER`; every other slot has the entry
`UNSELECTED_LAYER` and no button.  (`UNSELECTED_LAYER` is negative and `F_Cu` is not.) -/
theorem initDialog_shows_leading_images (c : LayerIds) (GetGbrImage : Nat → Bool)
    (s0 : LAYERS_MAP_DIALOG) (hU : c.UNSELECTED_LAYER < 0) (hF : 0 ≤ c.F_Cu) :
    (initDialog c GetGbrImage s0).m_gerberActiveLayersCount =
      leadingImages GetGbrImage c.GERBER_DRAWLAYERS_COUNT 0 ∧
    ((∀ j, j < c.GERBER_DRAWLAYERS_COUNT → GetGbrImage j = true →
        ∀ i, i < j → GetGbrImage i = true) →
      (initDialog c GetGbrImage s0).m_gerberActiveLayersCount =
        loadedImages GetGbrImage c.GERBER_DRAWLAYERS_COUNT) ∧
    (∀ ii, ii < c.GERBER_DRAWLAYERS_COUNT → (∀ i, i ≤ ii → GetGbrImage i = true) →
      (∃ k, k < (initDialog c GetGbrImage s0).m_gerberActiveLayersCount ∧
        (initDialog c GetGbrImage s0).m_buttonTable k = (ii : Int)) ∧
      (initDialog c GetGbrImage s0).m_layersLookUpTable ii ≠ c.UNSELECTED_LAYER) ∧
    (∀ ii, ii < c.GERBER_DRAWLAYERS_COUNT → ¬ (∀ i, i ≤ ii → GetGbrImage i = true) →
      (∀ k, k < (initDialog c GetGbrImage s0).m_gerberActiveLayersCount →
        (initDialog c GetGbrImage s0).m_buttonTable k ≠ (ii : Int)) ∧
      (initDialog c GetGbrImage s0).m_layersLookUpTable ii = c.UNSELECTED_LAYER) := by
  obtain ⟨_, d2, d3, d4⟩ := initDialog_spec c GetGbrImage s0
  have hle := leadingImages_le GetGbrImage c.GERBER_DRAWLAYERS_COUNT 0
  have hlead : ∀ ii, ii < c.GERBER_DRAWLAYERS_COUNT →
      ((∀ i, i ≤ ii → GetGbrImage i = true) ↔
        ii < leadingImages GetGbrImage c.GERBER_DRAWLAYERS_COUNT 0) := by
    intro ii hii
    constructor
    · intro hall
      by_contra hnot
      have hstop := leadingImages_stop GetGbrImage c.GERBER_DRAWLAYERS_COUNT 0 (by omega)
      rw [Nat.zero_add, hall _ (by omega)] at hstop
      exact Bool.noConfusion hstop
    · intro hlt i hi
      exact leadingImages_loaded GetGbrImage c.GERBER_DRAWLAYERS_COUNT 0 i (Nat.zero_le _)
        (by omega)
  refine ⟨d2, fun hcontig => ?_, fun ii hii hall => ?_, fun ii hii hnot => ?_⟩
  · rw [d2, loadedImages_eq_leadingImages GetGbrImage _ hcontig]
  · have hlt := (hlead ii hii).1 hall
    refine ⟨⟨ii, by omega, ?_⟩, ?_⟩
    · rw [d4 ii hii, if_pos hlt]
    · rw [d3 ii hii, if_pos hlt]
      have := (runningLayer_nonneg c
        (normalizeBrdLayersCount c s0.m_exportBoardCopperLayersCount) hF ii).2
      omega
  · have hge : ¬ ii < leadingImages GetGbrImage c.GERBER_DRAWLAYERS_COUNT 0 :=
      fun h => hnot ((hlead ii hii).2 h)
    refine ⟨fun k hk => ?_, ?_⟩
    · rw [d4 k (by omega), if_pos (by omega)]
      omega
    · rw [d3 ii hii, if_neg hge]

/-- C10 (counterexample): with an image in slot 1 only, one gerber image is loaded but
`initDialog` leaves `m_gerberActiveLayersCount` at 0, so the index 1 is in no active row
of `m_buttonTable`, and its lookup table entry is `UNSELECTED_LAYER`. -/
theorem initDialog_misses_image_after_empty_slot :
    onlySlotOne 1 = true ∧
    loadedImages onlySlotOne kicadLayerIds.GERBER_DRAWLAYERS_COUNT = 1 ∧
    (initDialog kicadLayerIds onlySlotOne blankDialog).m_gerberActiveLayersCount = 0 ∧
    (initDialog kicadLayerIds onlySlotOne blankDialog).m_gerberActiveLayersCount ≠
      loadedImages onlySlotOne kicadLayerIds.GERBER_DRAWLAYERS_COUNT ∧
    (initDialog kicadLayerIds onlySlotOne blankDialog).m_layersLookUpTable 1 =
      kicadLayerIds.UNSELECTED_LAYER := by
  refine ⟨by decide, by decide, by decide, by decide, by decide⟩

theorem initDialog_shows_leading_images_witness :
    (kicadLayerIds.UNSELECTED_LAYER < 0 ∧ 0 ≤ kicadLayerIds.F_Cu ∧
      (∀ j, j < kicadLayerIds.GERBER_DRAWLAYERS_COUNT → firstSlots 2 j = true →
        ∀ i, i < j → firstSlots 2 i = true) ∧
      (∀ i, i ≤ 1 → firstSlots 2 i = true)) ∧
    (initDialog kicadLayerIds (firstSlots 2) blankDialog).m_gerberActiveLayersCount =
      loadedImages (firstSlots 2) kicadLayerIds.GERBER_DRAWLAYERS_COUNT ∧
    (∃ k, k < (initDialog kicadLayerIds (firstSlots 2) blankDialog).m_gerberActiveLayersCount ∧
      (initDialog kicadLayerIds (firstSlots 2) blankDialog).m_buttonTable k = 1) ∧
    (initDialog kicadLayerIds (firstSlots 2) blankDialog).m_layersLookUpTable 1 ≠
      kicadLayerIds.UNSELECTED_LAYER := by
  have hcontig : ∀ j, j < kicadLayerIds.GERBER_DRAWLAYERS_COUNT → firstSlots 2 j = true →
      ∀ i, i < j → firstSlots 2 i = true := by
    intro j _ hj i hi
    simp only [firstSlots, decide_eq_true_eq] at hj ⊢
    omega
  have hall : ∀ i, i ≤ 1 → firstSlots 2 i = true := by
    intro i hi
    simp only [firstSlots, decide_eq_true_eq]
    omega
  obtain ⟨_, h2, h3, _⟩ := initDialog_shows_leading_images kicadLayerIds (firstSlots 2)
    blankDialog (by decide) (by decide)
  exact ⟨⟨by decide, by decide, hcontig, hall⟩, h2 hcontig,
    (h3 1 (by decide) hall).1, (h3 1 (by decide) hall).2⟩

/-! ### `OnSelectLayer` -/

/-- What `OnSelectLayer` does for a row whose button table entry is an index of the lookup
table. -/
theorem OnSelectLayer_spec (c : LayerIds) (SelectPCBLayer : Int → Int → Int) (ii : Nat)
    (s : LAYERS_MAP_DIALOG) (hii : ii < c.GERBER_DRAWLAYERS_COUNT)
    (hb0 : 0 ≤ s.m_buttonTable ii)
    (hb1 : s.m_buttonTable ii < (c.GERBER_DRAWLAYERS_COUNT : Int)) :
    ∃ s', OnSelectLayer c SelectPCBLayer (ii : Int) s = some s' ∧
      s'.m_buttonTable = s.m_buttonTable ∧
      s'.m_exportBoardCopperLayersCount = s.m_exportBoardCopperLayersCount ∧
      s'.m_gerberActiveLayersCount = s.m_gerberActiveLayersCount ∧
      ((chosenLayer c SelectPCBLayer ii s = c.UNSELECTED_LAYER ∨
          c.IsValidLayer (chosenLayer c SelectPCBLayer ii s) = true) →
        s'.m_layersLookUpTable (s.m_buttonTable ii).toNat = chosenLayer c SelectPCBLayer ii s ∧
        (∀ j, j ≠ (s.m_buttonTable ii).toNat →
          s'.m_layersLookUpTable j = s.m_layersLookUpTable j) ∧
        (chosenLayer c SelectPCBLayer ii s ≠ s.m_layersLookUpTable (s.m_buttonTable ii).toNat →
          s'.m_layersList ii = exportText c (chosenLayer c SelectPCBLayer ii s)) ∧
        (chosenLayer c SelectPCBLayer ii s = s.m_layersLookUpTable (s.m_buttonTable ii).toNat →
          s'.m_layersList ii = s.m_layersList ii)) ∧
      (¬ (chosenLayer c SelectPCBLayer ii s = c.UNSELECTED_LAYER ∨
          c.IsValidLayer (chosenLayer c SelectPCBLayer ii s) = true) → s' = s) ∧
      (∀ r, r ≠ ii → s'.m_layersList r = s.m_layersList r) := by
  have hr : ¬ ((ii : Int) < 0 ∨ (ii : Int) ≥ (c.GERBER_DRAWLAYERS_COUNT : Int)) := by omega
  have hbr : ¬ (s.m_buttonTable ii < 0 ∨
      s.m_buttonTable ii ≥ (c.GERBER_DRAWLAYERS_COUNT : Int)) := by omega
  unfold OnSelectLayer
  rw [if_neg hr]
  simp only [Int.toNat_ofNat]
  rw [if_neg hbr]
  by_cases hinv : chosenLayer c SelectPCBLayer ii s ≠ c.UNSELECTED_LAYER ∧
      c.IsValidLayer (chosenLayer c SelectPCBLayer ii s) = false
  · refine ⟨s, ?_, rfl, rfl, rfl, fun h => ?_, fun _ => rfl, fun _ _ => rfl⟩
    · exact if_pos hinv
    · exfalso
      rcases h with h | h
      · exact hinv.1 h
      · rw [hinv.2] at h; exact Bool.noConfusion h
  · have hok : chosenLayer c SelectPCBLayer ii s = c.UNSELECTED_LAYER ∨
        c.IsValidLayer (chosenLayer c SelectPCBLayer ii s) = true := by
      by_contra hno
      apply hinv
      constructor
      · exact fun h => hno (Or.inl h)
      · cases hv : c.IsValidLayer (chosenLayer c SelectPCBLayer ii s)
        · rfl
        · exact absurd (Or.inr hv) hno
    by_cases hsame : chosenLayer c SelectPCBLayer ii s ≠
        s.m_layersLookUpTable (s.m_buttonTable ii).toNat
    · refine ⟨{ s with
          m_layersLookUpTable := setAt s.m_layersLookUpTable (s.m_buttonTable ii).toNat
            (chosenLayer c SelectPCBLayer ii s)
          m_layersList := setAt s.m_layersList ii
            (exportText c (chosenLayer c SelectPCBLayer ii s)) }, ?_, rfl, rfl, rfl,
        fun _ => ⟨?_, fun j hj => ?_, fun _ => ?_, fun h => absurd h hsame⟩,
        fun h => absurd hok h, fun r hr' => ?_⟩
      · exact (if_neg hinv).trans (if_pos hsame)
      · simp [setAt_apply]
      · simp [setAt_apply, hj]
      · simp [setAt_apply]
      · simp [setAt_apply, hr']
    · have heq : chosenLayer c SelectPCBLayer ii s =
          s.m_layersLookUpTable (s.m_buttonTable ii).toNat := by
        by_contra h; exact hsame h
      refine ⟨s, ?_, rfl, rfl, rfl,
        fun _ => ⟨heq.symm, fun _ _ => rfl, fun h => absurd heq h, fun _ => rfl⟩,
        fun h => absurd hok h, fun _ _ => rfl⟩
      exact (if_neg hinv).trans (if_neg hsame)

/-- C11: in a dialog state reachable after `initDialog`, for every row `ii` below
`m_gerberActiveLayersCount` and the layer `jj` that `SelectPCBLayer` returns,
`OnSelectLayer` leaves the lookup table entry at index `m_buttonTable[ii]` equal to `jj`
and all other entries unchanged when `jj` is `UNSELECTED_LAYER` or a valid layer, leaves
the whole table unchanged otherwise, and never changes `m_buttonTable` or the copper
layer count. -/
theorem OnSelectLayer_changes_only_that_layer (c : LayerIds) (GetGbrImage : Nat → Bool)
    (SelectPCBLayer : Int → Int → Int) (ii : Nat) (s : LAYERS_MAP_DIALOG)
    (hreach : Reachable c GetGbrImage s) (hii : ii < s.m_gerberActiveLayersCount) :
    ∃ s', OnSelectLayer c SelectPCBLayer (ii : Int) s = some s' ∧
      ((chosenLayer c SelectPCBLayer ii s = c.UNSELECTED_LAYER ∨
          c.IsValidLayer (chosenLayer c SelectPCBLayer ii s) = true) →
        s'.m_layersLookUpTable (s.m_buttonTable ii).toNat = chosenLayer c SelectPCBLayer ii s ∧
        ∀ j, j ≠ (s.m_buttonTable ii).toNat →
          s'.m_layersLookUpTable j = s.m_layersLookUpTable j) ∧
      (¬ (chosenLayer c SelectPCBLayer ii s = c.UNSELECTED_LAYER ∨
          c.IsValidLayer (chosenLayer c SelectPCBLayer ii s) = true) →
        s'.m_layersLookUpTable = s.m_layersLookUpTable) ∧
      s'.m_buttonTable = s.m_buttonTable ∧
      s'.m_exportBoardCopperLayersCount = s.m_exportBoardCopperLayersCount := by
  obtain ⟨i1, i2, _⟩ := Reachable_invariant c GetGbrImage s hreach
  have hle := leadingImages_le GetGbrImage c.GERBER_DRAWLAYERS_COUNT 0
  have hG : ii < c.GERBER_DRAWLAYERS_COUNT := by omega
  have hbut : s.m_buttonTable ii = (ii : Int) := by rw [i2 ii hG, if_pos hii]
  obtain ⟨s', h1, h2, h3, _, h5, h6, _⟩ := OnSelectLayer_spec c SelectPCBLayer ii s hG
    (by omega) (by omega)
  exact ⟨s', h1, fun h => ⟨(h5 h).1, (h5 h).2.1⟩, fun h => by rw [h6 h], h2, h3⟩

theorem OnSelectLayer_changes_only_that_layer_witness :
    (Reachable kicadLayerIds (firstSlots 2) (initDialog kicadLayerIds (firstSlots 2) blankDialog) ∧
      1 < (initDialog kicadLayerIds (firstSlots 2) blankDialog).m_gerberActiveLayersCount) ∧
    ∃ s', OnSelectLayer kicadLayerIds (alwaysPick 5) 1
        (initDialog kicadLayerIds (firstSlots 2) blankDialog) = some s' ∧
      s'.m_layersLookUpTable 1 = 5 ∧
      s'.m_layersLookUpTable 0 =
        (initDialog kicadLayerIds (firstSlots 2) blankDialog).m_layersLookUpTable 0 := by
  obtain ⟨s', h1, h2, _⟩ := OnSelectLayer_changes_only_that_layer kicadLayerIds (firstSlots 2)
    (alwaysPick 5) 1 (initDialog kicadLayerIds (firstSlots 2) blankDialog)
    (Reachable.init blankDialog) (by decide)
  have hv : chosenLayer kicadLayerIds (alwaysPick 5) 1
        (initDialog kicadLayerIds (firstSlots 2) blankDialog) = kicadLayerIds.UNSELECTED_LAYER ∨
      kicadLayerIds.IsValidLayer (chosenLayer kicadLayerIds (alwaysPick 5) 1
        (initDialog kicadLayerIds (firstSlots 2) blankDialog)) = true := Or.inr (by decide)
  exact ⟨⟨Reachable.init blankDialog, by decide⟩, s', h1, (h2 hv).1, (h2 hv).2 0 (by decide)⟩
/-! ### The texts of the rows -/

theorem initTexts_texts (s : LAYERS_MAP_DIALOG) (j : Nat) :
    (initTexts s).m_layersList j =
      if j < s.m_gerberActiveLayersCount then
        StaticText.mk (LabelText.layerName (s.m_layersLookUpTable (s.m_buttonTable j).toNat))
          Colour.null
      else s.m_layersList j := by
  have h := forLoop_invariant
    (fun n (t : LAYERS_MAP_DIALOG) =>
      t.m_layersLookUpTable = s.m_layersLookUpTable ∧ t.m_buttonTable = s.m_buttonTable ∧
      ∀ j, t.m_layersList j =
        if j < n then
          StaticText.mk (LabelText.layerName (s.m_layersLookUpTable (s.m_buttonTable j).toNat))
            Colour.null
        else s.m_layersList j)
    (fun ii (s : LAYERS_MAP_DIALOG) =>
      { s with
        m_layersList := setAt s.m_layersList ii
          (StaticText.mk
            (LabelText.layerName (s.m_layersLookUpTable (s.m_buttonTable ii).toNat))
            Colour.null) })
    s ⟨rfl, rfl, fun j => by simp⟩ ?_ s.m_gerberActiveLayersCount
  · exact h.2.2 j
  · intro i t ⟨h1, h2, h3⟩
    refine ⟨h1, h2, fun j => ?_⟩
    show setAt t.m_layersList i _ j = _
    rw [setAt_apply, h3 j, h1, h2]
    by_cases hji : j = i
    · subst hji; simp
    · have : (j < i + 1) ↔ (j < i) := by omega
      simp [hji, this]

/-- After `initDialog` every active row shows the name of the layer it is mapped to, in
the default colour. -/
theorem initDialog_texts (c : LayerIds) (GetGbrImage : Nat → Bool) (s : LAYERS_MAP_DIALOG)
    (j : Nat) (hj : j < (initDialog c GetGbrImage s).m_gerberActiveLayersCount) :
    (initDialog c GetGbrImage s).m_layersList j =
      StaticText.mk (LabelText.layerName ((initDialog c GetGbrImage s).m_layersLookUpTable
        ((initDialog c GetGbrImage s).m_buttonTable j).toNat)) Colour.null := by
  have hd : initDialog c GetGbrImage s =
      initTexts (initImagesLoop c GetGbrImage c.GERBER_DRAWLAYERS_COUNT 0 0 (initStart c s)) :=
    rfl
  obtain ⟨_, t2, t3, t4⟩ := initTexts_spec
    (initImagesLoop c GetGbrImage c.GERBER_DRAWLAYERS_COUNT 0 0 (initStart c s))
  rw [hd] at hj ⊢
  rw [t3] at hj
  rw [initTexts_texts, if_pos hj, t2, t4]

/-- After `OnResetClick` every active row shows the name of its default layer, in the
default colour `wxNullColour`. -/
theorem OnResetClick_texts (c : LayerIds) (s : LAYERS_MAP_DIALOG) (j : Nat) :
    (OnResetClick c s).m_layersList j =
      if j < s.m_gerberActiveLayersCount then
        StaticText.mk (LabelText.layerName (defaultLayer c s.m_exportBoardCopperLayersCount j))
          Colour.null
      else s.m_layersList j := by
  unfold OnResetClick
  have h := forLoop_invariant
    (fun n (p : Int × LAYERS_MAP_DIALOG) =>
      p.1 = runningLayer c s.m_exportBoardCopperLayersCount n ∧
      p.2.m_exportBoardCopperLayersCount = s.m_exportBoardCopperLayersCount ∧
      ∀ j, p.2.m_layersList j =
        if j < n then
          StaticText.mk (LabelText.layerName (defaultLayer c s.m_exportBoardCopperLayersCount j))
            Colour.null
        else s.m_layersList j)
    (fun ii (p : Int × LAYERS_MAP_DIALOG) =>
      let layer := adjustLayer c p.2.m_exportBoardCopperLayersCount p.1
      (layer + 1,
        { p.2 with
            m_layersLookUpTable := setAt p.2.m_layersLookUpTable ii layer
            m_layersList := setAt p.2.m_layersList ii
              (StaticText.mk (LabelText.layerName layer) Colour.null)
            m_buttonTable := setAt p.2.m_buttonTable ii (ii : Int) }))
    (0, s) ⟨rfl, rfl, fun j => by simp⟩ ?_ s.m_gerberActiveLayersCount
  · exact h.2.2 j
  · intro i t ⟨h1, h2, h3⟩
    refine ⟨?_, h2, fun j => ?_⟩
    · show adjustLayer c t.2.m_exportBoardCopperLayersCount t.1 + 1 = _
      rw [h1, h2]; rfl
    · show setAt t.2.m_layersList i
        (StaticText.mk (LabelText.layerName
          (adjustLayer c t.2.m_exportBoardCopperLayersCount t.1)) Colour.null) j = _
      rw [setAt_apply, h3 j, h1, h2]
      by_cases hji : j = i
      · subst hji; simp [defaultLayer]
      · have : (j < i + 1) ↔ (j < i) := by omega
        simp [hji, this]

theorem getSetupTexts_texts (c : LayerIds) (s : LAYERS_MAP_DIALOG) (j : Nat) :
    (getSetupTexts c s).m_layersList j =
      if j < s.m_gerberActiveLayersCount then exportText c (s.m_layersLookUpTable j)
      else s.m_layersList j := by
  unfold getSetupTexts
  have h := forLoop_invariant
    (fun n (t : LAYERS_MAP_DIALOG) =>
      t.m_layersLookUpTable = s.m_layersLookUpTable ∧
      ∀ j, t.m_layersList j =
        if j < n then exportText c (s.m_layersLookUpTable j) else s.m_layersList j)
    (fun ii (s : LAYERS_MAP_DIALOG) =>
      { s with
        m_layersList :=
          setAt s.m_layersList ii (exportText c (s.m_layersLookUpTable ii)) })
    s ⟨rfl, fun j => by simp⟩ ?_ s.m_gerberActiveLayersCount
  · exact h.2 j
  · intro i t ⟨h1, h3⟩
    refine ⟨h1, fun j => ?_⟩
    show setAt t.m_layersList i _ j = _
    rw [setAt_apply, h3 j, h1]
    by_cases hji : j = i
    · subst hji; simp
    · have : (j < i + 1) ↔ (j < i) := by omega
      simp [hji, this]

/-- After `OnGetSetup` every active row shows the export status of its lookup table
entry: fuchsia with the layer name, or blue with "Do not export". -/
theorem OnGetSetup_texts (c : LayerIds) (config : GERBVIEW_SETTINGS)
    (s s' : LAYERS_MAP_DIALOG) (h : OnGetSetup c config s = some s') (j : Nat)
    (hj : j < s.m_gerberActiveLayersCount) :
    s'.m_layersList j = exportText c (s'.m_layersLookUpTable j) := by
  unfold OnGetSetup at h
  split_ifs at h with hlen
  simp only [Option.some.injEq] at h
  subst h
  obtain ⟨_, _, t3, t4⟩ := getSetupTexts_spec c (getSetupTable c config
    { s with
      m_exportBoardCopperLayersCount := normalizeBrdLayersCount c config.m_BoardLayersCount
      comboSelection := Int.tdiv (normalizeBrdLayersCount c config.m_BoardLayersCount) 2 - 1 })
  obtain ⟨_, _, u3, _⟩ := getSetupTable_spec c config
    { s with
      m_exportBoardCopperLayersCount := normalizeBrdLayersCount c config.m_BoardLayersCount
      comboSelection := Int.tdiv (normalizeBrdLayersCount c config.m_BoardLayersCount) 2 - 1 }
  rw [getSetupTexts_texts, if_pos (by rw [u3]; exact hj), t4]
theorem exportText_unselected (c : LayerIds) :
    exportText c c.UNSELECTED_LAYER = StaticText.mk LabelText.doNotExport Colour.blue := by
  simp [exportText]

theorem exportText_mapped (c : LayerIds) (layer : Int) (h : layer ≠ c.UNSELECTED_LAYER) :
    exportText c layer = StaticText.mk (LabelText.layerName layer) fuchsia := by
  simp [exportText, h, fuchsia]

/-- A call of `OnSelectLayer` that returns either changes nothing or is for a row whose
button table entry is an index of the lookup table. -/
theorem OnSelectLayer_cases (c : LayerIds) (SelectPCBLayer : Int → Int → Int) (ii : Int)
    (s s' : LAYERS_MAP_DIALOG) (h : OnSelectLayer c SelectPCBLayer ii s = some s') :
    s' = s ∨ ∃ n : Nat, (n : Int) = ii ∧ n < c.GERBER_DRAWLAYERS_COUNT ∧
      0 ≤ s.m_buttonTable n ∧ s.m_buttonTable n < (c.GERBER_DRAWLAYERS_COUNT : Int) := by
  unfold OnSelectLayer at h
  by_cases hr : ii < 0 ∨ ii ≥ (c.GERBER_DRAWLAYERS_COUNT : Int)
  · rw [if_pos hr] at h
    exact Or.inl (Option.some.inj h).symm
  · rw [if_neg hr] at h
    by_cases hb : s.m_buttonTable ii.toNat < 0 ∨
        s.m_buttonTable ii.toNat ≥ (c.GERBER_DRAWLAYERS_COUNT : Int)
    · simp only [hb, if_true] at h
      exact Option.noConfusion h
    · refine Or.inr ⟨ii.toNat, ?_, ?_, ?_, ?_⟩ <;> omega

/-- The export status each active row shows: blue "Do not export" for an entry
`UNSELECTED_LAYER`, else the name of the layer in fuchsia or in the default colour. -/
theorem Reachable_texts (c : LayerIds) (GetGbrImage : Nat → Bool) (s : LAYERS_MAP_DIALOG)
    (hU : c.UNSELECTED_LAYER < 0) (hF : 0 ≤ c.F_Cu) (h : Reachable c GetGbrImage s) :
    ∀ ii, ii < s.m_gerberActiveLayersCount →
      (s.m_layersLookUpTable ii = c.UNSELECTED_LAYER →
        s.m_layersList ii = StaticText.mk LabelText.doNotExport Colour.blue) ∧
      (s.m_layersLookUpTable ii ≠ c.UNSELECTED_LAYER →
        (s.m_layersList ii).label = LabelText.layerName (s.m_layersLookUpTable ii) ∧
        ((s.m_layersList ii).foreground = fuchsia ∨
          (s.m_layersList ii).foreground = Colour.null)) := by
  induction h with
  | init s0 =>
    intro ii hii
    obtain ⟨i1, i2, _⟩ := Reachable_invariant c GetGbrImage _ (Reachable.init s0)
    obtain ⟨_, d2, d3, _⟩ := initDialog_spec c GetGbrImage s0
    have hle := leadingImages_le GetGbrImage c.GERBER_DRAWLAYERS_COUNT 0
    have hG : ii < c.GERBER_DRAWLAYERS_COUNT := by omega
    have htext := initDialog_texts c GetGbrImage s0 ii hii
    rw [i2 ii hG, if_pos hii, Int.toNat_ofNat] at htext
    have hne : (initDialog c GetGbrImage s0).m_layersLookUpTable ii ≠ c.UNSELECTED_LAYER := by
      rw [d3 ii hG, if_pos (by omega)]
      have := (runningLayer_nonneg c
        (normalizeBrdLayersCount c s0.m_exportBoardCopperLayersCount) hF ii).2
      omega
    refine ⟨fun h => absurd h hne, fun _ => ?_⟩
    rw [htext]
    exact ⟨rfl, Or.inr rfl⟩
  | getSetup config s s' _ hget _ =>
    intro ii hii
    obtain ⟨_, _, g3, _⟩ := OnGetSetup_spec c config s s' hget
    have htext := OnGetSetup_texts c config s s' hget ii (by omega)
    refine ⟨fun h => ?_, fun h => ?_⟩
    · rw [htext, h, exportText_unselected]
    · rw [htext, exportText_mapped c _ h]
      exact ⟨rfl, Or.inl rfl⟩
  | selectLayer sel ii0 s s' hs hsel ih =>
    intro ii hii
    obtain ⟨_, f2, f3⟩ := OnSelectLayer_frame c sel ii0 s s' hsel
    rcases OnSelectLayer_cases c sel ii0 s s' hsel with heq | ⟨n, hn, hnG, hb0, hb1⟩
    · rw [heq] at hii ⊢
      exact ih ii hii
    · obtain ⟨_, i2, _⟩ := Reachable_invariant c GetGbrImage s hs
      have hbn : s.m_buttonTable n = (n : Int) := by
        have := i2 n hnG
        by_cases hlt : n < s.m_gerberActiveLayersCount
        · rw [this, if_pos hlt]
        · rw [this, if_neg hlt] at hb0; omega
      obtain ⟨s'', e1, _, _, _, e5, e6, e7⟩ := OnSelectLayer_spec c sel n s hnG hb0 hb1
      rw [hn, hsel] at e1
      have hs' : s'' = s' := (Option.some.inj e1).symm
      subst hs'
      rw [hbn, Int.toNat_ofNat] at e5
      rw [f3] at hii
      by_cases hok : chosenLayer c sel n s = c.UNSELECTED_LAYER ∨
          c.IsValidLayer (chosenLayer c sel n s) = true
      · obtain ⟨k1, k2, k3, k4⟩ := e5 hok
        by_cases hrow : ii = n
        · subst hrow
          by_cases hch : chosenLayer c sel ii s ≠ s.m_layersLookUpTable ii
          · rw [k3 hch, k1]
            refine ⟨fun h => ?_, fun h => ?_⟩
            · rw [h, exportText_unselected]
            · rw [exportText_mapped c _ h]
              exact ⟨rfl, Or.inl rfl⟩
          · have hsame : chosenLayer c sel ii s = s.m_layersLookUpTable ii := by
              by_contra hne; exact hch hne
            rw [k4 hsame, k1, hsame]
            exact ih ii hii
        · rw [e7 ii hrow, k2 ii hrow]
          exact ih ii hii
      · rw [e6 hok]
        exact ih ii hii
  | reset s hs _ =>
    intro ii hii
    obtain ⟨_, r2, r3, _⟩ := OnResetClick_spec c s
    rw [r2] at hii
    have htext := OnResetClick_texts c s ii
    rw [if_pos hii] at htext
    have htab := r3 ii
    rw [if_pos hii] at htab
    have hne : (OnResetClick c s).m_layersLookUpTable ii ≠ c.UNSELECTED_LAYER := by
      rw [htab]
      have := (runningLayer_nonneg c s.m_exportBoardCopperLayersCount hF ii).2
      omega
    refine ⟨fun h => absurd h hne, fun _ => ?_⟩
    rw [htext, htab]
    exact ⟨rfl, Or.inr rfl⟩
  | countSelection id s _ _ _ ih =>
    intro ii hii
    exact ih ii hii

/-- C12 (as amended): in every dialog state reachable from `initDialog` by
`OnSelectLayer`, `OnResetClick` and `OnGetSetup`, for every row below
`m_gerberActiveLayersCount` the text is blue showing "Do not export" when the lookup table
entry of the row is `UNSELECTED_LAYER`, and shows the name of the PCB layer when the row
is mapped, in fuchsia (255,0,128) or in the default colour.  Right after `OnGetSetup`
every active row is fuchsia with the layer name or blue with "Do not export", and so is
the row `OnSelectLayer` gave a new layer; after `OnResetClick` every active row shows its
layer name in the default colour `wxNullColour`.  (`UNSELECTED_LAYER` is negative and
`F_Cu` is not.) -/
theorem texts_reflect_export_status (c : LayerIds) (GetGbrImage : Nat → Bool)
    (s : LAYERS_MAP_DIALOG) (hU : c.UNSELECTED_LAYER < 0) (hF : 0 ≤ c.F_Cu)
    (hreach : Reachable c GetGbrImage s) :
    (∀ ii, ii < s.m_gerberActiveLayersCount →
      (s.m_layersLookUpTable (s.m_buttonTable ii).toNat = c.UNSELECTED_LAYER →
        s.m_layersList ii = StaticText.mk LabelText.doNotExport Colour.blue) ∧
      (s.m_layersLookUpTable (s.m_buttonTable ii).toNat ≠ c.UNSELECTED_LAYER →
        (s.m_layersList ii).label =
          LabelText.layerName (s.m_layersLookUpTable (s.m_buttonTable ii).toNat) ∧
        ((s.m_layersList ii).foreground = fuchsia ∨
          (s.m_layersList ii).foreground = Colour.null))) ∧
    (∀ config s', OnGetSetup c config s = some s' →
      ∀ ii, ii < s'.m_gerberActiveLayersCount →
        s'.m_layersList ii =
          exportText c (s'.m_layersLookUpTable (s'.m_buttonTable ii).toNat)) ∧
    (∀ SelectPCBLayer ii s', ii < s.m_gerberActiveLayersCount →
      OnSelectLayer c SelectPCBLayer (ii : Int) s = some s' →
      s'.m_layersLookUpTable (s'.m_buttonTable ii).toNat ≠
        s.m_layersLookUpTable (s.m_buttonTable ii).toNat →
      s'.m_layersList ii =
        exportText c (s'.m_layersLookUpTable (s'.m_buttonTable ii).toNat)) ∧
    (∀ ii, ii < s.m_gerberActiveLayersCount →
      (OnResetClick c s).m_layersList ii =
        StaticText.mk
          (LabelText.layerName ((OnResetClick c s).m_layersLookUpTable
            ((OnResetClick c s).m_buttonTable ii).toNat))
          Colour.null) := by
  obtain ⟨i1, i2, _⟩ := Reachable_invariant c GetGbrImage s hreach
  have hle := leadingImages_le GetGbrImage c.GERBER_DRAWLAYERS_COUNT 0
  have hbut : ∀ ii, ii < s.m_gerberActiveLayersCount → (s.m_buttonTable ii).toNat = ii := by
    intro ii hii
    rw [i2 ii (by omega), if_pos hii, Int.toNat_ofNat]
  refine ⟨fun ii hii => ?_, fun config s' hget ii hii => ?_,
    fun sel ii s' hii hsel hne => ?_, fun ii hii => ?_⟩
  · rw [hbut ii hii]
    exact Reachable_texts c GetGbrImage s hU hF hreach ii hii
  · obtain ⟨_, g2, g3, _⟩ := OnGetSetup_spec c config s s' hget
    rw [g3] at hii
    rw [g2, hbut ii hii]
    exact OnGetSetup_texts c config s s' hget ii hii
  · obtain ⟨_, f2, _⟩ := OnSelectLayer_frame c sel (ii : Int) s s' hsel
    obtain ⟨s'', e1, _, _, _, e5, e6, _⟩ := OnSelectLayer_spec c sel ii s (by omega)
      (by rw [i2 ii (by omega), if_pos hii]; omega)
      (by rw [i2 ii (by omega), if_pos hii]; omega)
    rw [hsel] at e1
    have hs' : s'' = s' := (Option.some.inj e1).symm
    subst hs'
    rw [f2] at hne ⊢
    by_cases hok : chosenLayer c sel ii s = c.UNSELECTED_LAYER ∨
        c.IsValidLayer (chosenLayer c sel ii s) = true
    · obtain ⟨k1, _, k3, _⟩ := e5 hok
      rw [k1] at hne ⊢
      exact k3 hne
    · rw [e6 hok] at hne
      exact absurd rfl hne
  · obtain ⟨_, _, r3, r4⟩ := OnResetClick_spec c s
    rw [OnResetClick_texts, if_pos hii, r4 ii, if_pos hii, Int.toNat_ofNat, r3 ii, if_pos hii]

/-- C12 (counterexample): after `OnResetClick` in the dialog for one loaded gerber file,
row 0 is mapped to the PCB layer 0, not to `UNSELECTED_LAYER`, and its text has the
default colour, not fuchsia. -/
theorem OnResetClick_text_not_fuchsia :
    Reachable kicadLayerIds (firstSlots 1) oneFileAfterReset ∧
    0 < oneFileAfterReset.m_gerberActiveLayersCount ∧
    oneFileAfterReset.m_layersLookUpTable (oneFileAfterReset.m_buttonTable 0).toNat ≠
      kicadLayerIds.UNSELECTED_LAYER ∧
    (oneFileAfterReset.m_layersList 0).foreground = Colour.null ∧
    (oneFileAfterReset.m_layersList 0).foreground ≠ Colour.rgb 255 0 128 :=
  ⟨Reachable.reset _ (Reachable.init blankDialog), by decide, by decide, by decide, by decide⟩

theorem texts_reflect_export_status_witness :
    (kicadLayerIds.UNSELECTED_LAYER < 0 ∧ 0 ≤ kicadLayerIds.F_Cu ∧
      Reachable kicadLayerIds (firstSlots 1) oneFileAfterReset ∧
      0 < oneFileAfterReset.m_gerberActiveLayersCount ∧
      oneFileAfterReset.m_layersLookUpTable (oneFileAfterReset.m_buttonTable 0).toNat ≠
        kicadLayerIds.UNSELECTED_LAYER) ∧
    (oneFileAfterReset.m_layersList 0).label =
      LabelText.layerName
        (oneFileAfterReset.m_layersLookUpTable (oneFileAfterReset.m_buttonTable 0).toNat) :=
  ⟨⟨by decide, by decide, Reachable.reset _ (Reachable.init blankDialog), by decide, by decide⟩,
   (((texts_reflect_export_status kicadLayerIds (firstSlots 1) oneFileAfterReset (by decide)
      (by decide) (Reachable.reset _ (Reachable.init blankDialog))).1 0 (by decide)).2
      (by decide)).1⟩

/-! ### `OnBrdLayersCountSelection` -/

/-- C13: for every combo selection index `id >= 0` (small enough for `(id+1) * 2` to be an
`int`), `OnBrdLayersCountSelection` sets the copper layer count to `2*(id+1)`; the value
is even and at least 2, `normalizeBrdLayersCount` leaves it unchanged whenever it is at
most `GERBER_DRAWLAYERS_COUNT`, and the combo index `count / 2 - 1` recomputed from it is
`id`. -/
theorem OnBrdLayersCountSelection_count (c : LayerIds) (id : Int) (s : LAYERS_MAP_DIALOG)
    (h0 : 0 ≤ id) (hmax : (id + 1) * 2 ≤ 2147483647) :
    (OnBrdLayersCountSelection id s).m_exportBoardCopperLayersCount = 2 * (id + 1) ∧
    (OnBrdLayersCountSelection id s).m_exportBoardCopperLayersCount % 2 = 0 ∧
    2 ≤ (OnBrdLayersCountSelection id s).m_exportBoardCopperLayersCount ∧
    (2 * (id + 1) ≤ (c.GERBER_DRAWLAYERS_COUNT : Int) →
      normalizeBrdLayersCount c (OnBrdLayersCountSelection id s).m_exportBoardCopperLayersCount =
        (OnBrdLayersCountSelection id s).m_exportBoardCopperLayersCount) ∧
    Int.tdiv (OnBrdLayersCountSelection id s).m_exportBoardCopperLayersCount 2 - 1 = id := by
  have hc : (OnBrdLayersCountSelection id s).m_exportBoardCopperLayersCount = (id + 1) * 2 :=
    rfl
  rw [hc]
  refine ⟨by omega, by omega, by omega, fun hG => ?_, ?_⟩
  · rw [normalizeBrdLayersCount_eq]
    simp only []
    split_ifs <;> omega
  · rw [Int.tdiv_eq_ediv (by omega) (by omega)]
    omega

theorem OnBrdLayersCountSelection_count_witness :
    ((0 : Int) ≤ 3 ∧ ((3 : Int) + 1) * 2 ≤ 2147483647 ∧
      2 * ((3 : Int) + 1) ≤ (kicadLayerIds.GERBER_DRAWLAYERS_COUNT : Int)) ∧
    (OnBrdLayersCountSelection 3 blankDialog).m_exportBoardCopperLayersCount = 2 * (3 + 1) ∧
    normalizeBrdLayersCount kicadLayerIds
        (OnBrdLayersCountSelection 3 blankDialog).m_exportBoardCopperLayersCount =
      (OnBrdLayersCountSelection 3 blankDialog).m_exportBoardCopperLayersCount ∧
    Int.tdiv (OnBrdLayersCountSelection 3 blankDialog).m_exportBoardCopperLayersCount 2 - 1 = 3 :=
  ⟨by decide,
   (OnBrdLayersCountSelection_count kicadLayerIds 3 blankDialog (by decide) (by decide)).1,
   (OnBrdLayersCountSelection_count kicadLayerIds 3 blankDialog (by decide) (by decide)).2.2.2.1
     (by decide),
   (OnBrdLayersCountSelection_count kicadLayerIds 3 blankDialog (by decide)
     (by decide)).2.2.2.2⟩

end Gerbview

namespace Viewer3D

/-! ### `SaveSettings` and `LoadSettings` -/

theorem loadedFlags_length : loadedFlags.length = 23 := rfl

theorem flagToggles_length : flagToggles.length = 22 := rfl

/-- C4: the render settings survive `SaveSettings` followed by `LoadSettings` of the saved
settings object, into any frame `w` (the saving frame itself included): each of the 23
flags `LoadSettings` sets, the grid type, the render engine and the material mode get the
value they had when saved, and the other flags of `w` are untouched.  Conversely
`SaveSettings` after `LoadSettings` writes back every field of `m_Render`, so the fields
written are the fields read, paired with the same flags. -/
theorem SaveSettings_LoadSettings_render (v w : EDA_3D_VIEWER) :
    (∀ f, f ∈ loadedFlags →
      (LoadSettings (SaveSettings v).cfg w).m_settings.GetFlag f = v.m_settings.GetFlag f) ∧
    (∀ f, f ∉ loadedFlags →
      (LoadSettings (SaveSettings v).cfg w).m_settings.GetFlag f = w.m_settings.GetFlag f) ∧
    (LoadSettings (SaveSettings v).cfg w).m_settings.GridGet = v.m_settings.GridGet ∧
    (LoadSettings (SaveSettings v).cfg w).m_settings.RenderEngineGet =
      v.m_settings.RenderEngineGet ∧
    (LoadSettings (SaveSettings v).cfg w).m_settings.MaterialModeGet =
      v.m_settings.MaterialModeGet ∧
    (SaveSettings (LoadSettings v.cfg v)).cfg.m_Render = v.cfg.m_Render := by
  refine ⟨fun f hf => ?_, fun f hf => ?_, rfl, rfl, rfl, rfl⟩
  · cases f <;> first | rfl | (simp [loadedFlags] at hf)
  · cases f <;> first | rfl | (exfalso; apply hf; simp [loadedFlags])

theorem SaveSettings_LoadSettings_render_witness :
    DISPLAY3D_FLG.FL_SUBTRACT_MASK_FROM_SILK ∈ loadedFlags ∧
    (LoadSettings (SaveSettings twoMaskViewer).cfg (SaveSettings twoMaskViewer)).m_settings.GetFlag
        DISPLAY3D_FLG.FL_SUBTRACT_MASK_FROM_SILK =
      twoMaskViewer.m_settings.GetFlag DISPLAY3D_FLG.FL_SUBTRACT_MASK_FROM_SILK :=
  ⟨by decide,
   (SaveSettings_LoadSettings_render twoMaskViewer (SaveSettings twoMaskViewer)).1
     DISPLAY3D_FLG.FL_SUBTRACT_MASK_FROM_SILK (by decide)⟩

/-- C5 (as amended): `SaveSettings` followed by `LoadSettings`, into any frame that reads
the colour settings just written, restores the r, g, b components of eight colours
(`m_BgColorBot`, `m_BgColorTop`, `m_BoardBodyColor`, `m_CopperColor`,
`m_SilkScreenColorBot`, `m_SilkScreenColorTop`, `m_SolderMaskColorTop`,
`m_SolderPasteColor`); `m_SolderMaskColorBot` gets the components `m_SolderMaskColorTop`
had, so it is restored when the two solder mask colours were equal. -/
theorem SaveSettings_LoadSettings_colours (v w : EDA_3D_VIEWER)
    (cfg : EDA_3D_VIEWER_SETTINGS) (hw : w.colors = (SaveSettings v).colors) :
    (LoadSettings cfg w).m_settings.m_BgColorBot = v.m_settings.m_BgColorBot ∧
    (LoadSettings cfg w).m_settings.m_BgColorTop = v.m_settings.m_BgColorTop ∧
    (LoadSettings cfg w).m_settings.m_BoardBodyColor = v.m_settings.m_BoardBodyColor ∧
    (LoadSettings cfg w).m_settings.m_CopperColor = v.m_settings.m_CopperColor ∧
    (LoadSettings cfg w).m_settings.m_SilkScreenColorBot = v.m_settings.m_SilkScreenColorBot ∧
    (LoadSettings cfg w).m_settings.m_SilkScreenColorTop = v.m_settings.m_SilkScreenColorTop ∧
    (LoadSettings cfg w).m_settings.m_SolderMaskColorTop = v.m_settings.m_SolderMaskColorTop ∧
    (LoadSettings cfg w).m_settings.m_SolderPasteColor = v.m_settings.m_SolderPasteColor ∧
    (LoadSettings cfg w).m_settings.m_SolderMaskColorBot = v.m_settings.m_SolderMaskColorTop ∧
    (v.m_settings.m_SolderMaskColorBot = v.m_settings.m_SolderMaskColorTop →
      (LoadSettings cfg w).m_settings.m_SolderMaskColorBot =
        v.m_settings.m_SolderMaskColorBot) := by
  have hbot : (LoadSettings cfg w).m_settings.m_SolderMaskColorBot =
      v.m_settings.m_SolderMaskColorTop := by
    show set_color (w.colors.GetColor LAYER_3D_ID.LAYER_3D_SOLDERMASK) = _
    rw [hw]
    rfl
  refine ⟨?_, ?_, ?_, ?_, ?_, ?_, ?_, ?_, hbot, fun h => by rw [hbot, h]⟩
  · show set_color (w.colors.GetColor LAYER_3D_ID.LAYER_3D_BACKGROUND_BOTTOM) = _
    rw [hw]; rfl
  · show set_color (w.colors.GetColor LAYER_3D_ID.LAYER_3D_BACKGROUND_TOP) = _
    rw [hw]; rfl
  · show set_color (w.colors.GetColor LAYER_3D_ID.LAYER_3D_BOARD) = _
    rw [hw]; rfl
  · show set_color (w.colors.GetColor LAYER_3D_ID.LAYER_3D_COPPER) = _
    rw [hw]; rfl
  · show set_color (w.colors.GetColor LAYER_3D_ID.LAYER_3D_SILKSCREEN_BOTTOM) = _
    rw [hw]; rfl
  · show set_color (w.colors.GetColor LAYER_3D_ID.LAYER_3D_SILKSCREEN_TOP) = _
    rw [hw]; rfl
  · show set_color (w.colors.GetColor LAYER_3D_ID.LAYER_3D_SOLDERMASK) = _
    rw [hw]; rfl
  · show set_color (w.colors.GetColor LAYER_3D_ID.LAYER_3D_SOLDERPASTE) = _
    rw [hw]; rfl

/-- C5 (counterexample): the frame has a black bottom and a white top solder mask colour;
after `SaveSettings` and `LoadSettings` the red component of `m_SolderMaskColorBot` is 1,
not the 0 it was. -/
theorem SaveSettings_LoadSettings_loses_SolderMaskColorBot :
    twoMaskViewer.m_settings.m_SolderMaskColorBot.r = 0 ∧
    (LoadSettings (SaveSettings twoMaskViewer).cfg
      (SaveSettings twoMaskViewer)).m_settings.m_SolderMaskColorBot.r = 1 ∧
    (LoadSettings (SaveSettings twoMaskViewer).cfg
      (SaveSettings twoMaskViewer)).m_settings.m_SolderMaskColorBot.r ≠
        twoMaskViewer.m_settings.m_SolderMaskColorBot.r := by
  have h0 : twoMaskViewer.m_settings.m_SolderMaskColorBot.r = 0 := rfl
  have h1 : (LoadSettings (SaveSettings twoMaskViewer).cfg
      (SaveSettings twoMaskViewer)).m_settings.m_SolderMaskColorBot.r = 1 := rfl
  refine ⟨h0, h1, ?_⟩
  rw [h0, h1]
  norm_num

theorem SaveSettings_LoadSettings_colours_witness :
    (SaveSettings twoMaskViewer).colors = (SaveSettings twoMaskViewer).colors ∧
    (LoadSettings twoMaskViewer.cfg (SaveSettings twoMaskViewer)).m_settings.m_SolderMaskColorTop =
      twoMaskViewer.m_settings.m_SolderMaskColorTop ∧
    (LoadSettings twoMaskViewer.cfg (SaveSettings twoMaskViewer)).m_settings.m_SolderMaskColorBot =
      twoMaskViewer.m_settings.m_SolderMaskColorTop :=
  ⟨rfl,
   (SaveSettings_LoadSettings_colours twoMaskViewer (SaveSettings twoMaskViewer)
      twoMaskViewer.cfg rfl).2.2.2.2.2.2.1,
   (SaveSettings_LoadSettings_colours twoMaskViewer (SaveSettings twoMaskViewer)
      twoMaskViewer.cfg rfl).2.2.2.2.2.2.2.2.1⟩

/-! ### `Process_Special_Functions` -/

theorem GetFlag_SetFlag (s : EDA_3D_SETTINGS) (aFlag f : DISPLAY3D_FLG) (aState : Bool) :
    (s.SetFlag aFlag aState).GetFlag f = if f = aFlag then aState else s.GetFlag f := rfl

/-- Each flag-toggle case of the `switch` is an assignment of the flag followed by a
request to the canvas. -/
theorem switchOnId_toggle (env : Environment) (isChecked : Bool) (v : EDA_3D_VIEWER)
    (p : MenuId × DISPLAY3D_FLG) (hp : p ∈ flagToggles) :
    (switchOnId env p.1 isChecked v).m_settings = v.m_settings.SetFlag p.2 isChecked := by
  fin_cases hp <;> rfl

/-- C9: for an event whose id is one of the 22 flag-toggle commands, handled with a canvas,
the flag named after the id equals `event.IsChecked()` after
`Process_Special_Functions`, and every other flag, the grid type, the render engine and
the material mode are unchanged. -/
theorem Process_Special_Functions_toggles_flag (env : Environment) (id : MenuId)
    (flag : DISPLAY3D_FLG) (isChecked : Bool) (v : EDA_3D_VIEWER)
    (hid : (id, flag) ∈ flagToggles) (hcanvas : v.m_canvas = true) :
    (Process_Special_Functions env id isChecked v).m_settings.GetFlag flag = isChecked ∧
    (∀ f, f ≠ flag →
      (Process_Special_Functions env id isChecked v).m_settings.GetFlag f =
        v.m_settings.GetFlag f) ∧
    (Process_Special_Functions env id isChecked v).m_settings.GridGet =
      v.m_settings.GridGet ∧
    (Process_Special_Functions env id isChecked v).m_settings.RenderEngineGet =
      v.m_settings.RenderEngineGet ∧
    (Process_Special_Functions env id isChecked v).m_settings.MaterialModeGet =
      v.m_settings.MaterialModeGet := by
  have hp : Process_Special_Functions env id isChecked v = switchOnId env id isChecked v := by
    unfold Process_Special_Functions
    rw [if_neg (by simp [hcanvas])]
  have hs : (switchOnId env id isChecked v).m_settings = v.m_settings.SetFlag flag isChecked :=
    switchOnId_toggle env isChecked v (id, flag) hid
  rw [hp, hs]
  refine ⟨?_, fun f hf => ?_, rfl, rfl, rfl⟩
  · rw [GetFlag_SetFlag, if_pos rfl]
  · rw [GetFlag_SetFlag, if_neg hf]

theorem Process_Special_Functions_toggles_flag_witness :
    ((MenuId.ID_MENU3D_AXIS_ONOFF, DISPLAY3D_FLG.FL_AXIS) ∈ flagToggles ∧
      twoMaskViewer.m_canvas = true) ∧
    (Process_Special_Functions (Environment.mk (fun _ => none) none twoMaskViewer.cfg)
      MenuId.ID_MENU3D_AXIS_ONOFF true twoMaskViewer).m_settings.GetFlag
        DISPLAY3D_FLG.FL_AXIS = true :=
  ⟨⟨by decide, rfl⟩,
   (Process_Special_Functions_toggles_flag
      (Environment.mk (fun _ => none) none twoMaskViewer.cfg)
      MenuId.ID_MENU3D_AXIS_ONOFF DISPLAY3D_FLG.FL_AXIS true twoMaskViewer
      (by decide) rfl).1⟩

/-! ### The rotate commands -/

theorem switchOnId_rotate (env : Environment) (isChecked : Bool) (v : EDA_3D_VIEWER)
    (p : MenuId × Call) (hp : p ∈ rotateCommands) :
    switchOnId env p.1 isChecked v = requestRedraw (record p.2 v) := by
  fin_cases hp <;> rfl

theorem Process_Special_Functions_with_canvas (env : Environment) (id : MenuId)
    (isChecked : Bool) (v : EDA_3D_VIEWER) (hcanvas : v.m_canvas = true) :
    Process_Special_Functions env id isChecked v = switchOnId env id isChecked v := by
  unfold Process_Special_Functions
  rw [if_neg (by simp [hcanvas])]

/-- C14: for each of the six rotate commands, handled with a canvas,
`Process_Special_Functions` makes exactly one camera rotation, about the axis named by the
id, by `+radians(10)` for `POS` and `-radians(10)` for `NEG`, followed by exactly one
redraw request, `Request_refresh` when the render engine is `OPENGL_LEGACY` and
`RenderRaytracingRequest` otherwise; the settings (flags, grid, engine, material mode)
are unchanged. -/
theorem Process_Special_Functions_rotates (env : Environment) (id : MenuId) (rotation : Call)
    (isChecked : Bool) (v : EDA_3D_VIEWER) (hid : (id, rotation) ∈ rotateCommands)
    (hcanvas : v.m_canvas = true) :
    (Process_Special_Functions env id isChecked v).calls =
      v.calls ++ [rotation,
        if v.m_settings.RenderEngineGet = RENDER_ENGINE.OPENGL_LEGACY then Call.Request_refresh
        else Call.RenderRaytracingRequest] ∧
    (Process_Special_Functions env id isChecked v).m_settings = v.m_settings := by
  rw [Process_Special_Functions_with_canvas env id isChecked v hcanvas,
    switchOnId_rotate env isChecked v (id, rotation) hid]
  unfold requestRedraw
  by_cases he : v.m_settings.RenderEngineGet = RENDER_ENGINE.OPENGL_LEGACY
  · have he' : (record rotation v).m_settings.RenderEngineGet = RENDER_ENGINE.OPENGL_LEGACY := he
    rw [if_pos he', if_pos he]
    exact ⟨by simp [record], rfl⟩
  · have he' : ¬ (record rotation v).m_settings.RenderEngineGet = RENDER_ENGINE.OPENGL_LEGACY :=
      he
    rw [if_neg he', if_neg he]
    exact ⟨by simp [record], rfl⟩

theorem Process_Special_Functions_rotates_witness :
    ((MenuId.ID_ROTATE3D_Y_NEG, Call.RotateY (-10)) ∈ rotateCommands ∧
      twoMaskViewer.m_canvas = true) ∧
    (Process_Special_Functions cancelEnvironment MenuId.ID_ROTATE3D_Y_NEG false
      twoMaskViewer).calls = [Call.RotateY (-10), Call.Request_refresh] :=
  ⟨⟨by decide, rfl⟩,
   (Process_Special_Functions_rotates cancelEnvironment MenuId.ID_ROTATE3D_Y_NEG
      (Call.RotateY (-10)) false twoMaskViewer (by decide) rfl).1⟩
/-! ### The background colour commands -/

theorem Set3DColorFromUser_spec (env : Environment) (aColor : SFVEC3D) :
    ((Set3DColorFromUser env aColor).1 = true ↔
      ∃ newcolor, env.pickColor (COLOR4D.mk aColor.r aColor.g aColor.b 1) = some newcolor ∧
        newcolor ≠ COLOR4D.mk aColor.r aColor.g aColor.b 1) ∧
    (∀ newcolor, env.pickColor (COLOR4D.mk aColor.r aColor.g aColor.b 1) = some newcolor →
      (Set3DColorFromUser env aColor).1 = true →
      (Set3DColorFromUser env aColor).2 = SFVEC3D.mk newcolor.r newcolor.g newcolor.b) ∧
    ((Set3DColorFromUser env aColor).1 = false → (Set3DColorFromUser env aColor).2 = aColor) := by
  unfold Set3DColorFromUser
  cases hpick : env.pickColor (COLOR4D.mk aColor.r aColor.g aColor.b 1) with
  | none => simp [hpick]
  | some newcolor =>
    by_cases heq : newcolor = COLOR4D.mk aColor.r aColor.g aColor.b 1
    · simp [hpick, heq]
    · simp [hpick, heq]

theorem redrawBackground_spec (w : EDA_3D_VIEWER) :
    (redrawBackground w).m_settings = w.m_settings ∧
    (redrawBackground w).calls =
      w.calls ++ [if w.m_settings.RenderEngineGet = RENDER_ENGINE.OPENGL_LEGACY then
        Call.Request_refresh else Call.NewDisplay true] := by
  unfold redrawBackground
  by_cases he : w.m_settings.RenderEngineGet = RENDER_ENGINE.OPENGL_LEGACY
  · rw [if_pos he, if_pos he]
    exact ⟨rfl, rfl⟩
  · rw [if_neg he, if_neg he]
    exact ⟨rfl, rfl⟩

theorem switchOnId_background (env : Environment) (isChecked top : Bool) (v : EDA_3D_VIEWER) :
    ((Set3DColorFromUser env (backgroundColour top v.m_settings)).1 = true →
      backgroundColour top (switchOnId env (backgroundId top) isChecked v).m_settings =
        (Set3DColorFromUser env (backgroundColour top v.m_settings)).2 ∧
      (switchOnId env (backgroundId top) isChecked v).calls =
        v.calls ++ [if v.m_settings.RenderEngineGet = RENDER_ENGINE.OPENGL_LEGACY then
          Call.Request_refresh else Call.NewDisplay true]) ∧
    ((Set3DColorFromUser env (backgroundColour top v.m_settings)).1 = false →
      switchOnId env (backgroundId top) isChecked v = v) := by
  cases top
  · constructor
    · intro h
      have h1 : (Set3DColorFromUser env v.m_settings.m_BgColorBot).1 = true := h
      have hs : switchOnId env MenuId.ID_MENU3D_BGCOLOR_BOTTOM isChecked v =
          redrawBackground { v with m_settings := { v.m_settings with
            m_BgColorBot := (Set3DColorFromUser env v.m_settings.m_BgColorBot).2 } } := by
        show (if (Set3DColorFromUser env v.m_settings.m_BgColorBot).1 = true then _ else _) = _
        rw [if_pos h1]
      show backgroundColour false (switchOnId env MenuId.ID_MENU3D_BGCOLOR_BOTTOM isChecked
        v).m_settings = _ ∧ (switchOnId env MenuId.ID_MENU3D_BGCOLOR_BOTTOM isChecked v).calls = _
      rw [hs, (redrawBackground_spec _).1, (redrawBackground_spec _).2]
      exact ⟨rfl, rfl⟩
    · intro h
      have h1 : (Set3DColorFromUser env v.m_settings.m_BgColorBot).1 = false := h
      have h2 := (Set3DColorFromUser_spec env v.m_settings.m_BgColorBot).2.2 h1
      show (if (Set3DColorFromUser env v.m_settings.m_BgColorBot).1 = true then _ else _) = _
      rw [if_neg (by simp [h1]), h2]
  · constructor
    · intro h
      have h1 : (Set3DColorFromUser env v.m_settings.m_BgColorTop).1 = true := h
      have hs : switchOnId env MenuId.ID_MENU3D_BGCOLOR_TOP isChecked v =
          redrawBackground { v with m_settings := { v.m_settings with
            m_BgColorTop := (Set3DColorFromUser env v.m_settings.m_BgColorTop).2 } } := by
        show (if (Set3DColorFromUser env v.m_settings.m_BgColorTop).1 = true then _ else _) = _
        rw [if_pos h1]
      show backgroundColour true (switchOnId env MenuId.ID_MENU3D_BGCOLOR_TOP isChecked
        v).m_settings = _ ∧ (switchOnId env MenuId.ID_MENU3D_BGCOLOR_TOP isChecked v).calls = _
      rw [hs, (redrawBackground_spec _).1, (redrawBackground_spec _).2]
      exact ⟨rfl, rfl⟩
    · intro h
      have h1 : (Set3DColorFromUser env v.m_settings.m_BgColorTop).1 = false := h
      have h2 := (Set3DColorFromUser_spec env v.m_settings.m_BgColorTop).2.2 h1
      show (if (Set3DColorFromUser env v.m_settings.m_BgColorTop).1 = true then _ else _) = _
      rw [if_neg (by simp [h1]), h2]

/-- C15: for `ID_MENU3D_BGCOLOR_TOP` and `ID_MENU3D_BGCOLOR_BOTTOM` (`top` true or false),
handled with a canvas: `Set3DColorFromUser` returns true if and only if the colour picker
is confirmed with a colour that differs from the old colour taken with alpha 1.0; when it
returns true the r, g, b of the target colour are those of the picked colour and exactly
one redraw is requested, `Request_refresh` for `OPENGL_LEGACY` and `NewDisplay( true )`
otherwise; when it returns false the frame is unchanged: the target colour keeps its
value and no redraw is requested. -/
theorem Process_Special_Functions_background (env : Environment) (top isChecked : Bool)
    (v : EDA_3D_VIEWER) (hcanvas : v.m_canvas = true) :
    ((Set3DColorFromUser env (backgroundColour top v.m_settings)).1 = true ↔
      ∃ newcolor,
        env.pickColor (COLOR4D.mk (backgroundColour top v.m_settings).r
          (backgroundColour top v.m_settings).g (backgroundColour top v.m_settings).b 1) =
            some newcolor ∧
        newcolor ≠ COLOR4D.mk (backgroundColour top v.m_settings).r
          (backgroundColour top v.m_settings).g (backgroundColour top v.m_settings).b 1) ∧
    (∀ newcolor,
      env.pickColor (COLOR4D.mk (backgroundColour top v.m_settings).r
        (backgroundColour top v.m_settings).g (backgroundColour top v.m_settings).b 1) =
          some newcolor →
      (Set3DColorFromUser env (backgroundColour top v.m_settings)).1 = true →
      backgroundColour top
          (Process_Special_Functions env (backgroundId top) isChecked v).m_settings =
        SFVEC3D.mk newcolor.r newcolor.g newcolor.b ∧
      (Process_Special_Functions env (backgroundId top) isChecked v).calls =
        v.calls ++ [if v.m_settings.RenderEngineGet = RENDER_ENGINE.OPENGL_LEGACY then
          Call.Request_refresh else Call.NewDisplay true]) ∧
    ((Set3DColorFromUser env (backgroundColour top v.m_settings)).1 = false →
      Process_Special_Functions env (backgroundId top) isChecked v = v) := by
  obtain ⟨s1, s2, _⟩ := Set3DColorFromUser_spec env (backgroundColour top v.m_settings)
  obtain ⟨b1, b2⟩ := switchOnId_background env isChecked top v
  rw [Process_Special_Functions_with_canvas env _ isChecked v hcanvas]
  refine ⟨s1, fun newcolor hpick htrue => ?_, b2⟩
  rw [(b1 htrue).1, s2 newcolor hpick htrue]
  exact ⟨rfl, (b1 htrue).2⟩

theorem Process_Special_Functions_background_witness :
    (twoMaskViewer.m_canvas = true ∧
      whiteEnvironment.pickColor (COLOR4D.mk (backgroundColour true twoMaskViewer.m_settings).r
        (backgroundColour true twoMaskViewer.m_settings).g
        (backgroundColour true twoMaskViewer.m_settings).b 1) = some (COLOR4D.mk 1 1 1 1) ∧
      (Set3DColorFromUser whiteEnvironment
        (backgroundColour true twoMaskViewer.m_settings)).1 = true) ∧
    (Process_Special_Functions whiteEnvironment MenuId.ID_MENU3D_BGCOLOR_TOP false
      twoMaskViewer).m_settings.m_BgColorTop = white ∧
    (Process_Special_Functions whiteEnvironment MenuId.ID_MENU3D_BGCOLOR_TOP false
      twoMaskViewer).calls = [Call.Request_refresh] := by
  have hpick : whiteEnvironment.pickColor
      (COLOR4D.mk (backgroundColour true twoMaskViewer.m_settings).r
        (backgroundColour true twoMaskViewer.m_settings).g
        (backgroundColour true twoMaskViewer.m_settings).b 1) = some (COLOR4D.mk 1 1 1 1) := rfl
  have htrue : (Set3DColorFromUser whiteEnvironment
      (backgroundColour true twoMaskViewer.m_settings)).1 = true := by
    rw [(Set3DColorFromUser_spec whiteEnvironment _).1]
    refine ⟨COLOR4D.mk 1 1 1 1, hpick, ?_⟩
    intro h
    have hr := congrArg COLOR4D.r h
    have h0 : (backgroundColour true twoMaskViewer.m_settings).r = 0 := rfl
    simp only [h0] at hr
    norm_num at hr
  exact ⟨⟨rfl, hpick, htrue⟩,
    ((Process_Special_Functions_background whiteEnvironment true false twoMaskViewer rfl).2.1
      (COLOR4D.mk 1 1 1 1) hpick htrue).1,
    ((Process_Special_Functions_background whiteEnvironment true false twoMaskViewer rfl).2.1
      (COLOR4D.mk 1 1 1 1) hpick htrue).2⟩
/-! ### The grid and material check marks -/

theorem On3DGridSelection_settings (id : MenuId) (checked : MenuId → Bool)
    (v : EDA_3D_VIEWER) :
    (On3DGridSelection id checked v).1.m_settings = (switchOnGridId id v).m_settings := by
  unfold On3DGridSelection
  by_cases hc : (switchOnGridId id v).m_canvas = true
  · simp only [hc, if_true]
    rfl
  · simp only [hc, if_false]
    rfl

theorem On3DGridSelection_checked (id : MenuId) (checked : MenuId → Bool) (v : EDA_3D_VIEWER)
    (m : MenuId) (hm : m ∈ menu_ids) :
    (On3DGridSelection id checked v).2 m = decide (m = id) := by
  show refreshCheckmarks id checked m = decide (m = id)
  fin_cases hm <;>
    simp [refreshCheckmarks, forLoop, menu_ids, checkItem]

theorem switchOnGridId_other (id : MenuId) (v : EDA_3D_VIEWER) (hid : id ∉ menu_ids) :
    (switchOnGridId id v).m_settings = v.m_settings := by
  cases id <;> first | rfl | exact absurd (by simp [menu_ids]) hid

/-- C17: for each of the five grid menu ids `On3DGridSelection` leaves the grid type at the
corresponding `GRID3D_TYPE` value and, among the five grid menu items, exactly the item
with that id is checked; for any other id the grid type is unchanged and none of the five
items is checked. -/
theorem On3DGridSelection_checks_selected (id : MenuId) (checked : MenuId → Bool)
    (v : EDA_3D_VIEWER) :
    (∀ grid, (id, grid) ∈ gridSelections →
      (On3DGridSelection id checked v).1.m_settings.GridGet = grid ∧
      ∀ m ∈ menu_ids, ((On3DGridSelection id checked v).2 m = true ↔ m = id)) ∧
    (id ∉ menu_ids →
      (On3DGridSelection id checked v).1.m_settings.GridGet = v.m_settings.GridGet ∧
      ∀ m ∈ menu_ids, (On3DGridSelection id checked v).2 m = false) := by
  constructor
  · intro grid hg
    constructor
    · rw [On3DGridSelection_settings]
      generalize hp : (id, grid) = p at hg
      have h1 : id = p.1 := by rw [← hp]
      have h2 : grid = p.2 := by rw [← hp]
      rw [h1, h2]
      fin_cases hg <;> rfl
    · intro m hm
      rw [On3DGridSelection_checked id checked v m hm]
      simp
  · intro hid
    constructor
    · rw [On3DGridSelection_settings, switchOnGridId_other id v hid]
    · intro m hm
      rw [On3DGridSelection_checked id checked v m hm]
      simp only [decide_eq_false_iff_not]
      intro h
      exact hid (h ▸ hm)

end Viewer3D

namespace GlobalEdit

/-! ### `TransferDataFromWindow` -/

theorem setIndices_frames (a b i : Nat) (st : Run) : Frames i st (setIndices a b st) :=
  ⟨rfl, rfl, rfl, fun _ _ => rfl⟩

theorem setLayerOfItem_frames (d : DIALOG_GLOBAL_EDIT_TRACKS_AND_VIAS) (i : Nat) (st : Run) :
    Frames i st (setLayerOfItem d i st) := by
  unfold setLayerOfItem
  by_cases hmem : i ∈ st.itemsListPicker
  · simp only [if_pos hmem]
    cases h : st.brd.Tracks[i]? with
    | none => exact ⟨rfl, rfl, rfl, fun _ _ => rfl⟩
    | some t =>
      refine ⟨rfl, rfl, by simp, fun j hj => ?_⟩
      simp only []
      rw [List.getElem?_set_ne (Ne.symm hj)]
  · simp only [if_neg hmem]
    cases h : st.brd.Tracks[i]? with
    | none => exact ⟨rfl, rfl, rfl, fun _ _ => rfl⟩
    | some t =>
      refine ⟨rfl, rfl, by simp, fun j hj => ?_⟩
      simp only []
      rw [List.getElem?_set_ne (Ne.symm hj)]

theorem callSetTrackSegmentWidth_reports (f : SetTrackSegmentWidthFn) (i : Nat) (b : Bool)
    (st : Run) :
    Reports i (f st.brd st.itemsListPicker i b).1 st (callSetTrackSegmentWidth f i b st) := by
  refine ⟨rfl, rfl, ?_, fun j hj => ?_⟩
  · simp [callSetTrackSegmentWidth]
  · simp only [callSetTrackSegmentWidth]
    rw [List.getElem?_set_ne (Ne.symm hj)]

theorem Frames.then_reports {i : Nat} {res : TRACK_ACTION_RESULT} {a b c : Run}
    (h1 : Frames i a b) (h2 : Reports i res b c) : Reports i res a c :=
  ⟨by rw [h2.1, h1.1], by rw [h2.2.1, h1.2.1], by rw [h2.2.2.1, h1.2.2.1],
   fun j hj => by rw [h2.2.2.2 j hj, h1.2.2.2 j hj]⟩

theorem Reports.then_frames {i : Nat} {res : TRACK_ACTION_RESULT} {a b c : Run}
    (h1 : Reports i res a b) (h2 : Frames i b c) : Reports i res a c :=
  ⟨by rw [h2.1, h1.1], by rw [h2.2.1, h1.2.1], by rw [h2.2.2.1, h1.2.2.1],
   fun j hj => by rw [h2.2.2.2 j hj, h1.2.2.2 j hj]⟩

/-- One run of `processItem` makes one call of `SetTrackSegmentWidth`, on its item, sets
`m_failedDRC` when the call reports a DRC error, and changes no other track. -/
theorem processItem_reports (k : Constants) (f : SetTrackSegmentWidthFn)
    (d : DIALOG_GLOBAL_EDIT_TRACKS_AND_VIAS) (i : Nat) (aItem : TRACK) (st : Run) :
    ∃ res, Reports i res st (processItem k f d i aItem st) := by
  unfold processItem
  by_cases hset : d.m_setToSpecifiedValues = true
  · rw [if_pos hset]
    have h1 := setIndices_frames (toUnsigned d.m_trackWidthSelectBox)
      (toUnsigned d.m_viaSizesSelectBox) i st
    have h2 := callSetTrackSegmentWidth_reports f i false
      (setIndices (toUnsigned d.m_trackWidthSelectBox) (toUnsigned d.m_viaSizesSelectBox) st)
    have h3 := setIndices_frames st.brd.TrackWidthIndex st.brd.ViaSizeIndex i
      (callSetTrackSegmentWidth f i false
        (setIndices (toUnsigned d.m_trackWidthSelectBox) (toUnsigned d.m_viaSizesSelectBox) st))
    have h123 := (h1.then_reports h2).then_frames h3
    refine ⟨(f (setIndices (toUnsigned d.m_trackWidthSelectBox)
      (toUnsigned d.m_viaSizesSelectBox) st).brd (setIndices (toUnsigned d.m_trackWidthSelectBox)
      (toUnsigned d.m_viaSizesSelectBox) st).itemsListPicker i false).1, ?_⟩
    simp only []
    split_ifs
    · exact h123.then_frames (setLayerOfItem_frames d i _)
    · exact h123
  · rw [if_neg hset]
    exact ⟨_, callSetTrackSegmentWidth_reports f i true st⟩

theorem visitItem_eq (k : Constants) (f : SetTrackSegmentWidthFn)
    (d : DIALOG_GLOBAL_EDIT_TRACKS_AND_VIAS) (i : Nat) (aItem : TRACK) (st : Run) :
    visitItem k f d i aItem st =
      if (d.m_netFilterOpt = true → d.m_netFilterNetcode ≥ 0 →
            aItem.NetCode = d.m_netFilterNetcode) ∧
          (d.m_netclassFilterOpt = true → d.m_netclassFilter ≠ "" →
            aItem.NetClassName = d.m_netclassFilter) ∧
          (d.m_layerFilterOpt = true → d.m_layerFilter ≠ k.UNDEFINED_LAYER →
            aItem.Layer = d.m_layerFilter) then
        processItem k f d i aItem st
      else st := by
  unfold visitItem
  by_cases h1 : (d.m_netFilterOpt = true ∧ d.m_netFilterNetcode ≥ 0) ∧
      aItem.NetCode ≠ d.m_netFilterNetcode
  · rw [if_pos h1, if_neg (fun h => h1.2 (h.1 h1.1.1 h1.1.2))]
  · rw [if_neg h1]
    by_cases h2 : (d.m_netclassFilterOpt = true ∧ d.m_netclassFilter ≠ "") ∧
        aItem.NetClassName ≠ d.m_netclassFilter
    · rw [if_pos h2, if_neg (fun h => h2.2 (h.2.1 h2.1.1 h2.1.2))]
    · rw [if_neg h2]
      by_cases h3 : (d.m_layerFilterOpt = true ∧ d.m_layerFilter ≠ k.UNDEFINED_LAYER) ∧
          aItem.Layer ≠ d.m_layerFilter
      · rw [if_pos h3, if_neg (fun h => h3.2 (h.2.2 h3.1.1 h3.1.2))]
      · rw [if_neg h3, if_pos]
        refine ⟨fun a b => ?_, fun a b => ?_, fun a b => ?_⟩
        · by_contra hne; exact h1 ⟨⟨a, b⟩, hne⟩
        · by_contra hne; exact h2 ⟨⟨a, b⟩, hne⟩
        · by_contra hne; exact h3 ⟨⟨a, b⟩, hne⟩

/-- The loop body visits exactly the segments that pass the filters. -/
theorem examineSegment_eq (k : Constants) (f : SetTrackSegmentWidthFn)
    (d : DIALOG_GLOBAL_EDIT_TRACKS_AND_VIAS) (i : Nat) (st : Run) :
    examineSegment k f d i st =
      match st.brd.Tracks[i]? with
      | none => st
      | some segment =>
        if passesFilters k d segment = true then processItem k f d i segment st else st := by
  unfold examineSegment
  cases st.brd.Tracks[i]? with
  | none => rfl
  | some segment =>
    simp only [visitItem_eq, passesFilters, decide_eq_true_eq]
    by_cases ht : d.m_tracks = true ∧ segment.ItemType = KICAD_T.PCB_TRACE_T
    · rw [if_pos ht]
      by_cases hf : (d.m_netFilterOpt = true → d.m_netFilterNetcode ≥ 0 →
            segment.NetCode = d.m_netFilterNetcode) ∧
          (d.m_netclassFilterOpt = true → d.m_netclassFilter ≠ "" →
            segment.NetClassName = d.m_netclassFilter) ∧
          (d.m_layerFilterOpt = true → d.m_layerFilter ≠ k.UNDEFINED_LAYER →
            segment.Layer = d.m_layerFilter)
      · rw [if_pos hf, if_pos ⟨Or.inl ht, hf⟩]
      · rw [if_neg hf, if_neg (fun h => hf h.2)]
    · rw [if_neg ht]
      by_cases hv : d.m_vias = true ∧ segment.ItemType = KICAD_T.PCB_VIA_T
      · rw [if_pos hv]
        by_cases hf : (d.m_netFilterOpt = true → d.m_netFilterNetcode ≥ 0 →
              segment.NetCode = d.m_netFilterNetcode) ∧
            (d.m_netclassFilterOpt = true → d.m_netclassFilter ≠ "" →
              segment.NetClassName = d.m_netclassFilter) ∧
            (d.m_layerFilterOpt = true → d.m_layerFilter ≠ k.UNDEFINED_LAYER →
              segment.Layer = d.m_layerFilter)
        · rw [if_pos hf, if_pos ⟨Or.inr hv, hf⟩]
        · rw [if_neg hf, if_neg (fun h => hf h.2)]
      · rw [if_neg hv, if_neg]
        rintro ⟨h | h, _⟩
        · exact ht h
        · exact hv h

theorem filteredItems_succ (k : Constants) (d : DIALOG_GLOBAL_EDIT_TRACKS_AND_VIAS)
    (brd : BOARD) (n : Nat) :
    (List.range (n + 1)).filter (fun i =>
        match brd.Tracks[i]? with
        | some t => passesFilters k d t
        | none => false) =
      (List.range n).filter (fun i =>
        match brd.Tracks[i]? with
        | some t => passesFilters k d t
        | none => false) ++
      (match brd.Tracks[n]? with
        | some t => if passesFilters k d t = true then [n] else []
        | none => []) := by
  rw [List.range_succ, List.filter_append]
  congr 1
  cases h : brd.Tracks[n]? with
  | none => simp [List.filter, h]
  | some t =>
    by_cases hp : passesFilters k d t = true
    · simp [List.filter, h, hp]
    · simp [List.filter, h, hp]

/-- Invariant of the loop of `TransferDataFromWindow` after `n` segments: the tracks from
index `n` on are untouched, the reports are those of the segments below `n` that pass the
filters, in order, and `m_failedDRC` is set when it was set before or a report is a DRC
error. -/
theorem TransferDataFromWindow_loop (k : Constants) (f : SetTrackSegmentWidthFn)
    (d : DIALOG_GLOBAL_EDIT_TRACKS_AND_VIAS) (brd : BOARD) (n : Nat) :
    (forLoop (examineSegment k f d) n
        (Run.mk brd [] d.m_failedDRC [])).brd.Tracks.length = brd.Tracks.length ∧
    (∀ j, n ≤ j → (forLoop (examineSegment k f d) n
        (Run.mk brd [] d.m_failedDRC [])).brd.Tracks[j]? = brd.Tracks[j]?) ∧
    (forLoop (examineSegment k f d) n (Run.mk brd [] d.m_failedDRC [])).reports.map Prod.fst =
      (List.range n).filter (fun i =>
        match brd.Tracks[i]? with
        | some t => passesFilters k d t
        | none => false) ∧
    ((forLoop (examineSegment k f d) n (Run.mk brd [] d.m_failedDRC [])).m_failedDRC = true ↔
      d.m_failedDRC = true ∨
      ∃ i, (i, TRACK_ACTION_RESULT.TRACK_ACTION_DRC_ERROR) ∈
        (forLoop (examineSegment k f d) n (Run.mk brd [] d.m_failedDRC [])).reports) := by
  refine forLoop_invariant
    (fun n (st : Run) =>
      st.brd.Tracks.length = brd.Tracks.length ∧
      (∀ j, n ≤ j → st.brd.Tracks[j]? = brd.Tracks[j]?) ∧
      st.reports.map Prod.fst =
        (List.range n).filter (fun i =>
          match brd.Tracks[i]? with
          | some t => passesFilters k d t
          | none => false) ∧
      (st.m_failedDRC = true ↔
        d.m_failedDRC = true ∨
        ∃ i, (i, TRACK_ACTION_RESULT.TRACK_ACTION_DRC_ERROR) ∈ st.reports))
    (examineSegment k f d) (Run.mk brd [] d.m_failedDRC [])
    ⟨rfl, fun _ _ => rfl, rfl, by simp⟩ ?_ n
  intro i st ⟨h1, h2, h3, h4⟩
  have hseg : st.brd.Tracks[i]? = brd.Tracks[i]? := h2 i (le_refl i)
  rw [examineSegment_eq, filteredItems_succ, hseg]
  cases hb : brd.Tracks[i]? with
  | none =>
    refine ⟨h1, fun j hj => h2 j (by omega), ?_, h4⟩
    simp [h3]
  | some segment =>
    by_cases hp : passesFilters k d segment = true
    · simp only [hp, if_true]
      obtain ⟨res, r1, r2, r3, r4⟩ := processItem_reports k f d i segment st
      refine ⟨r3.trans h1, fun j hj => ?_, ?_, ?_⟩
      · rw [r4 j (by omega)]
        exact h2 j (by omega)
      · rw [r1, List.map_append, h3]
        rfl
      · rw [r1, r2]
        constructor
        · intro hfail
          by_cases hres : res = TRACK_ACTION_RESULT.TRACK_ACTION_DRC_ERROR
          · exact Or.inr ⟨i, by simp [hres]⟩
          · rw [if_neg hres] at hfail
            rcases h4.1 hfail with h | ⟨j, hj⟩
            · exact Or.inl h
            · exact Or.inr ⟨j, by simp [hj]⟩
        · rintro (h | ⟨j, hj⟩)
          · split_ifs
            · rfl
            · exact h4.2 (Or.inl h)
          · rw [List.mem_append] at hj
            rcases hj with hj | hj
            · split_ifs
              · rfl
              · exact h4.2 (Or.inr ⟨j, hj⟩)
            · simp only [List.mem_singleton, Prod.mk.injEq] at hj
              rw [if_pos hj.2.symm]
    · simp only [hp]
      refine ⟨h1, fun j hj => h2 j (by omega), ?_, h4⟩
      simp [h3]

/-- C7: when `m_failedDRC` is false on entry, `TransferDataFromWindow` returns false if
and only if `SetTrackSegmentWidth` reported `TRACK_ACTION_DRC_ERROR` for at least one item
that passed the filters, and returns true otherwise; `SetTrackSegmentWidth` is called
once for each item that passes the filters, in board order, and for no other item. -/
theorem TransferDataFromWindow_returns (k : Constants) (f : SetTrackSegmentWidthFn)
    (d : DIALOG_GLOBAL_EDIT_TRACKS_AND_VIAS) (brd : BOARD) (hentry : d.m_failedDRC = false) :
    ((TransferDataFromWindow k f d brd).returned = false ↔
      ∃ i, i ∈ filteredItems k d brd ∧
        (i, TRACK_ACTION_RESULT.TRACK_ACTION_DRC_ERROR) ∈
          (TransferDataFromWindow k f d brd).reports) ∧
    ((TransferDataFromWindow k f d brd).returned = true ↔
      ¬ ∃ i, i ∈ filteredItems k d brd ∧
        (i, TRACK_ACTION_RESULT.TRACK_ACTION_DRC_ERROR) ∈
          (TransferDataFromWindow k f d brd).reports) ∧
    (TransferDataFromWindow k f d brd).reports.map Prod.fst = filteredItems k d brd := by
  obtain ⟨_, _, h3, h4⟩ := TransferDataFromWindow_loop k f d brd brd.Tracks.length
  have hrep : (TransferDataFromWindow k f d brd).reports.map Prod.fst = filteredItems k d brd :=
    h3
  have hfalse : (TransferDataFromWindow k f d brd).returned = false ↔
      ∃ i, i ∈ filteredItems k d brd ∧
        (i, TRACK_ACTION_RESULT.TRACK_ACTION_DRC_ERROR) ∈
          (TransferDataFromWindow k f d brd).reports := by
    show (!(forLoop (examineSegment k f d) brd.Tracks.length
      (Run.mk brd [] d.m_failedDRC [])).m_failedDRC) = false ↔ _
    rw [Bool.not_eq_false', h4]
    constructor
    · rintro (h | ⟨i, hi⟩)
      · rw [hentry] at h
        exact Bool.noConfusion h
      · refine ⟨i, ?_, hi⟩
        rw [← hrep]
        exact List.mem_map_of_mem Prod.fst hi
    · rintro ⟨i, _, hi⟩
      exact Or.inr ⟨i, hi⟩
  refine ⟨hfalse, ?_, hrep⟩
  rw [← hfalse]
  cases (TransferDataFromWindow k f d brd).returned <;> simp


theorem TransferDataFromWindow_returns_witness :
    tracksOnlyDialog.m_failedDRC = false ∧
    (2 ∈ filteredItems kicadConstants tracksOnlyDialog threeItemBoard ∧
      (2, TRACK_ACTION_RESULT.TRACK_ACTION_DRC_ERROR) ∈
        (TransferDataFromWindow kicadConstants drcErrorOnItemTwo tracksOnlyDialog
          threeItemBoard).reports) ∧
    (TransferDataFromWindow kicadConstants drcErrorOnItemTwo tracksOnlyDialog
      threeItemBoard).returned = false :=
  ⟨rfl, ⟨by decide, by decide⟩,
   (TransferDataFromWindow_returns kicadConstants drcErrorOnItemTwo tracksOnlyDialog
      threeItemBoard rfl).1.mpr ⟨2, by decide, by decide⟩⟩

/-! ### The remembered control settings -/

theorem selectNetclass_frame (env : Collaborators) (name : String)
    (d : DIALOG_GLOBAL_EDIT_TRACKS_AND_VIAS) :
    (selectNetclass env name d).m_tracks = d.m_tracks ∧
    (selectNetclass env name d).m_vias = d.m_vias ∧
    (selectNetclass env name d).m_netclassFilterOpt = d.m_netclassFilterOpt ∧
    (selectNetclass env name d).m_netFilterOpt = d.m_netFilterOpt ∧
    (selectNetclass env name d).m_layerFilterOpt = d.m_layerFilterOpt := by
  unfold selectNetclass
  split_ifs <;> exact ⟨rfl, rfl, rfl, rfl, rfl⟩

theorem selectLayer_frame (k : Constants) (env : Collaborators) (layer : Int)
    (d : DIALOG_GLOBAL_EDIT_TRACKS_AND_VIAS) :
    (selectLayer k env layer d).m_tracks = d.m_tracks ∧
    (selectLayer k env layer d).m_vias = d.m_vias ∧
    (selectLayer k env layer d).m_netclassFilterOpt = d.m_netclassFilterOpt ∧
    (selectLayer k env layer d).m_netFilterOpt = d.m_netFilterOpt ∧
    (selectLayer k env layer d).m_layerFilterOpt = d.m_layerFilterOpt := by
  unfold selectLayer
  split_ifs <;> exact ⟨rfl, rfl, rfl, rfl, rfl⟩

theorem restoreNetclassFilter_spec (env : Collaborators) (g : Globals)
    (item : Option BOARD_CONNECTED_ITEM) (d : DIALOG_GLOBAL_EDIT_TRACKS_AND_VIAS) :
    (restoreNetclassFilter env g item d).m_tracks = d.m_tracks ∧
    (restoreNetclassFilter env g item d).m_vias = d.m_vias ∧
    (restoreNetclassFilter env g item d).m_netclassFilterOpt =
      (d.m_netclassFilterOpt ||
        (g.g_filterByNetclass && env.netclassFilterHas g.g_netclassFilter)) ∧
    (restoreNetclassFilter env g item d).m_netFilterOpt = d.m_netFilterOpt ∧
    (restoreNetclassFilter env g item d).m_layerFilterOpt = d.m_layerFilterOpt := by
  unfold restoreNetclassFilter
  by_cases h : g.g_filterByNetclass = true ∧ env.netclassFilterHas g.g_netclassFilter = true
  · rw [if_pos h]
    obtain ⟨f1, f2, _, f4, f5⟩ := selectNetclass_frame env g.g_netclassFilter d
    exact ⟨f1, f2, by simp [h.1, h.2], f4, f5⟩
  · rw [if_neg h]
    have hb : (g.g_filterByNetclass && env.netclassFilterHas g.g_netclassFilter) = false := by
      simpa using h
    rw [hb, Bool.or_false]
    cases item with
    | none => exact ⟨rfl, rfl, rfl, rfl, rfl⟩
    | some it => exact selectNetclass_frame env it.NetClassName d

theorem restoreNetFilter_spec (env : Collaborators) (g : Globals)
    (item : Option BOARD_CONNECTED_ITEM) (d : DIALOG_GLOBAL_EDIT_TRACKS_AND_VIAS) :
    (restoreNetFilter env g item d).m_tracks = d.m_tracks ∧
    (restoreNetFilter env g item d).m_vias = d.m_vias ∧
    (restoreNetFilter env g item d).m_netclassFilterOpt = d.m_netclassFilterOpt ∧
    (restoreNetFilter env g item d).m_netFilterOpt =
      (d.m_netFilterOpt || (g.g_filterByNet && (env.FindNet g.g_netFilter).isSome)) ∧
    (restoreNetFilter env g item d).m_layerFilterOpt = d.m_layerFilterOpt := by
  unfold restoreNetFilter
  by_cases h : g.g_filterByNet = true ∧ (env.FindNet g.g_netFilter).isSome = true
  · rw [if_pos h]
    exact ⟨rfl, rfl, rfl, by simp [h.1, h.2], rfl⟩
  · rw [if_neg h]
    have hb : (g.g_filterByNet && (env.FindNet g.g_netFilter).isSome) = false := by
      simpa using h
    rw [hb, Bool.or_false]
    cases item with
    | none => exact ⟨rfl, rfl, rfl, rfl, rfl⟩
    | some it => exact ⟨rfl, rfl, rfl, rfl, rfl⟩

theorem restoreLayerFilter_spec (k : Constants) (env : Collaborators) (g : Globals)
    (item : Option BOARD_CONNECTED_ITEM) (d : DIALOG_GLOBAL_EDIT_TRACKS_AND_VIAS) :
    (restoreLayerFilter k env g item d).m_tracks = d.m_tracks ∧
    (restoreLayerFilter k env g item d).m_vias = d.m_vias ∧
    (restoreLayerFilter k env g item d).m_netclassFilterOpt = d.m_netclassFilterOpt ∧
    (restoreLayerFilter k env g item d).m_netFilterOpt = d.m_netFilterOpt ∧
    (restoreLayerFilter k env g item d).m_layerFilterOpt =
      (d.m_layerFilterOpt ||
        (g.g_filterByLayer && decide (env.layerFilterIndex g.g_layerFilter ≠ k.wxNOT_FOUND))) := by
  unfold restoreLayerFilter
  by_cases h : g.g_filterByLayer = true ∧ env.layerFilterIndex g.g_layerFilter ≠ k.wxNOT_FOUND
  · rw [if_pos h]
    obtain ⟨f1, f2, f3, f4, _⟩ := selectLayer_frame k env g.g_layerFilter d
    exact ⟨f1, f2, f3, f4, by simp [h.1, h.2]⟩
  · rw [if_neg h]
    have hb : (g.g_filterByLayer &&
        decide (env.layerFilterIndex g.g_layerFilter ≠ k.wxNOT_FOUND)) = false := by
      simpa using h
    rw [hb, Bool.or_false]
    cases item with
    | none => exact ⟨rfl, rfl, rfl, rfl, rfl⟩
    | some it => exact selectLayer_frame k env it.Layer d

/-- C8: after a dialog is destroyed, `TransferDataToWindow` of the next instance sets the
tracks and vias check boxes to the values they had at destruction.  It checks the
netclass, net and layer filter option when the option was checked at destruction and the
remembered netclass name, net name or layer is still found, and otherwise leaves the
option as the next instance was constructed; so an option that is constructed unchecked is
checked afterwards exactly when it was checked at destruction and the remembered value
can still be selected. -/
theorem TransferDataToWindow_remembers (k : Constants) (env : Collaborators)
    (old fresh : DIALOG_GLOBAL_EDIT_TRACKS_AND_VIAS) (item : Option BOARD_CONNECTED_ITEM) :
    (TransferDataToWindow k env (destructor old) item fresh).m_tracks = old.m_tracks ∧
    (TransferDataToWindow k env (destructor old) item fresh).m_vias = old.m_vias ∧
    (TransferDataToWindow k env (destructor old) item fresh).m_netclassFilterOpt =
      (fresh.m_netclassFilterOpt ||
        (old.m_netclassFilterOpt && env.netclassFilterHas old.m_netclassFilter)) ∧
    (TransferDataToWindow k env (destructor old) item fresh).m_netFilterOpt =
      (fresh.m_netFilterOpt ||
        (old.m_netFilterOpt && (env.FindNet old.m_netFilterNetname).isSome)) ∧
    (TransferDataToWindow k env (destructor old) item fresh).m_layerFilterOpt =
      (fresh.m_layerFilterOpt ||
        (old.m_layerFilterOpt && decide (env.layerFilterIndex old.m_layerFilter ≠ k.wxNOT_FOUND))) ∧
    (fresh.m_netclassFilterOpt = false →
      ((TransferDataToWindow k env (destructor old) item fresh).m_netclassFilterOpt = true ↔
        old.m_netclassFilterOpt = true ∧ env.netclassFilterHas old.m_netclassFilter = true)) ∧
    (fresh.m_netFilterOpt = false →
      ((TransferDataToWindow k env (destructor old) item fresh).m_netFilterOpt = true ↔
        old.m_netFilterOpt = true ∧ (env.FindNet old.m_netFilterNetname).isSome = true)) ∧
    (fresh.m_layerFilterOpt = false →
      ((TransferDataToWindow k env (destructor old) item fresh).m_layerFilterOpt = true ↔
        old.m_layerFilterOpt = true ∧
          env.layerFilterIndex old.m_layerFilter ≠ k.wxNOT_FOUND)) := by
  obtain ⟨a1, a2, a3, a4, a5⟩ := restoreNetclassFilter_spec env (destructor old) item
    { fresh with m_tracks := (destructor old).g_modifyTracks
                 m_vias := (destructor old).g_modifyVias }
  obtain ⟨b1, b2, b3, b4, b5⟩ := restoreNetFilter_spec env (destructor old) item
    (restoreNetclassFilter env (destructor old) item
      { fresh with m_tracks := (destructor old).g_modifyTracks
                   m_vias := (destructor old).g_modifyVias })
  obtain ⟨c1, c2, c3, c4, c5⟩ := restoreLayerFilter_spec k env (destructor old) item
    (restoreNetFilter env (destructor old) item
      (restoreNetclassFilter env (destructor old) item
        { fresh with m_tracks := (destructor old).g_modifyTracks
                     m_vias := (destructor old).g_modifyVias }))
  have h1 : (TransferDataToWindow k env (destructor old) item fresh).m_netclassFilterOpt =
      (fresh.m_netclassFilterOpt ||
        (old.m_netclassFilterOpt && env.netclassFilterHas old.m_netclassFilter)) :=
    c3.trans (b3.trans a3)
  have h2 : (TransferDataToWindow k env (destructor old) item fresh).m_netFilterOpt =
      (fresh.m_netFilterOpt ||
        (old.m_netFilterOpt && (env.FindNet old.m_netFilterNetname).isSome)) := by
    refine c4.trans (b4.trans ?_)
    rw [a4]
    rfl
  have h3 : (TransferDataToWindow k env (destructor old) item fresh).m_layerFilterOpt =
      (fresh.m_layerFilterOpt ||
        (old.m_layerFilterOpt &&
          decide (env.layerFilterIndex old.m_layerFilter ≠ k.wxNOT_FOUND))) := by
    refine c5.trans ?_
    rw [b5, a5]
    rfl
  refine ⟨c1.trans (b1.trans a1), c2.trans (b2.trans a2), h1, h2, h3,
    fun hf => ?_, fun hf => ?_, fun hf => ?_⟩
  · rw [h1, hf]; simp
  · rw [h2, hf]; simp
  · rw [h3, hf]; simp

theorem TransferDataToWindow_remembers_witness :
    tracksOnlyDialog.m_netclassFilterOpt = false ∧
    (TransferDataToWindow kicadConstants powerBoard (destructor viasPowerDialog) none
      tracksOnlyDialog).m_tracks = false ∧
    (TransferDataToWindow kicadConstants powerBoard (destructor viasPowerDialog) none
      tracksOnlyDialog).m_vias = true ∧
    ((TransferDataToWindow kicadConstants powerBoard (destructor viasPowerDialog) none
      tracksOnlyDialog).m_netclassFilterOpt = true ↔
        viasPowerDialog.m_netclassFilterOpt = true ∧
          powerBoard.netclassFilterHas viasPowerDialog.m_netclassFilter = true) :=
  ⟨rfl,
   (TransferDataToWindow_remembers kicadConstants powerBoard viasPowerDialog tracksOnlyDialog
      none).1,
   (TransferDataToWindow_remembers kicadConstants powerBoard viasPowerDialog tracksOnlyDialog
      none).2.1,
   (TransferDataToWindow_remembers kicadConstants powerBoard viasPowerDialog tracksOnlyDialog
      none).2.2.2.2.2.1 rfl⟩


/-! ### Reporting DRC failures and the netclass grid -/

/-- C16: `OnUpdateUI` displays the error 'Some items failed DRC and were not modified.'
exactly when `m_failedDRC` is set on entry and displays nothing otherwise; `m_failedDRC`
is false after every call; a second `OnUpdateUI` right after the first displays
nothing. -/
theorem OnUpdateUI_reports_once (d : DIALOG_GLOBAL_EDIT_TRACKS_AND_VIAS) :
    ((OnUpdateUI d).displayed = ["Some items failed DRC and were not modified."] ↔
      d.m_failedDRC = true) ∧
    ((OnUpdateUI d).displayed = [] ↔ d.m_failedDRC = false) ∧
    (OnUpdateUI d).dialog.m_failedDRC = false ∧
    (OnUpdateUI (OnUpdateUI d).dialog).displayed = [] ∧
    (OnUpdateUI (OnUpdateUI d).dialog).dialog = (OnUpdateUI d).dialog := by
  cases h : d.m_failedDRC
  · have h1 : OnUpdateUI d = UpdateUIOutcome.mk d d.m_setToSpecifiedValues
        d.m_setToSpecifiedValues [] := by
      unfold OnUpdateUI
      rw [if_neg (by simp [h])]
    rw [h1]
    show (_ ↔ _) ∧ (_ ↔ _) ∧ d.m_failedDRC = false ∧ (OnUpdateUI d).displayed = [] ∧
      (OnUpdateUI d).dialog = d
    rw [h1]
    simp [h]
  · have h1 : OnUpdateUI d = UpdateUIOutcome.mk { d with m_failedDRC := false }
        d.m_setToSpecifiedValues d.m_setToSpecifiedValues
        ["Some items failed DRC and were not modified."] := by
      unfold OnUpdateUI
      rw [if_pos h]
    have h2 : OnUpdateUI { d with m_failedDRC := false } =
        UpdateUIOutcome.mk { d with m_failedDRC := false } d.m_setToSpecifiedValues
          d.m_setToSpecifiedValues [] := by
      unfold OnUpdateUI
      rw [if_neg (by simp)]
    rw [h1]
    show (_ ↔ _) ∧ (_ ↔ _) ∧ _ ∧ (OnUpdateUI { d with m_failedDRC := false }).displayed = [] ∧
      (OnUpdateUI { d with m_failedDRC := false }).dialog = _
    rw [h2]
    simp

theorem setNetclassRow_spec (StringFromValue : Int → String) (row : Nat) (name : String)
    (netclass : NETCLASS) (g : WX_GRID) (h : row < g.rows) :
    ∃ g', setNetclassRow StringFromValue row name netclass g = some g' ∧
      g'.rows = g.rows ∧
      netclassInRow StringFromValue g' row name netclass ∧
      (∀ r c, r ≠ row → g'.cells r c = g.cells r c) ∧
      g'.written = g.written ++ rowWrites row := by
  simp only [setNetclassRow, WX_GRID.SetCellValue, h, if_true, Option.some_bind]
  refine ⟨_, rfl, rfl, ?_, ?_, ?_⟩
  · simp [netclassInRow, GRID_NAME, GRID_TRACKSIZE, GRID_VIASIZE, GRID_VIADRILL,
      GRID_uVIASIZE, GRID_uVIADRILL]
  · intro r c hr
    simp [hr]
  · simp [rowWrites]

theorem fillRows_spec (StringFromValue : Int → String) (l : List (String × NETCLASS)) :
    ∀ (row : Nat) (g : WX_GRID), row + l.length ≤ g.rows →
    ∃ g', fillRows StringFromValue l row g = some g' ∧
      g'.rows = g.rows ∧
      (∀ k (hk : k < l.length),
        netclassInRow StringFromValue g' (row + k) (l.get ⟨k, hk⟩).1 (l.get ⟨k, hk⟩).2) ∧
      (∀ r c, r < row → g'.cells r c = g.cells r c) ∧
      ∃ w, g'.written = g.written ++ w ∧
        (∀ rc ∈ w, row ≤ rc.1 ∧ rc.1 < row + l.length) ∧
        ∀ r, row ≤ r → r < row + l.length → ∃ c, (r, c) ∈ w := by
  induction l with
  | nil =>
    intro row g _
    exact ⟨g, rfl, rfl, fun k hk => absurd hk (by simp), fun _ _ _ => rfl, [], by simp,
      by simp, fun r h1 h2 => absurd h2 (by simp; omega)⟩
  | cons nc rest ih =>
    intro row g hrows
    simp only [List.length_cons] at hrows
    obtain ⟨g1, e1, r1, in1, o1, w1⟩ :=
      setNetclassRow_spec StringFromValue row nc.1 nc.2 g (by omega)
    obtain ⟨g2, e2, r2, in2, o2, w, w2, wb, wc⟩ := ih (row + 1) g1 (by omega)
    refine ⟨g2, ?_, by omega, ?_, ?_, rowWrites row ++ w, ?_, ?_, ?_⟩
    · show (setNetclassRow StringFromValue row nc.1 nc.2 g).bind _ = _
      rw [e1, Option.some_bind, e2]
    · intro k hk
      cases k with
      | zero =>
        have hcells : ∀ c, g2.cells row c = g1.cells row c := fun c => o2 row c (by omega)
        unfold netclassInRow at in1 ⊢
        simp only [Nat.add_zero, hcells]
        exact in1
      | succ j =>
        have hj : j < rest.length := by simpa using hk
        have := in2 j hj
        rw [show row + (j + 1) = row + 1 + j by omega]
        exact this
    · intro r c hr
      rw [o2 r c (by omega), o1 r c (by omega)]
    · rw [w2, w1, List.append_assoc]
    · intro rc hrc
      simp only [List.length_cons]
      rcases List.mem_append.1 hrc with h | h
      · have : rc.1 = row := by
          simp only [rowWrites, List.mem_cons, List.mem_singleton] at h
          rcases h with h | h | h | h | h | h | h
          all_goals first | (rw [h]) | exact absurd h (List.not_mem_nil _)
        omega
      · have := wb rc h
        omega
    · intro r h1 h2
      simp only [List.length_cons] at h2
      by_cases hr : r = row
      · exact ⟨GRID_NAME, List.mem_append.2 (Or.inl (by simp [rowWrites, hr]))⟩
      · obtain ⟨c, hc⟩ := wc r (by omega) (by omega)
        exact ⟨c, List.mem_append.2 (Or.inr hc)⟩

theorem toInt_GetCount (netclasses : NETCLASSES)
    (hn : netclasses.m_NetClasses.length + 1 ≤ 2147483647) :
    (toInt (netclasses.GetCount + 1)).toNat = netclasses.m_NetClasses.length + 1 := by
  unfold toInt NETCLASSES.GetCount
  rw [Nat.mod_eq_of_lt (show netclasses.m_NetClasses.length < 4294967296 by omega),
    Nat.mod_eq_of_lt (show netclasses.m_NetClasses.length + 1 < 4294967296 by omega),
    if_pos (by omega)]
  exact Int.toNat_natCast _

theorem headers_spec (g : WX_GRID) (h : 1 ≤ g.rows) (k : WX_GRID → Option WX_GRID) :
    ((g.SetCellValue 0 GRID_TRACKSIZE "Track Width").bind fun g =>
      (g.SetCellValue 0 GRID_VIASIZE "Via Size").bind fun g =>
      (g.SetCellValue 0 GRID_VIADRILL "Via Drill").bind fun g =>
      (g.SetCellValue 0 GRID_uVIASIZE "uVia Size").bind fun g =>
      (g.SetCellValue 0 GRID_uVIADRILL "uVia Drill").bind k) =
    k { g with
      cells := fun r c =>
        if r = 0 ∧ c = GRID_uVIADRILL then "uVia Drill"
        else if r = 0 ∧ c = GRID_uVIASIZE then "uVia Size"
        else if r = 0 ∧ c = GRID_VIADRILL then "Via Drill"
        else if r = 0 ∧ c = GRID_VIASIZE then "Via Size"
        else if r = 0 ∧ c = GRID_TRACKSIZE then "Track Width"
        else g.cells r c
      written := g.written ++ [(0, GRID_TRACKSIZE), (0, GRID_VIASIZE), (0, GRID_VIADRILL),
        (0, GRID_uVIASIZE), (0, GRID_uVIADRILL)] } := by
  have h0 : 0 < g.rows := h
  simp only [WX_GRID.SetCellValue, h0, if_true, Option.some_bind, List.append_assoc,
    List.singleton_append, List.cons_append, List.nil_append]

/-- C19: for a board with `n` netclasses (`n + 1` within the range of `int`) and a grid
with at least one row, `buildNetclassesGrid` returns, the grid has `n + 1` more rows, the
default netclass (name, track width, via size, via drill, uVia size, uVia drill) stands in
row 1 and the `k`-th netclass in iteration order in row `2 + k`, and the cells it writes
are in the rows `0 .. n + 1`, each of them written and each smaller than the row count
after the append. -/
theorem buildNetclassesGrid_fills_rows (StringFromValue : Int → String)
    (netclasses : NETCLASSES) (g : WX_GRID) (hrows : 1 ≤ g.rows)
    (hn : netclasses.m_NetClasses.length + 1 ≤ 2147483647) :
    ∃ g', buildNetclassesGrid StringFromValue netclasses g = some g' ∧
      g'.rows = g.rows + (netclasses.m_NetClasses.length + 1) ∧
      netclassInRow StringFromValue g' 1 netclasses.m_Default.Name netclasses.m_Default ∧
      (∀ k (hk : k < netclasses.m_NetClasses.length),
        netclassInRow StringFromValue g' (2 + k)
          (netclasses.m_NetClasses.get ⟨k, hk⟩).1 (netclasses.m_NetClasses.get ⟨k, hk⟩).2) ∧
      ∃ w, g'.written = g.written ++ w ∧
        (∀ rc ∈ w, rc.1 ≤ netclasses.m_NetClasses.length + 1 ∧ rc.1 < g'.rows) ∧
        ∀ r, r ≤ netclasses.m_NetClasses.length + 1 → ∃ c, (r, c) ∈ w := by
  unfold buildNetclassesGrid
  rw [headers_spec g hrows]
  generalize hg0 : ({ g with
      cells := fun r c =>
        if r = 0 ∧ c = GRID_uVIADRILL then "uVia Drill"
        else if r = 0 ∧ c = GRID_uVIASIZE then "uVia Size"
        else if r = 0 ∧ c = GRID_VIADRILL then "Via Drill"
        else if r = 0 ∧ c = GRID_VIASIZE then "Via Size"
        else if r = 0 ∧ c = GRID_TRACKSIZE then "Track Width"
        else g.cells r c
      written := g.written ++ [(0, GRID_TRACKSIZE), (0, GRID_VIASIZE), (0, GRID_VIADRILL),
        (0, GRID_uVIASIZE), (0, GRID_uVIADRILL)] } : WX_GRID) = g0
  have hr0 : g0.rows = g.rows := by rw [← hg0]
  have hw0 : g0.written = g.written ++ [(0, GRID_TRACKSIZE), (0, GRID_VIASIZE),
      (0, GRID_VIADRILL), (0, GRID_uVIASIZE), (0, GRID_uVIADRILL)] := by rw [← hg0]
  have hra : (g0.AppendRows (toInt (netclasses.GetCount + 1))).rows =
      g.rows + (netclasses.m_NetClasses.length + 1) := by
    show g0.rows + _ = _
    rw [toInt_GetCount netclasses hn, hr0]
  have hwa : (g0.AppendRows (toInt (netclasses.GetCount + 1))).written = g0.written := rfl
  obtain ⟨g1, e1, r1, in1, _, w1⟩ :=
    setNetclassRow_spec StringFromValue 1 netclasses.m_Default.Name netclasses.m_Default
      (g0.AppendRows (toInt (netclasses.GetCount + 1))) (by omega)
  obtain ⟨g2, e2, r2, in2, o2, w, w2, wb, wc⟩ :=
    fillRows_spec StringFromValue netclasses.m_NetClasses 2 g1 (by omega)
  refine ⟨g2, ?_, by omega, ?_, in2, ?_⟩
  · rw [e1, Option.some_bind, e2]
  · have hcells : ∀ c, g2.cells 1 c = g1.cells 1 c := fun c => o2 1 c (by omega)
    unfold netclassInRow at in1 ⊢
    simp only [hcells]
    exact in1
  · refine ⟨[(0, GRID_TRACKSIZE), (0, GRID_VIASIZE), (0, GRID_VIADRILL), (0, GRID_uVIASIZE),
      (0, GRID_uVIADRILL)] ++ (rowWrites 1 ++ w), ?_, ?_, ?_⟩
    · rw [w2, w1, hwa, hw0]
      simp only [List.append_assoc]
    · intro rc hrc
      have hrow : rc.1 ≤ netclasses.m_NetClasses.length + 1 := by
        rcases List.mem_append.1 hrc with h | h
        · have : rc.1 = 0 := by
            simp only [List.mem_cons, List.mem_singleton] at h
            rcases h with h | h | h | h | h | h
            all_goals first | (rw [h]) | exact absurd h (List.not_mem_nil _)
          omega
        · rcases List.mem_append.1 h with h | h
          · have : rc.1 = 1 := by
              simp only [rowWrites, List.mem_cons, List.mem_singleton] at h
              rcases h with h | h | h | h | h | h | h
              all_goals first | (rw [h]) | exact absurd h (List.not_mem_nil _)
            omega
          · have := wb rc h
            omega
      exact ⟨hrow, by omega⟩
    · intro r hr
      by_cases h0 : r = 0
      · exact ⟨GRID_TRACKSIZE, List.mem_append.2 (Or.inl (by simp [h0]))⟩
      · by_cases h1 : r = 1
        · exact ⟨GRID_NAME,
            List.mem_append.2 (Or.inr (List.mem_append.2 (Or.inl (by simp [rowWrites, h1]))))⟩
        · obtain ⟨c, hc⟩ := wc r (by omega) (by omega)
          exact ⟨c, List.mem_append.2 (Or.inr (List.mem_append.2 (Or.inr hc)))⟩

theorem buildNetclassesGrid_fills_rows_witness :
    (1 ≤ oneRowGrid.rows ∧ twoNetclasses.m_NetClasses.length + 1 ≤ 2147483647) ∧
    (buildNetclassesGrid showValue twoNetclasses oneRowGrid).map (fun g => g.rows) = some 4 ∧
    (buildNetclassesGrid showValue twoNetclasses oneRowGrid).map
      (fun g => (g.cells 1 GRID_NAME, g.cells 3 GRID_NAME)) = some ("Default", "Signal") := by
  obtain ⟨g', e, hr, hd, hk, _⟩ :=
    buildNetclassesGrid_fills_rows showValue twoNetclasses oneRowGrid (by decide) (by decide)
  have h3 : g'.cells 3 GRID_NAME = "Signal" := (hk 1 (by decide)).1
  have h1 : g'.cells 1 GRID_NAME = "Default" := hd.1
  rw [e]
  exact ⟨⟨by decide, by decide⟩, congrArg some hr, by rw [Option.map_some', h1, h3]⟩

end GlobalEdit
